import Mathlib

/-!
Verification of the mysql-sqlparse-rs SQL front-end against its specification.

The development shallowly embeds the repository's parser (src/parser.rs) and
AST rendering (src/ast/mod.rs, src/ast/query.rs) in Lean.  The tokenizer,
dialect and keyword table, and the AST submodules value.rs, operator.rs,
data_type.rs and ddl.rs are not present under src/; definitions for those
parts are modelled from the spec and are marked as such in their doc comments.

The parser's mutable state is a cursor index into an immutable token vector
(spec 4.4); it is embedded as a state monad over the index, with the token
vector and dialect tag as a read-only context.  Rust `panic!` is embedded as
a dedicated error constructor that propagates through every combinator
(including the error-swallowing ones), matching process-abort semantics.
Recursive parser loops take an explicit fuel argument; running out of fuel
yields an ordinary parser error, never a spurious success.
-/

set_option maxRecDepth 8000
set_option maxHeartbeats 2000000

namespace SqlParse

/-- Modelled from the spec: the keyword table (component C1, spec 4.1) lives in
dialect/keywords.rs, which is not under src/. One tag per reserved word referenced
by the parser, plus NoKeyword for non-keyword words (spec 3.1, 4.1). -/
inductive Keyword where
  | ACTION
  | ADD
  | AFTER
  | ALL
  | ALTER
  | ANALYZE
  | AND
  | APPLY
  | AS
  | ASC
  | ASSERT
  | AUTO_INCREMENT
  | AVRO
  | BEGIN
  | BETWEEN
  | BIGINT
  | BOOLEAN
  | BY
  | BYTEA
  | CALL
  | CASCADE
  | CASE
  | CAST
  | CHAIN
  | CHANGE
  | CHAR
  | CHARACTER
  | CHARSET
  | CHECK
  | COLLATE
  | COLUMN
  | COLUMNS
  | COMMENT
  | COMMIT
  | COMMITTED
  | CONFIG
  | CONNECTION
  | CONSTRAINT
  | COPY
  | COUNT
  | CREATE
  | CROSS
  | CURRENT
  | DATABASE
  | DATE
  | DAY
  | DEC
  | DECIMAL
  | DEFAULT
  | DELAYED
  | DELETE
  | DESC
  | DISTINCT
  | DOUBLE
  | DROP
  | DUPLICATE
  | ELSE
  | END
  | ENGINE
  | ERROR
  | EXCEPT
  | EXISTS
  | EXPLAIN
  | EXTENDED
  | EXTERNAL
  | EXTRACT
  | FALSE
  | FETCH
  | FIELDS
  | FIRST
  | FLOAT
  | FOLLOWING
  | FOR
  | FORCE
  | FOREIGN
  | FORMAT
  | FROM
  | FULL
  | FULLTEXT
  | GLOBAL
  | GROUP
  | GROUPS
  | HAVING
  | HIGH_PRIORITY
  | HOUR
  | IF
  | IGNORE
  | IN
  | INDEX
  | INNER
  | INSERT
  | INT
  | INTEGER
  | INTERSECT
  | INTERVAL
  | INTO
  | IS
  | ISOLATION
  | JOIN
  | JSON
  | JSONFILE
  | KEY
  | KEY_BLOCK_SIZE
  | LAST
  | LATERAL
  | LEFT
  | LEVEL
  | LIKE
  | LIMIT
  | LISTAGG
  | LOCAL
  | LOCATION
  | LOCK
  | LOW_PRIORITY
  | MATERIALIZED
  | MINUTE
  | MODIFY
  | MONTH
  | NATURAL
  | NEXT
  | NO
  | NOT
  | NULL
  | NULLS
  | NUMERIC
  | OFFSET
  | ON
  | ONLY
  | OR
  | ORC
  | ORDER
  | OUTER
  | OVER
  | OVERFLOW
  | PARQUET
  | PARSER
  | PARTITION
  | PERCENT
  | PRECEDING
  | PRECISION
  | PRIMARY
  | RANGE
  | RCFILE
  | READ
  | REAL
  | REFERENCES
  | REGCLASS
  | RELOAD
  | RENAME
  | REPEATABLE
  | REPLACE
  | RESTRICT
  | RIGHT
  | ROLLBACK
  | ROW
  | ROWID
  | ROWS
  | SCHEMA
  | SECOND
  | SELECT
  | SEQUENCEFILE
  | SERIALIZABLE
  | SESSION
  | SET
  | SHOW
  | SMALLINT
  | SPATIAL
  | START
  | STDIN
  | STORED
  | TABLE
  | TABLES
  | TEXT
  | TEXTFILE
  | THEN
  | TIES
  | TIME
  | TIMESTAMP
  | TO
  | TOP
  | TRADITIONAL
  | TRANSACTION
  | TREE
  | TRUE
  | TRUNCATE
  | UNBOUNDED
  | UNCOMMITTED
  | UNION
  | UNIQUE
  | UNLOCK
  | UNSIGNED
  | UPDATE
  | USE
  | USER
  | USING
  | UUID
  | VALUE
  | VALUES
  | VARCHAR
  | VARYING
  | VIEW
  | VIRTUAL
  | WHEN
  | WHERE
  | WITH
  | WITHIN
  | WITHOUT
  | WORK
  | WRITE
  | YEAR
  | ZONE
  | NoKeyword
deriving DecidableEq, BEq, Repr

/-- Modelled from the spec: the word-to-keyword association of the keyword table
(spec 4.1: a single ordered list of reserved words, each mapped to a distinct tag). -/
def keyword_lookup : List (String × Keyword) :=
  [("ACTION", Keyword.ACTION),
   ("ADD", Keyword.ADD),
   ("AFTER", Keyword.AFTER),
   ("ALL", Keyword.ALL),
   ("ALTER", Keyword.ALTER),
   ("ANALYZE", Keyword.ANALYZE),
   ("AND", Keyword.AND),
   ("APPLY", Keyword.APPLY),
   ("AS", Keyword.AS),
   ("ASC", Keyword.ASC),
   ("ASSERT", Keyword.ASSERT),
   ("AUTO_INCREMENT", Keyword.AUTO_INCREMENT),
   ("AVRO", Keyword.AVRO),
   ("BEGIN", Keyword.BEGIN),
   ("BETWEEN", Keyword.BETWEEN),
   ("BIGINT", Keyword.BIGINT),
   ("BOOLEAN", Keyword.BOOLEAN),
   ("BY", Keyword.BY),
   ("BYTEA", Keyword.BYTEA),
   ("CALL", Keyword.CALL),
   ("CASCADE", Keyword.CASCADE),
   ("CASE", Keyword.CASE),
   ("CAST", Keyword.CAST),
   ("CHAIN", Keyword.CHAIN),
   ("CHANGE", Keyword.CHANGE),
   ("CHAR", Keyword.CHAR),
   ("CHARACTER", Keyword.CHARACTER),
   ("CHARSET", Keyword.CHARSET),
   ("CHECK", Keyword.CHECK),
   ("COLLATE", Keyword.COLLATE),
   ("COLUMN", Keyword.COLUMN),
   ("COLUMNS", Keyword.COLUMNS),
   ("COMMENT", Keyword.COMMENT),
   ("COMMIT", Keyword.COMMIT),
   ("COMMITTED", Keyword.COMMITTED),
   ("CONFIG", Keyword.CONFIG),
   ("CONNECTION", Keyword.CONNECTION),
   ("CONSTRAINT", Keyword.CONSTRAINT),
   ("COPY", Keyword.COPY),
   ("COUNT", Keyword.COUNT),
   ("CREATE", Keyword.CREATE),
   ("CROSS", Keyword.CROSS),
   ("CURRENT", Keyword.CURRENT),
   ("DATABASE", Keyword.DATABASE),
   ("DATE", Keyword.DATE),
   ("DAY", Keyword.DAY),
   ("DEC", Keyword.DEC),
   ("DECIMAL", Keyword.DECIMAL),
   ("DEFAULT", Keyword.DEFAULT),
   ("DELAYED", Keyword.DELAYED),
   ("DELETE", Keyword.DELETE),
   ("DESC", Keyword.DESC),
   ("DISTINCT", Keyword.DISTINCT),
   ("DOUBLE", Keyword.DOUBLE),
   ("DROP", Keyword.DROP),
   ("DUPLICATE", Keyword.DUPLICATE),
   ("ELSE", Keyword.ELSE),
   ("END", Keyword.END),
   ("ENGINE", Keyword.ENGINE),
   ("ERROR", Keyword.ERROR),
   ("EXCEPT", Keyword.EXCEPT),
   ("EXISTS", Keyword.EXISTS),
   ("EXPLAIN", Keyword.EXPLAIN),
   ("EXTENDED", Keyword.EXTENDED),
   ("EXTERNAL", Keyword.EXTERNAL),
   ("EXTRACT", Keyword.EXTRACT),
   ("FALSE", Keyword.FALSE),
   ("FETCH", Keyword.FETCH),
   ("FIELDS", Keyword.FIELDS),
   ("FIRST", Keyword.FIRST),
   ("FLOAT", Keyword.FLOAT),
   ("FOLLOWING", Keyword.FOLLOWING),
   ("FOR", Keyword.FOR),
   ("FORCE", Keyword.FORCE),
   ("FOREIGN", Keyword.FOREIGN),
   ("FORMAT", Keyword.FORMAT),
   ("FROM", Keyword.FROM),
   ("FULL", Keyword.FULL),
   ("FULLTEXT", Keyword.FULLTEXT),
   ("GLOBAL", Keyword.GLOBAL),
   ("GROUP", Keyword.GROUP),
   ("GROUPS", Keyword.GROUPS),
   ("HAVING", Keyword.HAVING),
   ("HIGH_PRIORITY", Keyword.HIGH_PRIORITY),
   ("HOUR", Keyword.HOUR),
   ("IF", Keyword.IF),
   ("IGNORE", Keyword.IGNORE),
   ("IN", Keyword.IN),
   ("INDEX", Keyword.INDEX),
   ("INNER", Keyword.INNER),
   ("INSERT", Keyword.INSERT),
   ("INT", Keyword.INT),
   ("INTEGER", Keyword.INTEGER),
   ("INTERSECT", Keyword.INTERSECT),
   ("INTERVAL", Keyword.INTERVAL),
   ("INTO", Keyword.INTO),
   ("IS", Keyword.IS),
   ("ISOLATION", Keyword.ISOLATION),
   ("JOIN", Keyword.JOIN),
   ("JSON", Keyword.JSON),
   ("JSONFILE", Keyword.JSONFILE),
   ("KEY", Keyword.KEY),
   ("KEY_BLOCK_SIZE", Keyword.KEY_BLOCK_SIZE),
   ("LAST", Keyword.LAST),
   ("LATERAL", Keyword.LATERAL),
   ("LEFT", Keyword.LEFT),
   ("LEVEL", Keyword.LEVEL),
   ("LIKE", Keyword.LIKE),
   ("LIMIT", Keyword.LIMIT),
   ("LISTAGG", Keyword.LISTAGG),
   ("LOCAL", Keyword.LOCAL),
   ("LOCATION", Keyword.LOCATION),
   ("LOCK", Keyword.LOCK),
   ("LOW_PRIORITY", Keyword.LOW_PRIORITY),
   ("MATERIALIZED", Keyword.MATERIALIZED),
   ("MINUTE", Keyword.MINUTE),
   ("MODIFY", Keyword.MODIFY),
   ("MONTH", Keyword.MONTH),
   ("NATURAL", Keyword.NATURAL),
   ("NEXT", Keyword.NEXT),
   ("NO", Keyword.NO),
   ("NOT", Keyword.NOT),
   ("NULL", Keyword.NULL),
   ("NULLS", Keyword.NULLS),
   ("NUMERIC", Keyword.NUMERIC),
   ("OFFSET", Keyword.OFFSET),
   ("ON", Keyword.ON),
   ("ONLY", Keyword.ONLY),
   ("OR", Keyword.OR),
   ("ORC", Keyword.ORC),
   ("ORDER", Keyword.ORDER),
   ("OUTER", Keyword.OUTER),
   ("OVER", Keyword.OVER),
   ("OVERFLOW", Keyword.OVERFLOW),
   ("PARQUET", Keyword.PARQUET),
   ("PARSER", Keyword.PARSER),
   ("PARTITION", Keyword.PARTITION),
   ("PERCENT", Keyword.PERCENT),
   ("PRECEDING", Keyword.PRECEDING),
   ("PRECISION", Keyword.PRECISION),
   ("PRIMARY", Keyword.PRIMARY),
   ("RANGE", Keyword.RANGE),
   ("RCFILE", Keyword.RCFILE),
   ("READ", Keyword.READ),
   ("REAL", Keyword.REAL),
   ("REFERENCES", Keyword.REFERENCES),
   ("REGCLASS", Keyword.REGCLASS),
   ("RELOAD", Keyword.RELOAD),
   ("RENAME", Keyword.RENAME),
   ("REPEATABLE", Keyword.REPEATABLE),
   ("REPLACE", Keyword.REPLACE),
   ("RESTRICT", Keyword.RESTRICT),
   ("RIGHT", Keyword.RIGHT),
   ("ROLLBACK", Keyword.ROLLBACK),
   ("ROW", Keyword.ROW),
   ("ROWID", Keyword.ROWID),
   ("ROWS", Keyword.ROWS),
   ("SCHEMA", Keyword.SCHEMA),
   ("SECOND", Keyword.SECOND),
   ("SELECT", Keyword.SELECT),
   ("SEQUENCEFILE", Keyword.SEQUENCEFILE),
   ("SERIALIZABLE", Keyword.SERIALIZABLE),
   ("SESSION", Keyword.SESSION),
   ("SET", Keyword.SET),
   ("SHOW", Keyword.SHOW),
   ("SMALLINT", Keyword.SMALLINT),
   ("SPATIAL", Keyword.SPATIAL),
   ("START", Keyword.START),
   ("STDIN", Keyword.STDIN),
   ("STORED", Keyword.STORED),
   ("TABLE", Keyword.TABLE),
   ("TABLES", Keyword.TABLES),
   ("TEXT", Keyword.TEXT),
   ("TEXTFILE", Keyword.TEXTFILE),
   ("THEN", Keyword.THEN),
   ("TIES", Keyword.TIES),
   ("TIME", Keyword.TIME),
   ("TIMESTAMP", Keyword.TIMESTAMP),
   ("TO", Keyword.TO),
   ("TOP", Keyword.TOP),
   ("TRADITIONAL", Keyword.TRADITIONAL),
   ("TRANSACTION", Keyword.TRANSACTION),
   ("TREE", Keyword.TREE),
   ("TRUE", Keyword.TRUE),
   ("TRUNCATE", Keyword.TRUNCATE),
   ("UNBOUNDED", Keyword.UNBOUNDED),
   ("UNCOMMITTED", Keyword.UNCOMMITTED),
   ("UNION", Keyword.UNION),
   ("UNIQUE", Keyword.UNIQUE),
   ("UNLOCK", Keyword.UNLOCK),
   ("UNSIGNED", Keyword.UNSIGNED),
   ("UPDATE", Keyword.UPDATE),
   ("USE", Keyword.USE),
   ("USER", Keyword.USER),
   ("USING", Keyword.USING),
   ("UUID", Keyword.UUID),
   ("VALUE", Keyword.VALUE),
   ("VALUES", Keyword.VALUES),
   ("VARCHAR", Keyword.VARCHAR),
   ("VARYING", Keyword.VARYING),
   ("VIEW", Keyword.VIEW),
   ("VIRTUAL", Keyword.VIRTUAL),
   ("WHEN", Keyword.WHEN),
   ("WHERE", Keyword.WHERE),
   ("WITH", Keyword.WITH),
   ("WITHIN", Keyword.WITHIN),
   ("WITHOUT", Keyword.WITHOUT),
   ("WORK", Keyword.WORK),
   ("WRITE", Keyword.WRITE),
   ("YEAR", Keyword.YEAR),
   ("ZONE", Keyword.ZONE)]

/-- ASCII upper-casing of one character (Rust char::to_ascii_uppercase; the
keyword table is pure ASCII). -/
def ascii_upper (c : Char) : Char :=
  if 'a' ≤ c ∧ c ≤ 'z' then Char.ofNat (c.toNat - 32) else c

/-- ASCII upper-casing of a string (Rust str::to_uppercase on ASCII text). -/
def str_upper (s : String) : String :=
  String.mk (s.data.map ascii_upper)

/-- ASCII lower-casing of one character. -/
def ascii_lower (c : Char) : Char :=
  if 'A' ≤ c ∧ c ≤ 'Z' then Char.ofNat (c.toNat + 32) else c

/-- ASCII lower-casing of a string (Rust str::to_lowercase on ASCII text). -/
def str_lower (s : String) : String :=
  String.mk (s.data.map ascii_lower)

/-- Decimal digit accumulation for Rust str::parse::<u64> (overflow aside,
which the sources never reach on realistic literals). -/
def digits_to_nat (acc : Nat) : List Char → Option Nat
  | [] => some acc
  | c :: rest =>
    if c.isDigit then digits_to_nat (acc * 10 + (c.toNat - 48)) rest
    else none

/-- Rust str::parse::<u64>: all-digit, non-empty strings parse. -/
def str_to_nat (s : String) : Option Nat :=
  match s.data with
  | [] => none
  | l => digits_to_nat 0 l

/-- Modelled from the spec: case-insensitive keyword lookup (spec 4.1:
"Lookup is case-insensitive (compare uppercased text)"; case-folding is
performed at compare time). -/
def keyword_of (s : String) : Keyword :=
  match keyword_lookup.find? (fun p => p.1 == str_upper s) with
  | some p => p.2
  | none => Keyword.NoKeyword


/-- Modelled from the spec: whitespace token payload (spec 3.1:
Whitespace(Space|Tab|Newline|SingleLineComment(text)|MultiLineComment(text))). -/
inductive Whitespace where
  | Space
  | Newline
  | Tab
  | SingleLineComment (comment : String)
  | MultiLineComment (comment : String)
deriving DecidableEq, BEq, Repr

/-- Modelled from the spec: a word token (spec 3.1: Word{value, quote_style?,
keyword_tag}; quote_style, when present, is one of ' " ` [). -/
structure Word where
  value : String
  quote_style : Option Char
  keyword : Keyword
deriving DecidableEq, BEq, Repr

/-- Modelled from the spec: the token alphabet (spec 3.1 and 4.3).  `EOF` is the
sentinel the cursor operations return past the end of the stream (src/parser.rs
`next_token`). -/
inductive Token where
  | Word (w : Word)
  | Number (n : String)
  | Char (c : Char)
  | SingleQuotedString (s : String)
  | NationalStringLiteral (s : String)
  | HexStringLiteral (s : String)
  | VariableString (s : String)
  | Whitespace (w : Whitespace)
  | Comma
  | Period
  | LParen
  | RParen
  | LBracket
  | RBracket
  | Eq
  | Neq
  | Lt
  | LtEq
  | Gt
  | GtEq
  | Plus
  | Minus
  | Mult
  | Div
  | Mod
  | StringConcat
  | Pipe
  | Caret
  | Ampersand
  | Negate
  | LDisplacement
  | RDisplacement
  | DoubleColon
  | SemiColon
  | Backslash
  | EOF
deriving DecidableEq, BEq, Repr

/-- Modelled from the spec: the textual rendering of a token, used by the
parser's "Expected {}, found: {}" messages (spec 7: "every error carries the
offending token's text"). -/
def Token.render : Token → String
  | .Word w =>
    match w.quote_style with
    | none => w.value
    | some q => if q = '[' then "[" ++ w.value ++ "]"
                else String.singleton q ++ w.value ++ String.singleton q
  | .Number n => n
  | .Char c => String.singleton c
  | .SingleQuotedString s => "'" ++ s ++ "'"
  | .NationalStringLiteral s => "N'" ++ s ++ "'"
  | .HexStringLiteral s => "X'" ++ s ++ "'"
  | .VariableString s => s
  | .Whitespace .Space => " "
  | .Whitespace .Newline => "\n"
  | .Whitespace .Tab => "\t"
  | .Whitespace (.SingleLineComment s) => "--" ++ s
  | .Whitespace (.MultiLineComment s) => "/*" ++ s ++ "*/"
  | .Comma => ","
  | .Period => "."
  | .LParen => "("
  | .RParen => ")"
  | .LBracket => "["
  | .RBracket => "]"
  | .Eq => "="
  | .Neq => "!="
  | .Lt => "<"
  | .LtEq => "<="
  | .Gt => ">"
  | .GtEq => ">="
  | .Plus => "+"
  | .Minus => "-"
  | .Mult => "*"
  | .Div => "/"
  | .Mod => "%"
  | .StringConcat => "||"
  | .Pipe => "|"
  | .Caret => "^"
  | .Ampersand => "&"
  | .Negate => "~"
  | .LDisplacement => "<<"
  | .RDisplacement => ">>"
  | .DoubleColon => "::"
  | .SemiColon => ";"
  | .Backslash => "\\"
  | .EOF => "EOF"

/-- Word::to_ident (src/parser.rs lines 3176-3183). -/
def Word.to_ident_pair (w : Word) : String × Option Char :=
  (w.value, w.quote_style)

/-- Modelled from the spec: the database-family tag (spec 4.2 `db_type()`). -/
inductive DBType where
  | Generic
  | MySql
  | PostgreSql
  | MsSql
  | SQLite
  | Snowflake
  | Hive
  | AnsiSql
deriving DecidableEq, BEq, Repr

/-- Modelled from the spec: the dialect capability object (spec 4.2: the four
predicates and the database-family tag). -/
structure Dialect where
  is_identifier_start : Char → Bool
  is_identifier_continue : Char → Bool
  is_delimited_identifier_start : Char → Bool
  db_type : DBType

/-- Modelled from the spec: the MySQL dialect (spec 4.2: backtick-delimited
identifiers, db_type = MySql; identifier characters as in the common MySQL
convention of letters, digits, and underscore, with a letter or underscore
first). -/
def mysql_dialect : Dialect where
  is_identifier_start c := c.isAlpha || c = '_'
  is_identifier_continue c := c.isAlpha || c.isDigit || c = '_'
  is_delimited_identifier_start c := c = '`'
  db_type := DBType.MySql

/-- TokenizerError{message, line, col} (spec 7). -/
structure TokenizerError where
  message : String
  line : Nat
  col : Nat
deriving DecidableEq, Repr


/-- Modelled from the spec: position bookkeeping (spec 4.3: "newline increments
line and resets col; every other consumed character increments col"). -/
def advance_pos : Nat × Nat → List Char → Nat × Nat
  | p, [] => p
  | (line, _), '\n' :: rest => advance_pos (line + 1, 1) rest
  | (line, col), _ :: rest => advance_pos (line, col + 1) rest

/-- Modelled from the spec: scan the body of a single-quoted string with the
standard doubling rule (spec 4.3: "`''` inside a string is a literal single
quote").  Returns the content and the remainder after the closing quote, or
none when the string is unterminated. -/
def scan_quoted : List Char → Option (List Char × List Char)
  | [] => none
  | '\'' :: '\'' :: rest =>
    match scan_quoted rest with
    | some (content, rem) => some ('\'' :: content, rem)
    | none => none
  | '\'' :: rest => some ([], rest)
  | c :: rest =>
    match scan_quoted rest with
    | some (content, rem) => some (c :: content, rem)
    | none => none

/-- Modelled from the spec: scan the body of a `/* ... */` block comment,
nesting disallowed (spec 4.3).  Returns the comment text and the remainder
after the closing `*/`, or none when unterminated. -/
def scan_block_comment : List Char → Option (List Char × List Char)
  | [] => none
  | '*' :: '/' :: rest => some ([], rest)
  | c :: rest =>
    match scan_block_comment rest with
    | some (content, rem) => some (c :: content, rem)
    | none => none

/-- Modelled from the spec: scan a delimited identifier up to the closing mate
(spec 4.3: "For `[` the closing mate is `]`; for others the same character
closes"). -/
def scan_delimited (closer : Char) : List Char → Option (List Char × List Char)
  | [] => none
  | c :: rest =>
    if c = closer then some ([], rest)
    else
      match scan_delimited closer rest with
      | some (content, rem) => some (c :: content, rem)
      | none => none

/-- Modelled from the spec: scan the digits of a number literal (spec 4.3:
"optional integer part, optional `.` with fractional part, optional
e[+-]?digits; emitted verbatim"). -/
def scan_number (l : List Char) : List Char × List Char :=
  let intPart := l.takeWhile Char.isDigit
  let rest1 := l.drop intPart.length
  let (fracPart, rest2) :=
    match rest1 with
    | '.' :: r => let f := r.takeWhile Char.isDigit
                  ('.' :: f, r.drop f.length)
    | _ => ([], rest1)
  let (expPart, rest3) :=
    match rest2 with
    | 'e' :: '+' :: r =>
      let d := r.takeWhile Char.isDigit
      if d.isEmpty then ([], rest2) else ('e' :: '+' :: d, r.drop d.length)
    | 'e' :: '-' :: r =>
      let d := r.takeWhile Char.isDigit
      if d.isEmpty then ([], rest2) else ('e' :: '-' :: d, r.drop d.length)
    | 'e' :: r =>
      let d := r.takeWhile Char.isDigit
      if d.isEmpty then ([], rest2) else ('e' :: d, r.drop d.length)
    | _ => ([], rest2)
  (intPart ++ fracPart ++ expPart, rest3)

/-- Modelled from the spec: one step of the single-pass scanner (spec 4.3),
producing the next token and the remaining characters.  `none` in the result
position encodes end of input. -/
def next_lex_token (d : Dialect) (l : List Char) (line col : Nat) :
    Except TokenizerError (Option (Token × List Char)) :=
  match l with
  | [] => Except.ok none
  | ' ' :: rest => Except.ok (some (Token.Whitespace Whitespace.Space, rest))
  | '\t' :: rest => Except.ok (some (Token.Whitespace Whitespace.Tab, rest))
  | '\n' :: rest => Except.ok (some (Token.Whitespace Whitespace.Newline, rest))
  | '-' :: '-' :: rest =>
    let body := rest.takeWhile (fun c => c ≠ '\n')
    Except.ok (some (Token.Whitespace (Whitespace.SingleLineComment (String.mk body)),
      rest.drop body.length))
  | '-' :: rest => Except.ok (some (Token.Minus, rest))
  | '#' :: rest =>
    let body := rest.takeWhile (fun c => c ≠ '\n')
    Except.ok (some (Token.Whitespace (Whitespace.SingleLineComment (String.mk body)),
      rest.drop body.length))
  | '/' :: '*' :: rest =>
    (match scan_block_comment rest with
     | some (content, rem) =>
       Except.ok (some (Token.Whitespace (Whitespace.MultiLineComment (String.mk content)), rem))
     | none => Except.error ⟨"Unexpected EOF while in a multi-line comment", line, col⟩)
  | '/' :: rest => Except.ok (some (Token.Div, rest))
  | '\'' :: rest =>
    (match scan_quoted rest with
     | some (content, rem) => Except.ok (some (Token.SingleQuotedString (String.mk content), rem))
     | none => Except.error ⟨"Unterminated string literal", line, col⟩)
  | '(' :: rest => Except.ok (some (Token.LParen, rest))
  | ')' :: rest => Except.ok (some (Token.RParen, rest))
  | ',' :: rest => Except.ok (some (Token.Comma, rest))
  | ';' :: rest => Except.ok (some (Token.SemiColon, rest))
  | '.' :: rest =>
    (match rest.head? with
     | some c =>
       if c.isDigit then
         let (numBody, rem) := scan_number ('.' :: rest)
         Except.ok (some (Token.Number (String.mk numBody), rem))
       else Except.ok (some (Token.Period, rest))
     | none => Except.ok (some (Token.Period, rest)))
  | '=' :: rest => Except.ok (some (Token.Eq, rest))
  | '!' :: '=' :: rest => Except.ok (some (Token.Neq, rest))
  | '<' :: '=' :: rest => Except.ok (some (Token.LtEq, rest))
  | '<' :: '>' :: rest => Except.ok (some (Token.Neq, rest))
  | '<' :: '<' :: rest => Except.ok (some (Token.LDisplacement, rest))
  | '<' :: rest => Except.ok (some (Token.Lt, rest))
  | '>' :: '=' :: rest => Except.ok (some (Token.GtEq, rest))
  | '>' :: '>' :: rest => Except.ok (some (Token.RDisplacement, rest))
  | '>' :: rest => Except.ok (some (Token.Gt, rest))
  | '+' :: rest => Except.ok (some (Token.Plus, rest))
  | '*' :: rest => Except.ok (some (Token.Mult, rest))
  | '%' :: rest => Except.ok (some (Token.Mod, rest))
  | '|' :: '|' :: rest => Except.ok (some (Token.StringConcat, rest))
  | '|' :: rest => Except.ok (some (Token.Pipe, rest))
  | '^' :: rest => Except.ok (some (Token.Caret, rest))
  | '&' :: rest => Except.ok (some (Token.Ampersand, rest))
  | '~' :: rest => Except.ok (some (Token.Negate, rest))
  | ':' :: ':' :: rest => Except.ok (some (Token.DoubleColon, rest))
  | '[' :: rest =>
    if d.is_delimited_identifier_start '[' then
      match scan_delimited ']' rest with
      | some (content, rem) =>
        Except.ok (some (Token.Word ⟨String.mk content, some '[', Keyword.NoKeyword⟩, rem))
      | none => Except.error ⟨"Expected close delimiter", line, col⟩
    else Except.ok (some (Token.LBracket, rest))
  | ']' :: rest => Except.ok (some (Token.RBracket, rest))
  | '\\' :: rest => Except.ok (some (Token.Backslash, rest))
  | '?' :: rest => Except.ok (some (Token.VariableString "?", rest))
  | '@' :: rest =>
    let body := rest.takeWhile (fun c => d.is_identifier_continue c || c = '.')
    Except.ok (some (Token.VariableString ("@" ++ String.mk body), rest.drop body.length))
  | c :: rest =>
    if c.isDigit then
      let (numBody, rem) := scan_number (c :: rest)
      Except.ok (some (Token.Number (String.mk numBody), rem))
    else if (c = 'N') && rest.head? = some '\'' then
      match scan_quoted rest.tail with
      | some (content, rem) => Except.ok (some (Token.NationalStringLiteral (String.mk content), rem))
      | none => Except.error ⟨"Unterminated national string literal", line, col⟩
    else if (c = 'X' || c = 'x' || c = 'B' || c = 'b') && rest.head? = some '\'' then
      match scan_quoted rest.tail with
      | some (content, rem) => Except.ok (some (Token.HexStringLiteral (String.mk content), rem))
      | none => Except.error ⟨"Unterminated hex string literal", line, col⟩
    else if d.is_identifier_start c then
      let body := rest.takeWhile d.is_identifier_continue
      let text := String.mk (c :: body)
      Except.ok (some (Token.Word ⟨text, none, keyword_of text⟩, rest.drop body.length))
    else if d.is_delimited_identifier_start c then
      match scan_delimited c rest with
      | some (content, rem) =>
        Except.ok (some (Token.Word ⟨String.mk content, some c, Keyword.NoKeyword⟩, rem))
      | none => Except.error ⟨"Expected close delimiter", line, col⟩
    else
      Except.error ⟨"Unexpected character " ++ String.singleton c, line, col⟩

/-- Modelled from the spec: the tokenizer driving loop (spec 4.3: single-pass
scanner; whitespace tokens are emitted, not dropped).  Fuel bounds the number
of tokens; each step consumes at least one character, so input length is
always sufficient. -/
def tokenize_loop (d : Dialect) : Nat → List Char → Nat → Nat →
    Except TokenizerError (List Token)
  | 0, _, line, col => Except.error ⟨"tokenizer fuel exhausted", line, col⟩
  | fuel + 1, l, line, col =>
    match next_lex_token d l line col with
    | Except.error e => Except.error e
    | Except.ok none => Except.ok []
    | Except.ok (some (tok, rem)) =>
      let consumed := l.take (l.length - rem.length)
      let (line', col') := advance_pos (line, col) consumed
      match tokenize_loop d fuel rem line' col' with
      | Except.error e => Except.error e
      | Except.ok toks => Except.ok (tok :: toks)

/-- Modelled from the spec: Tokenizer::tokenize (spec 4.3; component C3). -/
def tokenize (d : Dialect) (sql : String) : Except TokenizerError (List Token) :=
  tokenize_loop d (sql.data.length + 1) sql.data 1 1


/-- Ident{value, quote_style} (src/ast/mod.rs lines 77-111). -/
structure Ident where
  value : String
  quote_style : Option Char
deriving DecidableEq, BEq, Repr

/-- Ident::new (src/ast/mod.rs lines 87-97): an identifier with no quotes. -/
def Ident.new (value : String) : Ident := ⟨value, none⟩

/-- Word::to_ident (src/parser.rs lines 3176-3183). -/
def Word.to_ident (w : Word) : Ident := ⟨w.value, w.quote_style⟩

/-- ObjectName(Vec of Ident) (src/ast/mod.rs line 136). The single unnamed
Rust tuple field is called `idents` here. -/
structure ObjectName where
  idents : List Ident
deriving DecidableEq, BEq, Repr

/-- Modelled from the spec: DateTimeField (spec 3.2 Interval leading/last
fields; src/ast/value.rs is not under src/).  The variants are the ones
produced by parse_date_time_field (src/parser.rs lines 747-760). -/
inductive DateTimeField where
  | Year
  | Month
  | Day
  | Hour
  | Minute
  | Second
deriving DecidableEq, BEq, Repr

/-- Modelled from the spec: Value, the literal scalar (spec 3.2: "Number,
SingleQuotedString, NationalStringLiteral, HexStringLiteral, Boolean, Null,
Interval{...}, Char, VariableName"; src/ast/value.rs is not under src/). -/
inductive Value where
  | Number (n : String)
  | SingleQuotedString (s : String)
  | NationalStringLiteral (s : String)
  | HexStringLiteral (s : String)
  | Boolean (b : Bool)
  | Null
  | Interval (value : String) (leading_field : Option DateTimeField)
      (leading_precision : Option Nat) (last_field : Option DateTimeField)
      (fractional_seconds_precision : Option Nat)
  | Char (c : Char)
  | VariableName (v : String)
deriving DecidableEq, BEq, Repr

/-- DataType (spec 3.2; src/ast/data_type.rs is not under src/, so the variant
list is modelled from the spec and from parse_data_type, src/parser.rs lines
2076-2149). -/
inductive DataType where
  | Boolean
  | SmallInt
  | Int
  | BigInt
  | Float (precision : Option Nat)
  | Real
  | Double
  | Decimal (precision : Option Nat) (scale : Option Nat)
  | Varchar (length : Option Nat)
  | Char (length : Option Nat)
  | Uuid
  | Date
  | Time
  | Timestamp
  | Interval
  | Text
  | Bytea
  | Regclass
  | Array (inner : DataType)
  | Custom (name : ObjectName)
deriving DecidableEq, BEq, Repr

/-- Modelled from the spec: BinaryOperator (spec 4.4.3 parse_infix mapping;
src/ast/operator.rs is not under src/). -/
inductive BinaryOperator where
  | Plus
  | Minus
  | Multiply
  | Divide
  | Modulus
  | StringConcat
  | Gt
  | Lt
  | GtEq
  | LtEq
  | Eq
  | NotEq
  | And
  | Or
  | Like
  | NotLike
  | BitwiseOr
  | BitwiseAnd
  | BitwiseXor
  | BitwiseNegate
  | BitwiseNegateLDisplacement
  | BitwiseNegateRDisplacement
deriving DecidableEq, BEq, Repr

/-- Modelled from the spec: UnaryOperator (spec 4.4.3 prefix forms;
src/ast/operator.rs is not under src/). -/
inductive UnaryOperator where
  | Plus
  | Minus
  | Not
deriving DecidableEq, BEq, Repr

/-- SetOperator (src/ast/query.rs lines 120-126). -/
inductive SetOperator where
  | Union
  | Except
  | Intersect
deriving DecidableEq, BEq, Repr

/-- TableAlias (src/ast/query.rs lines 320-325). -/
structure TableAlias where
  name : Ident
  columns : List Ident
deriving DecidableEq, BEq, Repr

/-- OffsetRows (src/ast/query.rs lines 467-474). -/
inductive OffsetRows where
  | None
  | Row
  | Rows
deriving DecidableEq, BEq, Repr

/-- WindowFrameUnits (src/ast/mod.rs lines 436-442). -/
inductive WindowFrameUnits where
  | Rows
  | Range
  | Groups
deriving DecidableEq, BEq, Repr

/-- WindowFrameBound (src/ast/mod.rs lines 455-464). -/
inductive WindowFrameBound where
  | CurrentRow
  | Preceding (n : Option Nat)
  | Following (n : Option Nat)
deriving DecidableEq, BEq, Repr

/-- WindowFrame (src/ast/mod.rs lines 424-434). -/
structure WindowFrame where
  units : WindowFrameUnits
  start_bound : WindowFrameBound
  end_bound : Option WindowFrameBound
deriving DecidableEq, BEq, Repr


mutual

/-- Expr, the expression sum type (src/ast/mod.rs lines 199-292). -/
inductive Expr where
  | Identifier (i : Ident)
  | Wildcard
  | QualifiedWildcard (parts : List Ident)
  | CompoundIdentifier (parts : List Ident)
  | IsNull (e : Expr)
  | IsNotNull (e : Expr)
  | InList (expr : Expr) (list : List Expr) (negated : Bool)
  | InSubquery (expr : Expr) (subquery : Query) (negated : Bool)
  | Between (expr : Expr) (negated : Bool) (low : Expr) (high : Expr)
  | BinaryOp (left : Expr) (op : BinaryOperator) (right : Expr)
  | UnaryOp (op : UnaryOperator) (expr : Expr)
  | Cast (expr : Expr) (data_type : DataType)
  | Extract (field : DateTimeField) (expr : Expr)
  | Collate (expr : Expr) (collation : ObjectName)
  | Nested (e : Expr)
  | BitwiseNested (e : Expr)
  | Value (v : Value)
  | TypedString (data_type : DataType) (value : String)
  | Function (f : SqlParse.Function)
  | Case (operand : Option Expr) (conditions : List Expr) (results : List Expr)
      (else_result : Option Expr)
  | Exists (q : Query)
  | Subquery (q : Query)
  | ListAgg (l : ListAgg)

/-- Function, a scalar function call (src/ast/mod.rs lines 1080-1088). -/
inductive Function where
  | mk (name : ObjectName) (args : List Expr) (over : Option WindowSpec) (distinct : Bool)

/-- WindowSpec (src/ast/mod.rs lines 378-384). -/
inductive WindowSpec where
  | mk (partition_by : List Expr) (order_by : List OrderByExpr)
      (window_frame : Option WindowFrame)

/-- OrderByExpr (src/ast/query.rs lines 426-434). -/
inductive OrderByExpr where
  | mk (expr : Expr) (asc : Option Bool) (nulls_first : Option Bool)

/-- ListAgg (src/ast/mod.rs lines 1136-1144). -/
inductive ListAgg where
  | mk (distinct : Bool) (expr : Expr) (separator : Option Expr)
      (on_overflow : Option ListAggOnOverflow) (within_group : List OrderByExpr)

/-- ListAggOnOverflow (src/ast/mod.rs lines 1173-1184). -/
inductive ListAggOnOverflow where
  | Error
  | Truncate (filler : Option Expr) (with_count : Bool)

/-- Query (src/ast/query.rs lines 19-36). -/
inductive Query where
  | mk (ctes : List Cte) (body : SetExpr) (order_by : List OrderByExpr)
      (limit : Option Expr) (offset : Option Offset) (update : Bool)
      (fetch : Option Fetch)

/-- Cte (src/ast/query.rs lines 193-198). -/
inductive Cte where
  | mk (alias_name : TableAlias) (query : Query)

/-- SetExpr (src/ast/query.rs lines 80-98). -/
inductive SetExpr where
  | Select (s : Select)
  | Query (q : Query)
  | SetOperation (op : SetOperator) (all : Bool) (left : SetExpr) (right : SetExpr)
  | Values (v : Values)
  | Value (v : Values)

/-- Select (src/ast/query.rs lines 141-160).  The Rust field `from` is called
`from_tables` here because `from` is a Lean keyword. -/
inductive Select where
  | mk (comment : Option Ident) (distinct : Bool) (top : Option SqlParse.Top)
      (projection : List SelectItem) (from_tables : List TableWithJoins)
      (selection : Option Expr) (group_by : List Expr) (having : Option Expr)

/-- SelectItem (src/ast/query.rs lines 207-218). -/
inductive SelectItem where
  | UnnamedExpr (e : Expr)
  | ExprWithAlias (expr : Expr) (alias_name : Ident)
  | QualifiedWildcard (prefix_name : ObjectName)
  | Wildcard

/-- TableWithJoins (src/ast/query.rs lines 231-236). -/
inductive TableWithJoins where
  | mk (relation : TableFactor) (joins : List Join)

/-- TableFactor (src/ast/query.rs lines 249-274). -/
inductive TableFactor where
  | Table (name : ObjectName) (alias_name : Option TableAlias) (force : Option Ident)
      (args : List Expr) (with_hints : List Expr)
  | Derived (lateral : Bool) (subquery : Query) (alias_name : Option TableAlias)
  | NestedJoin (t : TableWithJoins)

/-- Join (src/ast/query.rs lines 337-342). -/
inductive Join where
  | mk (relation : TableFactor) (join_operator : JoinOperator)

/-- JoinOperator (src/ast/query.rs lines 403-415). -/
inductive JoinOperator where
  | Inner (c : JoinConstraint)
  | LeftOuter (c : JoinConstraint)
  | RightOuter (c : JoinConstraint)
  | FullOuter (c : JoinConstraint)
  | CrossJoin
  | CrossApply
  | OuterApply

/-- JoinConstraint (src/ast/query.rs lines 417-423). -/
inductive JoinConstraint where
  | On (e : Expr)
  | Using (columns : List Ident)
  | Natural

/-- Offset (src/ast/query.rs lines 453-458). -/
inductive Offset where
  | mk (value : Expr) (rows : OffsetRows)

/-- Fetch (src/ast/query.rs lines 486-492). -/
inductive Fetch where
  | mk (with_ties : Bool) (percent : Bool) (quantity : Option Expr)

/-- Top (src/ast/query.rs lines 506-513). -/
inductive Top where
  | mk (with_ties : Bool) (percent : Bool) (quantity : Option Expr)

/-- Values(Vec of rows) (src/ast/query.rs line 529). -/
inductive Values where
  | mk (rows : List (List Expr))

end

/-- Accessor for the ctes field of Query. -/
def Query.ctes : Query → List Cte
  | .mk c _ _ _ _ _ _ => c

/-- Accessor for the body field of Query. -/
def Query.body : Query → SetExpr
  | .mk _ b _ _ _ _ _ => b

/-- Accessor for the order_by field of Query. -/
def Query.order_by : Query → List OrderByExpr
  | .mk _ _ o _ _ _ _ => o

/-- Accessor for the limit field of Query. -/
def Query.limit : Query → Option Expr
  | .mk _ _ _ l _ _ _ => l

/-- Accessor for the offset field of Query. -/
def Query.offset : Query → Option Offset
  | .mk _ _ _ _ o _ _ => o

/-- Accessor for the update field of Query. -/
def Query.update : Query → Bool
  | .mk _ _ _ _ _ u _ => u

/-- Accessor for the fetch field of Query. -/
def Query.fetch : Query → Option Fetch
  | .mk _ _ _ _ _ _ f => f

/-- Accessor for the comment field of Select. -/
def Select.comment : Select → Option Ident
  | .mk c _ _ _ _ _ _ _ => c

/-- Accessor for the projection field of Select. -/
def Select.projection : Select → List SelectItem
  | .mk _ _ _ p _ _ _ _ => p

/-- Accessor for the selection (WHERE) field of Select. -/
def Select.selection : Select → Option Expr
  | .mk _ _ _ _ _ s _ _ => s


/-- Modelled from the spec: ReferentialAction (src/ast/ddl.rs is not under
src/; variants from parse_referential_action, src/parser.rs lines 1634-1651). -/
inductive ReferentialAction where
  | Restrict
  | Cascade
  | SetNull
  | NoAction
  | SetDefault
deriving DecidableEq, BEq, Repr

/-- Modelled from the spec: ColumnOption (src/ast/ddl.rs is not under src/;
variants from parse_column_option_def, src/parser.rs lines 1565-1632). -/
inductive ColumnOption where
  | Null
  | NotNull
  | AutoIncrement
  | Unsigned
  | Comment (e : Expr)
  | After (e : Expr)
  | Character (e : Expr)
  | Collate (e : Expr)
  | Default (e : Expr)
  | Unique (is_primary : Bool)
  | ForeignKey (foreign_table : ObjectName) (referred_columns : List Ident)
      (on_delete : Option ReferentialAction) (on_update : Option ReferentialAction)
  | Check (e : Expr)


/-- Modelled from the spec: ColumnOptionDef (src/ast/ddl.rs is not under src/;
shape from parse_column_option_def, src/parser.rs lines 1565-1632). -/
structure ColumnOptionDef where
  name : Option Ident
  option : ColumnOption


/-- Modelled from the spec: ColumnDef (src/ast/ddl.rs is not under src/; shape
from parse_column_def, src/parser.rs lines 1415-1441). -/
structure ColumnDef where
  name : Ident
  data_type : DataType
  collation : Option ObjectName
  options : List ColumnOptionDef


/-- Modelled from the spec: TableConstraint (src/ast/ddl.rs is not under src/;
variants from parse_optional_table_constraint, src/parser.rs lines 1801-1850). -/
inductive TableConstraint where
  | Unique (name : Option Ident) (columns : List Ident) (is_primary : Bool)
  | ForeignKey (name : Option Ident) (columns : List Ident)
      (foreign_table : ObjectName) (referred_columns : List Ident)
  | Check (name : Option Ident) (expr : Expr)


/-- Modelled from the spec: TableOption (src/ast/ddl.rs is not under src/;
variants from parse_table_option_def, src/parser.rs lines 1523-1555; spec 4.4.4
CREATE TABLE table-level options COMMENT, COLLATE, DEFAULT CHARSET,
AUTO_INCREMENT, ENGINE). -/
inductive TableOption where
  | Comment (e : Expr)
  | Collate (e : Expr)
  | Charset (e : Expr)
  | Auto_Increment (n : Nat)
  | Engine (e : Expr)


/-- Modelled from the spec: TableOptionDef (src/ast/ddl.rs is not under src/). -/
structure TableOptionDef where
  name : Option Ident
  option : TableOption


/-- Modelled from the spec: MysqlIndexStorageType (src/ast/ddl.rs is not under
src/; variants from parse_alter_index_storge_type, src/parser.rs lines
1791-1799). -/
inductive MysqlIndexStorageType where
  | FullText
  | Spatial
deriving DecidableEq, BEq, Repr

/-- Modelled from the spec: IndexOptions (src/ast/ddl.rs is not under src/;
variants from parse_alter_index_def_options, src/parser.rs lines 1753-1781). -/
inductive IndexOptions where
  | KeyBlockSize (e : Expr)
  | WithParser (i : Ident)
  | IndexType (i : Ident)
  | Comment (e : Expr)
  | References (table : Ident) (column : List Ident)


/-- Modelled from the spec: MysqlIndex (src/ast/ddl.rs is not under src/; shape
from parse_alter_index_def_normal, src/parser.rs lines 1713-1751). -/
structure MysqlIndex where
  name : Option Ident
  index_name : Option Ident
  index_type : Option Ident
  key_parts : Option (List Ident)
  index_option : Option IndexOptions


/-- Modelled from the spec: IndexDef (src/ast/ddl.rs is not under src/;
variants from parse_alter_index_def, src/parser.rs lines 1676-1692). -/
inductive IndexDef where
  | Normal (m : MysqlIndex)
  | PrimaryKey (m : MysqlIndex)
  | Unique (m : MysqlIndex)
  | ForeignKey (m : MysqlIndex)


/-- Modelled from the spec: IndexInfo (src/ast/ddl.rs is not under src/; shape
from parse_create_table_for_index, src/parser.rs lines 1493-1509). -/
structure IndexInfo where
  constraint : Option Ident
  index_type : Option MysqlIndexStorageType
  index : IndexDef


/-- Modelled from the spec: AlterTableOperation (src/ast/ddl.rs is not under
src/; variants from parse_alter, src/parser.rs lines 1871-1960). -/
inductive AlterTableOperation where
  | AddIndex (index_def : IndexInfo)
  | AddColumn (column_def : ColumnDef)
  | AddConstraint (c : TableConstraint)
  | ChangeColumn (old_column_name : Ident) (new_column_def : ColumnDef)
  | RenameTable (table_name : Ident)
  | RenameColumn (old_column_name : Ident) (new_column_name : Ident)
  | DropIndex (index_def : IndexDef)
  | DropColumn (column_name : Ident) (if_exists : Bool) (cascade : Bool)


/-- SqlOption (src/ast/mod.rs lines 1229-1232). -/
structure SqlOption where
  name : Ident
  value : Value
deriving DecidableEq, BEq, Repr

/-- ObjectType (src/ast/mod.rs lines 1209-1214). -/
inductive ObjectType where
  | Table
  | View
  | Index
  | Schema
deriving DecidableEq, BEq, Repr

/-- FileFormat (src/ast/mod.rs lines 1109-1117). -/
inductive FileFormat where
  | TEXTFILE
  | SEQUENCEFILE
  | ORC
  | PARQUET
  | AVRO
  | RCFILE
  | JSONFILE
deriving DecidableEq, BEq, Repr

/-- Priority (src/ast/mod.rs lines 482-486). -/
inductive Priority where
  | LOW_PRIORITY
  | DELAYED
  | HIGH_PRIORITY
deriving DecidableEq, BEq, Repr

/-- ExplainFormat (src/ast/mod.rs lines 163-167). -/
inductive ExplainFormat where
  | TRADITIONAL
  | JSON
  | TREE
deriving DecidableEq, BEq, Repr

/-- TransactionAccessMode (src/ast/mod.rs lines 1259-1262). -/
inductive TransactionAccessMode where
  | ReadOnly
  | ReadWrite
deriving DecidableEq, BEq, Repr

/-- TransactionIsolationLevel (src/ast/mod.rs lines 1276-1281). -/
inductive TransactionIsolationLevel where
  | ReadUncommitted
  | ReadCommitted
  | RepeatableRead
  | Serializable
deriving DecidableEq, BEq, Repr

/-- TransactionMode (src/ast/mod.rs lines 1242-1245). -/
inductive TransactionMode where
  | AccessMode (m : TransactionAccessMode)
  | IsolationLevel (l : TransactionIsolationLevel)
deriving DecidableEq, BEq, Repr

/-- ShowStatementFilter (src/ast/mod.rs lines 1297-1300). -/
inductive ShowStatementFilter where
  | Like (pattern : String)
  | Where (e : Expr)


/-- SetVariableValue (src/ast/mod.rs lines 1314-1317). -/
inductive SetVariableValue where
  | Ident (i : Ident)
  | Literal (v : Value)
deriving DecidableEq, BEq, Repr

/-- Assignment (src/ast/mod.rs lines 1068-1071). -/
structure Assignment where
  id : Ident
  value : Expr


/-- LOCKType (src/ast/query.rs lines 65-68). -/
inductive LOCKType where
  | Read
  | Write
deriving DecidableEq, BEq, Repr

/-- LockInfo (src/ast/query.rs lines 72-75). -/
structure LockInfo where
  table_name : ObjectName
  lock : LOCKType
deriving DecidableEq, BEq, Repr

mutual

/-- Statement, the top-level sum (src/ast/mod.rs lines 492-697). -/
inductive Statement where
  | Query (q : SqlParse.Query)
  | Explain (analyze : Option Bool) (format_type : Option ExplainFormat)
      (body : ExplainStmt)
  | Insert (priority : Option Priority) (ignore : Bool) (table_name : ObjectName)
      (columns : List Ident) (source : SqlParse.Query)
      (update : Option (List Assignment))
  | Replace (table_name : ObjectName) (columns : List Ident) (source : SqlParse.Query)
  | Copy (table_name : ObjectName) (columns : List Ident)
      (values : List (Option String))
  | Update (table_name : ObjectName) (assignments : List Assignment)
      (selection : Option Expr) (limit : Option Expr)
  | Delete (table_name : ObjectName) (selection : Option Expr)
  | CreateView (name : ObjectName) (columns : List Ident) (query : SqlParse.Query)
      (materialized : Bool) (with_options : List SqlOption)
  | CreateTable (name : ObjectName) (columns : List ColumnDef)
      (index : List IndexInfo) (constraints : List TableConstraint)
      (with_options : List SqlOption) (table_options : List TableOptionDef)
      (if_not_exists : Bool) (external : Bool) (file_format : Option FileFormat)
      (location : Option String) (query : Option SqlParse.Query) (without_rowid : Bool)
  | CreateVirtualTable (name : ObjectName) (if_not_exists : Bool)
      (module_name : Ident) (module_args : List Ident)
  | CreateIndex (name : ObjectName) (table_name : ObjectName)
      (columns : List Ident) (unique : Bool) (if_not_exists : Bool)
  | AlterTable (name : ObjectName) (operation : List AlterTableOperation)
  | Drop (object_type : ObjectType) (if_exists : Bool) (names : List ObjectName)
      (on_info : ObjectName) (cascade : Bool)
  | SetVariable (local_scope : Bool) (variable_name : Ident) (value : SetVariableValue)
  | AdminSetVariable (variable_name : Ident) (value : SetVariableValue)
      (selection : Option Expr)
  | ReLoad (variable_name : Ident) (selection : Option Expr)
  | ShowVariable (variable_name : Ident) (global : Bool) (selection : Option Expr)
  | ShowColumns (extended : Bool) (full : Bool) (table_name : ObjectName)
      (filter : Option ShowStatementFilter)
  | ShowCreate (table_name : ObjectName)
  | StartTransaction (modes : List TransactionMode)
  | SetTransaction (modes : List TransactionMode)
  | Commit (chain : Bool)
  | Rollback (chain : Bool)
  | CreateSchema (schema_name : ObjectName)
  | Assert (condition : Expr) (message : Option Expr)
  | Lock (lock_tables : List LockInfo)
  | UNLock (chain : Bool)
  | Call (name : Ident) (parameter : Option (List Expr))
  | ChangeDatabase (database : String)
  | Desc (table_name : ObjectName)

/-- ExplainStmt (src/ast/mod.rs lines 147-150). -/
inductive ExplainStmt where
  | Stmt (s : Statement)
  | Connection (v : Value)

end


/-- Display for Ident (src/ast/mod.rs lines 122-131).  The Rust `_ => panic!`
arm for an invalid quote style is modelled as rendering the bare value; the
tokenizer only produces the four valid quote characters. -/
def displayIdent (i : Ident) : String :=
  match i.quote_style with
  | some q =>
    if q = '"' || q = '\'' || q = '`' then String.singleton q ++ i.value ++ String.singleton q
    else if q = '[' then "[" ++ i.value ++ "]"
    else i.value
  | none => i.value

/-- display_separated (src/ast/mod.rs lines 39-67) for identifier lists. -/
def displayIdentListSep (sep : String) : List Ident → String
  | [] => ""
  | [i] => displayIdent i
  | i :: rest => displayIdent i ++ sep ++ displayIdentListSep sep rest

/-- Display for ObjectName (src/ast/mod.rs lines 138-142): period-joined. -/
def displayObjectName (o : ObjectName) : String :=
  displayIdentListSep "." o.idents

/-- Modelled from the spec: value::escape_single_quote_string (src/ast/value.rs
is not under src/): the standard SQL doubling of single quotes. -/
def escape_single_quote_string (s : String) : String :=
  String.mk (s.data.foldr (fun c acc => if c = '\'' then '\'' :: '\'' :: acc else c :: acc) [])

/-- Modelled from the spec: Display for DateTimeField (src/ast/value.rs is not
under src/): the uppercased SQL keyword. -/
def displayDateTimeField : DateTimeField → String
  | .Year => "YEAR"
  | .Month => "MONTH"
  | .Day => "DAY"
  | .Hour => "HOUR"
  | .Minute => "MINUTE"
  | .Second => "SECOND"

/-- Modelled from the spec: Display for Value (src/ast/value.rs is not under
src/; spec 4.5: reserved keywords uppercased, literals re-emitted with their
quoting). -/
def displayValue : Value → String
  | .Number n => n
  | .SingleQuotedString s => "'" ++ escape_single_quote_string s ++ "'"
  | .NationalStringLiteral s => "N'" ++ s ++ "'"
  | .HexStringLiteral s => "X'" ++ s ++ "'"
  | .Boolean b => if b then "true" else "false"
  | .Null => "NULL"
  | .Interval value leading_field leading_precision last_field fsec =>
    let base := "INTERVAL '" ++ escape_single_quote_string value ++ "'"
    let lead :=
      match leading_field with
      | some fld => " " ++ displayDateTimeField fld
      | none => ""
    let lp :=
      match leading_precision with
      | some p => " (" ++ toString p ++ ")"
      | none => ""
    let lastp :=
      match last_field with
      | some fld => " TO " ++ displayDateTimeField fld
      | none => ""
    let fs :=
      match fsec with
      | some p => " (" ++ toString p ++ ")"
      | none => ""
    base ++ lead ++ lp ++ lastp ++ fs
  | .Char c => String.singleton c
  | .VariableName v => v

/-- Modelled from the spec: Display for DataType (src/ast/data_type.rs is not
under src/): the uppercased SQL type name with optional precision. -/
def displayDataType : DataType → String
  | .Boolean => "BOOLEAN"
  | .SmallInt => "SMALLINT"
  | .Int => "INT"
  | .BigInt => "BIGINT"
  | .Float p => "FLOAT" ++ (match p with | some n => "(" ++ toString n ++ ")" | none => "")
  | .Real => "REAL"
  | .Double => "DOUBLE"
  | .Decimal p s =>
    match p, s with
    | some n, some m => "NUMERIC(" ++ toString n ++ "," ++ toString m ++ ")"
    | some n, none => "NUMERIC(" ++ toString n ++ ")"
    | _, _ => "NUMERIC"
  | .Varchar p => "VARCHAR" ++ (match p with | some n => "(" ++ toString n ++ ")" | none => "")
  | .Char p => "CHAR" ++ (match p with | some n => "(" ++ toString n ++ ")" | none => "")
  | .Uuid => "UUID"
  | .Date => "DATE"
  | .Time => "TIME"
  | .Timestamp => "TIMESTAMP"
  | .Interval => "INTERVAL"
  | .Text => "TEXT"
  | .Bytea => "BYTEA"
  | .Regclass => "REGCLASS"
  | .Array inner => displayDataType inner ++ "[]"
  | .Custom name => displayObjectName name

/-- Modelled from the spec: Display for BinaryOperator (src/ast/operator.rs is
not under src/): the operator's SQL spelling. -/
def displayBinaryOperator : BinaryOperator → String
  | .Plus => "+"
  | .Minus => "-"
  | .Multiply => "*"
  | .Divide => "/"
  | .Modulus => "%"
  | .StringConcat => "||"
  | .Gt => ">"
  | .Lt => "<"
  | .GtEq => ">="
  | .LtEq => "<="
  | .Eq => "="
  | .NotEq => "<>"
  | .And => "AND"
  | .Or => "OR"
  | .Like => "LIKE"
  | .NotLike => "NOT LIKE"
  | .BitwiseOr => "|"
  | .BitwiseAnd => "&"
  | .BitwiseXor => "^"
  | .BitwiseNegate => "~"
  | .BitwiseNegateLDisplacement => "<<"
  | .BitwiseNegateRDisplacement => ">>"

/-- Modelled from the spec: Display for UnaryOperator (src/ast/operator.rs is
not under src/). -/
def displayUnaryOperator : UnaryOperator → String
  | .Plus => "+"
  | .Minus => "-"
  | .Not => "NOT"

/-- Display for WindowFrameUnits (src/ast/mod.rs lines 444-452). -/
def displayWindowFrameUnits : WindowFrameUnits → String
  | .Rows => "ROWS"
  | .Range => "RANGE"
  | .Groups => "GROUPS"

/-- Display for WindowFrameBound (src/ast/mod.rs lines 466-476). -/
def displayWindowFrameBound : WindowFrameBound → String
  | .CurrentRow => "CURRENT ROW"
  | .Preceding none => "UNBOUNDED PRECEDING"
  | .Following none => "UNBOUNDED FOLLOWING"
  | .Preceding (some n) => toString n ++ " PRECEDING"
  | .Following (some n) => toString n ++ " FOLLOWING"

/-- Display for OffsetRows (src/ast/query.rs lines 476-484). -/
def displayOffsetRows : OffsetRows → String
  | .None => ""
  | .Row => " ROW"
  | .Rows => " ROWS"

/-- Display for SetOperator (src/ast/query.rs lines 128-136). -/
def displaySetOperator : SetOperator → String
  | .Union => "UNION"
  | .Except => "EXCEPT"
  | .Intersect => "INTERSECT"

/-- Display for TableAlias (src/ast/query.rs lines 327-335). -/
def displayTableAlias (a : TableAlias) : String :=
  displayIdent a.name ++
    (if a.columns.isEmpty then "" else " (" ++ displayIdentListSep ", " a.columns ++ ")")



mutual

/-- Display for Expr (src/ast/mod.rs lines 294-375). -/
def displayExprF : Nat → Expr → String
  | 0, _ => ""
  | fuel + 1, .Identifier s => displayIdent s
  | fuel + 1, .Wildcard => "*"
  | fuel + 1, .QualifiedWildcard q => displayIdentListSep "." q ++ ".*"
  | fuel + 1, .CompoundIdentifier s => displayIdentListSep "." s
  | fuel + 1, .IsNull ast => displayExprF fuel ast ++ " IS NULL"
  | fuel + 1, .IsNotNull ast => displayExprF fuel ast ++ " IS NOT NULL"
  | fuel + 1, .InList expr list negated =>
    displayExprF fuel expr ++ " " ++ (if negated then "NOT " else "") ++ "IN (" ++
      displayExprListSepF fuel ", " list ++ ")"
  | fuel + 1, .InSubquery expr subquery negated =>
    displayExprF fuel expr ++ " " ++ (if negated then "NOT " else "") ++ "IN (" ++
      displayQueryF fuel subquery ++ ")"
  | fuel + 1, .Between expr negated low high =>
    displayExprF fuel expr ++ " " ++ (if negated then "NOT " else "") ++ "BETWEEN " ++
      displayExprF fuel low ++ " AND " ++ displayExprF fuel high
  | fuel + 1, .BinaryOp left op right =>
    displayExprF fuel left ++ " " ++ displayBinaryOperator op ++ " " ++ displayExprF fuel right
  | fuel + 1, .UnaryOp op expr => displayUnaryOperator op ++ " " ++ displayExprF fuel expr
  | fuel + 1, .Cast expr data_type =>
    "CAST(" ++ displayExprF fuel expr ++ " AS " ++ displayDataType data_type ++ ")"
  | fuel + 1, .Extract field expr =>
    "EXTRACT(" ++ displayDateTimeField field ++ " FROM " ++ displayExprF fuel expr ++ ")"
  | fuel + 1, .Collate expr collation =>
    displayExprF fuel expr ++ " COLLATE " ++ displayObjectName collation
  | fuel + 1, .Nested ast => "(" ++ displayExprF fuel ast ++ ")"
  | fuel + 1, .BitwiseNested ast => "~" ++ displayExprF fuel ast
  | fuel + 1, .Value v => displayValue v
  | fuel + 1, .TypedString data_type value =>
    displayDataType data_type ++ " '" ++ escape_single_quote_string value ++ "'"
  | fuel + 1, .Function fn => displayFunctionF fuel fn
  | fuel + 1, .Case operand conditions results else_result =>
    "CASE" ++
      (match operand with
       | some o => " " ++ displayExprF fuel o
       | none => "") ++
      displayWhenThenF fuel conditions results ++
      (match else_result with
       | some e => " ELSE " ++ displayExprF fuel e
       | none => "") ++ " END"
  | fuel + 1, .Exists s => "EXISTS (" ++ displayQueryF fuel s ++ ")"
  | fuel + 1, .Subquery s => "(" ++ displayQueryF fuel s ++ ")"
  | fuel + 1, .ListAgg l => displayListAggF fuel l

/-- display_comma_separated / display_separated (src/ast/mod.rs lines 39-74)
for expression lists. -/
def displayExprListSepF : Nat → String → List Expr → String
  | 0, _, _ => ""
  | fuel + 1, sep, [] => ""
  | fuel + 1, sep, [e] => displayExprF fuel e
  | fuel + 1, sep, e :: rest => displayExprF fuel e ++ sep ++ displayExprListSepF fuel sep rest

/-- The WHEN/THEN zip of the Case arm of Display for Expr
(src/ast/mod.rs lines 361-363). -/
def displayWhenThenF : Nat → List Expr → List Expr → String
  | 0, _, _ => ""
  | fuel + 1, c :: cs, r :: rs =>
    " WHEN " ++ displayExprF fuel c ++ " THEN " ++ displayExprF fuel r ++ displayWhenThenF fuel cs rs
  | fuel + 1, _, _ => ""

/-- Display for Function (src/ast/mod.rs lines 1090-1104). -/
def displayFunctionF : Nat → SqlParse.Function → String
  | 0, _ => ""
  | fuel + 1, .mk name args over distinct =>
    displayObjectName name ++ "(" ++ (if distinct then "DISTINCT " else "") ++
      displayExprListSepF fuel ", " args ++ ")" ++
      (match over with
       | some o => " OVER (" ++ displayWindowSpecF fuel o ++ ")"
       | none => "")

/-- Display for WindowSpec (src/ast/mod.rs lines 386-417). -/
def displayWindowSpecF : Nat → WindowSpec → String
  | 0, _ => ""
  | fuel + 1, .mk partition_by order_by window_frame =>
    let s1 := if partition_by.isEmpty then ""
              else "PARTITION BY " ++ displayExprListSepF fuel ", " partition_by
    let delim1 := if partition_by.isEmpty then "" else " "
    let s2 := if order_by.isEmpty then ""
              else delim1 ++ "ORDER BY " ++ displayOrderByListSepF fuel ", " order_by
    let delim2 := if order_by.isEmpty then delim1 else " "
    let s3 :=
      match window_frame with
      | some wf =>
        (match wf.end_bound with
         | some eb =>
           delim2 ++ displayWindowFrameUnits wf.units ++ " BETWEEN " ++
             displayWindowFrameBound wf.start_bound ++ " AND " ++ displayWindowFrameBound eb
         | none =>
           delim2 ++ displayWindowFrameUnits wf.units ++ " " ++
             displayWindowFrameBound wf.start_bound)
      | none => ""
    s1 ++ s2 ++ s3

/-- Display for OrderByExpr (src/ast/query.rs lines 436-451). -/
def displayOrderByExprF : Nat → OrderByExpr → String
  | 0, _ => ""
  | fuel + 1, .mk expr asc nulls_first =>
    displayExprF fuel expr ++
      (match asc with
       | some true => " ASC"
       | some false => " DESC"
       | none => "") ++
      (match nulls_first with
       | some true => " NULLS FIRST"
       | some false => " NULLS LAST"
       | none => "")

/-- display_comma_separated for ORDER BY lists. -/
def displayOrderByListSepF : Nat → String → List OrderByExpr → String
  | 0, _, _ => ""
  | fuel + 1, sep, [] => ""
  | fuel + 1, sep, [e] => displayOrderByExprF fuel e
  | fuel + 1, sep, e :: rest => displayOrderByExprF fuel e ++ sep ++ displayOrderByListSepF fuel sep rest

/-- Display for ListAgg (src/ast/mod.rs lines 1146-1170). -/
def displayListAggF : Nat → ListAgg → String
  | 0, _ => ""
  | fuel + 1, .mk distinct expr separator on_overflow within_group =>
    "LISTAGG(" ++ (if distinct then "DISTINCT " else "") ++ displayExprF fuel expr ++
      (match separator with
       | some s => ", " ++ displayExprF fuel s
       | none => "") ++
      (match on_overflow with
       | some o => displayListAggOnOverflowF fuel o
       | none => "") ++ ")" ++
      (if within_group.isEmpty then ""
       else " WITHIN GROUP (ORDER BY " ++ displayOrderByListSepF fuel ", " within_group ++ ")")

/-- Display for ListAggOnOverflow (src/ast/mod.rs lines 1186-1205). -/
def displayListAggOnOverflowF : Nat → ListAggOnOverflow → String
  | 0, _ => ""
  | fuel + 1, .Error => " ON OVERFLOW ERROR"
  | fuel + 1, .Truncate filler with_count =>
    " ON OVERFLOW TRUNCATE" ++
      (match filler with
       | some fe => " " ++ displayExprF fuel fe
       | none => "") ++
      (if with_count then " WITH" else " WITHOUT") ++ " COUNT"

/-- Display for Query (src/ast/query.rs lines 38-61). -/
def displayQueryF : Nat → Query → String
  | 0, _ => ""
  | fuel + 1, .mk ctes body order_by limit offset update fetch =>
    (if ctes.isEmpty then "" else "WITH " ++ displayCteListSepF fuel ", " ctes ++ " ") ++
      displaySetExprF fuel body ++
      (if order_by.isEmpty then "" else " ORDER BY " ++ displayOrderByListSepF fuel ", " order_by) ++
      (match limit with
       | some l => " LIMIT " ++ displayExprF fuel l
       | none => "") ++
      (match offset with
       | some o => " " ++ displayOffsetF fuel o
       | none => "") ++
      (if update then " FOR UPDATE" else "") ++
      (match fetch with
       | some f => " " ++ displayFetchF fuel f
       | none => "")

/-- Display for Cte (src/ast/query.rs lines 200-204). -/
def displayCteF : Nat → Cte → String
  | 0, _ => ""
  | fuel + 1, .mk alias_name query =>
    displayTableAlias alias_name ++ " AS (" ++ displayQueryF fuel query ++ ")"

/-- display_comma_separated for CTE lists. -/
def displayCteListSepF : Nat → String → List Cte → String
  | 0, _, _ => ""
  | fuel + 1, sep, [] => ""
  | fuel + 1, sep, [c] => displayCteF fuel c
  | fuel + 1, sep, c :: rest => displayCteF fuel c ++ sep ++ displayCteListSepF fuel sep rest

/-- Display for SetExpr (src/ast/query.rs lines 100-118).  Note that both the
Values and the Value variants delegate to the Display of Values. -/
def displaySetExprF : Nat → SetExpr → String
  | 0, _ => ""
  | fuel + 1, .Select s => displaySelectF fuel s
  | fuel + 1, .Query q => "(" ++ displayQueryF fuel q ++ ")"
  | fuel + 1, .Values v => displayValuesF fuel v
  | fuel + 1, .Value i => displayValuesF fuel i
  | fuel + 1, .SetOperation op all left right =>
    displaySetExprF fuel left ++ " " ++ displaySetOperator op ++
      (if all then " ALL" else "") ++ " " ++ displaySetExprF fuel right

/-- Display for Select (src/ast/query.rs lines 162-187). -/
def displaySelectF : Nat → Select → String
  | 0, _ => ""
  | fuel + 1, .mk comment distinct top projection from_tables selection group_by having =>
    "SELECT" ++
      (match comment with
       | some c => " /*" ++ displayIdent c ++ "*/"
       | none => "") ++
      (if distinct then " DISTINCT" else "") ++
      (match top with
       | some t => " " ++ displayTopF fuel t
       | none => "") ++
      " " ++ displaySelectItemListSepF fuel ", " projection ++
      (if from_tables.isEmpty then ""
       else " FROM " ++ displayTableWithJoinsListSepF fuel ", " from_tables) ++
      (match selection with
       | some s => " WHERE " ++ displayExprF fuel s
       | none => "") ++
      (if group_by.isEmpty then "" else " GROUP BY " ++ displayExprListSepF fuel ", " group_by) ++
      (match having with
       | some h => " HAVING " ++ displayExprF fuel h
       | none => "")

/-- Display for SelectItem (src/ast/query.rs lines 220-229). -/
def displaySelectItemF : Nat → SelectItem → String
  | 0, _ => ""
  | fuel + 1, .UnnamedExpr expr => displayExprF fuel expr
  | fuel + 1, .ExprWithAlias expr alias_name => displayExprF fuel expr ++ " AS " ++ displayIdent alias_name
  | fuel + 1, .QualifiedWildcard prefix_name => displayObjectName prefix_name ++ ".*"
  | fuel + 1, .Wildcard => "*"

/-- display_comma_separated for projection lists. -/
def displaySelectItemListSepF : Nat → String → List SelectItem → String
  | 0, _, _ => ""
  | fuel + 1, sep, [] => ""
  | fuel + 1, sep, [s] => displaySelectItemF fuel s
  | fuel + 1, sep, s :: rest => displaySelectItemF fuel s ++ sep ++ displaySelectItemListSepF fuel sep rest

/-- Display for TableWithJoins (src/ast/query.rs lines 238-246). -/
def displayTableWithJoinsF : Nat → TableWithJoins → String
  | 0, _ => ""
  | fuel + 1, .mk relation joins => displayTableFactorF fuel relation ++ displayJoinsConcatF fuel joins

/-- The join concatenation of Display for TableWithJoins. -/
def displayJoinsConcatF : Nat → List Join → String
  | 0, _ => ""
  | fuel + 1, [] => ""
  | fuel + 1, j :: rest => displayJoinF fuel j ++ displayJoinsConcatF fuel rest

/-- display_comma_separated for FROM lists. -/
def displayTableWithJoinsListSepF : Nat → String → List TableWithJoins → String
  | 0, _, _ => ""
  | fuel + 1, sep, [] => ""
  | fuel + 1, sep, [t] => displayTableWithJoinsF fuel t
  | fuel + 1, sep, t :: rest => displayTableWithJoinsF fuel t ++ sep ++ displayTableWithJoinsListSepF fuel sep rest

/-- Display for TableFactor (src/ast/query.rs lines 276-318). -/
def displayTableFactorF : Nat → TableFactor → String
  | 0, _ => ""
  | fuel + 1, .Table name alias_name force args with_hints =>
    displayObjectName name ++
      (if args.isEmpty then "" else "(" ++ displayExprListSepF fuel ", " args ++ ")") ++
      (match alias_name with
       | some a => " AS " ++ displayTableAlias a
       | none => "") ++
      (match force with
       | some fi => " FORCE INDEX(" ++ displayIdent fi ++ ")"
       | none => "") ++
      (if with_hints.isEmpty then "" else " WITH (" ++ displayExprListSepF fuel ", " with_hints ++ ")")
  | fuel + 1, .Derived lateral subquery alias_name =>
    (if lateral then "LATERAL " else "") ++ "(" ++ displayQueryF fuel subquery ++ ")" ++
      (match alias_name with
       | some a => " AS " ++ displayTableAlias a
       | none => "")
  | fuel + 1, .NestedJoin table_reference => "(" ++ displayTableWithJoinsF fuel table_reference ++ ")"

/-- Display for Join (src/ast/query.rs lines 344-401). -/
def displayJoinF : Nat → Join → String
  | 0, _ => ""
  | fuel + 1, .mk relation join_operator =>
    let prefix_str : JoinConstraint → String := fun c =>
      match c with
      | .Natural => "NATURAL "
      | _ => ""
    match join_operator with
    | .Inner constraint =>
      " " ++ prefix_str constraint ++ "JOIN " ++ displayTableFactorF fuel relation ++
        displayJoinSuffixF fuel constraint
    | .LeftOuter constraint =>
      " " ++ prefix_str constraint ++ "LEFT JOIN " ++ displayTableFactorF fuel relation ++
        displayJoinSuffixF fuel constraint
    | .RightOuter constraint =>
      " " ++ prefix_str constraint ++ "RIGHT JOIN " ++ displayTableFactorF fuel relation ++
        displayJoinSuffixF fuel constraint
    | .FullOuter constraint =>
      " " ++ prefix_str constraint ++ "FULL JOIN " ++ displayTableFactorF fuel relation ++
        displayJoinSuffixF fuel constraint
    | .CrossJoin => " CROSS JOIN " ++ displayTableFactorF fuel relation
    | .CrossApply => " CROSS APPLY " ++ displayTableFactorF fuel relation
    | .OuterApply => " OUTER APPLY " ++ displayTableFactorF fuel relation

/-- The suffix closure of Display for Join (src/ast/query.rs lines 352-366). -/
def displayJoinSuffixF : Nat → JoinConstraint → String
  | 0, _ => ""
  | fuel + 1, .On expr => " ON " ++ displayExprF fuel expr
  | fuel + 1, .Using attrs => " USING(" ++ displayIdentListSep ", " attrs ++ ")"
  | fuel + 1, .Natural => ""

/-- Display for Offset (src/ast/query.rs lines 460-464). -/
def displayOffsetF : Nat → Offset → String
  | 0, _ => ""
  | fuel + 1, .mk value rows => "OFFSET " ++ displayExprF fuel value ++ displayOffsetRows rows

/-- Display for Fetch (src/ast/query.rs lines 494-504). -/
def displayFetchF : Nat → Fetch → String
  | 0, _ => ""
  | fuel + 1, .mk with_ties percent quantity =>
    let extension := if with_ties then "WITH TIES" else "ONLY"
    match quantity with
    | some q =>
      "FETCH FIRST " ++ displayExprF fuel q ++ (if percent then " PERCENT" else "") ++
        " ROWS " ++ extension
    | none => "FETCH FIRST ROWS " ++ extension

/-- Display for Top (src/ast/query.rs lines 515-525). -/
def displayTopF : Nat → SqlParse.Top → String
  | 0, _ => ""
  | fuel + 1, .mk with_ties percent quantity =>
    let extension := if with_ties then " WITH TIES" else ""
    match quantity with
    | some q =>
      "TOP (" ++ displayExprF fuel q ++ ")" ++ (if percent then " PERCENT" else "") ++ extension
    | none => "TOP" ++ extension

/-- Display for Values (src/ast/query.rs lines 531-542): always the keyword
VALUES, one parenthesized row per element. -/
def displayValuesF : Nat → Values → String
  | 0, _ => ""
  | fuel + 1, .mk rows => "VALUES " ++ displayValuesRowsF fuel rows

/-- The row list of Display for Values. -/
def displayValuesRowsF : Nat → List (List Expr) → String
  | 0, _ => ""
  | fuel + 1, [] => ""
  | fuel + 1, [r] => "(" ++ displayExprListSepF fuel ", " r ++ ")"
  | fuel + 1, r :: rest => "(" ++ displayExprListSepF fuel ", " r ++ ")" ++ ", " ++ displayValuesRowsF fuel rest


end

/-- Fuel bound for the display wrappers.  A display run makes one nested
call per AST node on any call path, so any abstract-syntax tree with fewer
nodes than this bound is rendered exactly as the Rust Display does; the
fuel-exhaustion arm is unreachable for such trees. -/
def displayFuel : Nat := 1000000000

def displayExpr (x : Expr) : String :=
  displayExprF displayFuel x

def displayExprListSep (sep : String) (l : List Expr) : String :=
  displayExprListSepF displayFuel sep l

def displayWhenThen (c r : List Expr) : String :=
  displayWhenThenF displayFuel c r

def displayFunction (x : SqlParse.Function) : String :=
  displayFunctionF displayFuel x

def displayWindowSpec (x : WindowSpec) : String :=
  displayWindowSpecF displayFuel x

def displayOrderByExpr (x : OrderByExpr) : String :=
  displayOrderByExprF displayFuel x

def displayOrderByListSep (sep : String) (l : List OrderByExpr) : String :=
  displayOrderByListSepF displayFuel sep l

def displayListAgg (x : ListAgg) : String :=
  displayListAggF displayFuel x

def displayListAggOnOverflow (x : ListAggOnOverflow) : String :=
  displayListAggOnOverflowF displayFuel x

def displayQuery (x : Query) : String :=
  displayQueryF displayFuel x

def displayCte (x : Cte) : String :=
  displayCteF displayFuel x

def displayCteListSep (sep : String) (l : List Cte) : String :=
  displayCteListSepF displayFuel sep l

def displaySetExpr (x : SetExpr) : String :=
  displaySetExprF displayFuel x

def displaySelect (x : Select) : String :=
  displaySelectF displayFuel x

def displaySelectItem (x : SelectItem) : String :=
  displaySelectItemF displayFuel x

def displaySelectItemListSep (sep : String) (l : List SelectItem) : String :=
  displaySelectItemListSepF displayFuel sep l

def displayTableWithJoins (x : TableWithJoins) : String :=
  displayTableWithJoinsF displayFuel x

def displayJoinsConcat (x : List Join) : String :=
  displayJoinsConcatF displayFuel x

def displayTableWithJoinsListSep (sep : String) (l : List TableWithJoins) : String :=
  displayTableWithJoinsListSepF displayFuel sep l

def displayTableFactor (x : TableFactor) : String :=
  displayTableFactorF displayFuel x

def displayJoin (x : Join) : String :=
  displayJoinF displayFuel x

def displayJoinSuffix (x : JoinConstraint) : String :=
  displayJoinSuffixF displayFuel x

def displayOffset (x : Offset) : String :=
  displayOffsetF displayFuel x

def displayFetch (x : Fetch) : String :=
  displayFetchF displayFuel x

def displayTop (x : SqlParse.Top) : String :=
  displayTopF displayFuel x

def displayValues (x : Values) : String :=
  displayValuesF displayFuel x

def displayValuesRows (x : List (List Expr)) : String :=
  displayValuesRowsF displayFuel x



/-- Display for Assignment (src/ast/mod.rs lines 1073-1077). -/
def displayAssignment (a : Assignment) : String :=
  displayIdent a.id ++ " = " ++ displayExpr a.value

/-- display_comma_separated for assignment lists. -/
def displayAssignmentListSep (sep : String) : List Assignment → String
  | [] => ""
  | [a] => displayAssignment a
  | a :: rest => displayAssignment a ++ sep ++ displayAssignmentListSep sep rest

/-- Display for SqlOption (src/ast/mod.rs lines 1234-1238). -/
def displaySqlOption (o : SqlOption) : String :=
  displayIdent o.name ++ " = " ++ displayValue o.value

/-- display_comma_separated for SqlOption lists. -/
def displaySqlOptionListSep (sep : String) : List SqlOption → String
  | [] => ""
  | [o] => displaySqlOption o
  | o :: rest => displaySqlOption o ++ sep ++ displaySqlOptionListSep sep rest

/-- Display for ObjectType (src/ast/mod.rs lines 1216-1225). -/
def displayObjectType : ObjectType → String
  | .Table => "TABLE"
  | .View => "VIEW"
  | .Index => "INDEX"
  | .Schema => "SCHEMA"

/-- Display for FileFormat (src/ast/mod.rs lines 1119-1132).  Note the source
renders JSONFILE as "TEXTFILE". -/
def displayFileFormat : FileFormat → String
  | .TEXTFILE => "TEXTFILE"
  | .SEQUENCEFILE => "SEQUENCEFILE"
  | .ORC => "ORC"
  | .PARQUET => "PARQUET"
  | .AVRO => "AVRO"
  | .RCFILE => "RCFILE"
  | .JSONFILE => "TEXTFILE"

/-- Display for ExplainFormat (src/ast/mod.rs lines 168-177). -/
def displayExplainFormat : ExplainFormat → String
  | .TRADITIONAL => "=TRADITIONAL"
  | .JSON => "=JSON"
  | .TREE => "=TREE"

/-- Display for TransactionAccessMode (src/ast/mod.rs lines 1264-1272). -/
def displayTransactionAccessMode : TransactionAccessMode → String
  | .ReadOnly => "READ ONLY"
  | .ReadWrite => "READ WRITE"

/-- Display for TransactionIsolationLevel (src/ast/mod.rs lines 1283-1293). -/
def displayTransactionIsolationLevel : TransactionIsolationLevel → String
  | .ReadUncommitted => "READ UNCOMMITTED"
  | .ReadCommitted => "READ COMMITTED"
  | .RepeatableRead => "REPEATABLE READ"
  | .Serializable => "SERIALIZABLE"

/-- Display for TransactionMode (src/ast/mod.rs lines 1247-1255). -/
def displayTransactionMode : TransactionMode → String
  | .AccessMode m => displayTransactionAccessMode m
  | .IsolationLevel l => "ISOLATION LEVEL " ++ displayTransactionIsolationLevel l

/-- display_comma_separated for transaction mode lists. -/
def displayTransactionModeListSep (sep : String) : List TransactionMode → String
  | [] => ""
  | [m] => displayTransactionMode m
  | m :: rest => displayTransactionMode m ++ sep ++ displayTransactionModeListSep sep rest

/-- Display for ShowStatementFilter (src/ast/mod.rs lines 1302-1310). -/
def displayShowStatementFilter : ShowStatementFilter → String
  | .Like pattern => "LIKE '" ++ escape_single_quote_string pattern ++ "'"
  | .Where expr => "WHERE " ++ displayExpr expr

/-- Display for SetVariableValue (src/ast/mod.rs lines 1319-1327). -/
def displaySetVariableValue : SetVariableValue → String
  | .Ident i => displayIdent i
  | .Literal v => displayValue v

/-- Modelled from the spec: Display for ColumnOption (src/ast/ddl.rs is not
under src/; spec 4.5: governing keyword followed by the clause body). -/
def displayColumnOption : ColumnOption → String
  | .Null => "NULL"
  | .NotNull => "NOT NULL"
  | .AutoIncrement => "AUTO_INCREMENT"
  | .Unsigned => "UNSIGNED"
  | .Comment e => "COMMENT " ++ displayExpr e
  | .After e => "AFTER " ++ displayExpr e
  | .Character e => "CHARACTER SET " ++ displayExpr e
  | .Collate e => "COLLATE " ++ displayExpr e
  | .Default e => "DEFAULT " ++ displayExpr e
  | .Unique is_primary => if is_primary then "PRIMARY KEY" else "UNIQUE"
  | .ForeignKey foreign_table referred_columns on_delete on_update =>
    "REFERENCES " ++ displayObjectName foreign_table ++
      (if referred_columns.isEmpty then ""
       else " (" ++ displayIdentListSep ", " referred_columns ++ ")") ++
      (match on_delete with
       | some a => " ON DELETE " ++ displayReferentialAction a
       | none => "") ++
      (match on_update with
       | some a => " ON UPDATE " ++ displayReferentialAction a
       | none => "")
  | .Check e => "CHECK (" ++ displayExpr e ++ ")"
where
  /-- Modelled from the spec: Display for ReferentialAction. -/
  displayReferentialAction : ReferentialAction → String
    | .Restrict => "RESTRICT"
    | .Cascade => "CASCADE"
    | .SetNull => "SET NULL"
    | .NoAction => "NO ACTION"
    | .SetDefault => "SET DEFAULT"

/-- Modelled from the spec: Display for ColumnOptionDef (src/ast/ddl.rs is not
under src/). -/
def displayColumnOptionDef (d : ColumnOptionDef) : String :=
  (match d.name with
   | some n => "CONSTRAINT " ++ displayIdent n ++ " "
   | none => "") ++ displayColumnOption d.option

/-- Modelled from the spec: Display for ColumnDef (src/ast/ddl.rs is not under
src/). -/
def displayColumnDef (c : ColumnDef) : String :=
  displayIdent c.name ++ " " ++ displayDataType c.data_type ++
    (match c.collation with
     | some o => " COLLATE " ++ displayObjectName o
     | none => "") ++
    String.join (c.options.map (fun o => " " ++ displayColumnOptionDef o))

/-- display_comma_separated for column definition lists. -/
def displayColumnDefListSep (sep : String) : List ColumnDef → String
  | [] => ""
  | [c] => displayColumnDef c
  | c :: rest => displayColumnDef c ++ sep ++ displayColumnDefListSep sep rest

/-- Modelled from the spec: Display for TableConstraint (src/ast/ddl.rs is not
under src/). -/
def displayTableConstraint : TableConstraint → String
  | .Unique name columns is_primary =>
    (match name with
     | some n => "CONSTRAINT " ++ displayIdent n ++ " "
     | none => "") ++
      (if is_primary then "PRIMARY KEY" else "UNIQUE") ++
      " (" ++ displayIdentListSep ", " columns ++ ")"
  | .ForeignKey name columns foreign_table referred_columns =>
    (match name with
     | some n => "CONSTRAINT " ++ displayIdent n ++ " "
     | none => "") ++
      "FOREIGN KEY (" ++ displayIdentListSep ", " columns ++ ") REFERENCES " ++
      displayObjectName foreign_table ++ " (" ++
      displayIdentListSep ", " referred_columns ++ ")"
  | .Check name expr =>
    (match name with
     | some n => "CONSTRAINT " ++ displayIdent n ++ " "
     | none => "") ++ "CHECK (" ++ displayExpr expr ++ ")"

/-- display_comma_separated for table constraint lists. -/
def displayTableConstraintListSep (sep : String) : List TableConstraint → String
  | [] => ""
  | [c] => displayTableConstraint c
  | c :: rest => displayTableConstraint c ++ sep ++ displayTableConstraintListSep sep rest

/-- Modelled from the spec: Display for IndexOptions (src/ast/ddl.rs is not
under src/). -/
def displayIndexOptions : IndexOptions → String
  | .KeyBlockSize e => "KEY_BLOCK_SIZE " ++ displayExpr e
  | .WithParser i => "WITH PARSER " ++ displayIdent i
  | .IndexType i => "USING " ++ displayIdent i
  | .Comment e => "COMMENT " ++ displayExpr e
  | .References table column =>
    "REFERENCES " ++ displayIdent table ++ " (" ++ displayIdentListSep ", " column ++ ")"

/-- Modelled from the spec: Display for MysqlIndex (src/ast/ddl.rs is not
under src/). -/
def displayMysqlIndex (m : MysqlIndex) : String :=
  (match m.name with
   | some n => " " ++ displayIdent n
   | none => "") ++
    (match m.index_name with
     | some n => " " ++ displayIdent n
     | none => "") ++
    (match m.index_type with
     | some t => " USING " ++ displayIdent t
     | none => "") ++
    (match m.key_parts with
     | some ks => " (" ++ displayIdentListSep ", " ks ++ ")"
     | none => "") ++
    (match m.index_option with
     | some o => " " ++ displayIndexOptions o
     | none => "")

/-- Modelled from the spec: Display for IndexDef (src/ast/ddl.rs is not under
src/). -/
def displayIndexDef : IndexDef → String
  | .Normal m => "KEY" ++ displayMysqlIndex m
  | .PrimaryKey m => "PRIMARY KEY" ++ displayMysqlIndex m
  | .Unique m => "UNIQUE" ++ displayMysqlIndex m
  | .ForeignKey m => "FOREIGN KEY" ++ displayMysqlIndex m

/-- Modelled from the spec: Display for IndexInfo (src/ast/ddl.rs is not under
src/). -/
def displayIndexInfo (i : IndexInfo) : String :=
  (match i.constraint with
   | some n => "CONSTRAINT " ++ displayIdent n ++ " "
   | none => "") ++
    (match i.index_type with
     | some .FullText => "FULLTEXT "
     | some .Spatial => "SPATIAL "
     | none => "") ++ displayIndexDef i.index

/-- display_comma_separated for index info lists. -/
def displayIndexInfoListSep (sep : String) : List IndexInfo → String
  | [] => ""
  | [i] => displayIndexInfo i
  | i :: rest => displayIndexInfo i ++ sep ++ displayIndexInfoListSep sep rest

/-- Modelled from the spec: Display for TableOptionDef (src/ast/ddl.rs is not
under src/; spec 4.4.4: table-level options of the form `key [=] value`). -/
def displayTableOptionDef (d : TableOptionDef) : String :=
  (match d.name with
   | some n => " " ++ displayIdent n
   | none => "") ++
    (match d.option with
     | .Comment e => " COMMENT=" ++ displayExpr e
     | .Collate e => " COLLATE=" ++ displayExpr e
     | .Charset e => " CHARSET=" ++ displayExpr e
     | .Auto_Increment n => " AUTO_INCREMENT=" ++ toString n
     | .Engine e => " ENGINE=" ++ displayExpr e)

/-- Modelled from the spec: Display for AlterTableOperation (src/ast/ddl.rs is
not under src/). -/
def displayAlterTableOperation : AlterTableOperation → String
  | .AddIndex index_def => "ADD " ++ displayIndexInfo index_def
  | .AddColumn column_def => "ADD COLUMN " ++ displayColumnDef column_def
  | .AddConstraint c => "ADD " ++ displayTableConstraint c
  | .ChangeColumn old_column_name new_column_def =>
    "CHANGE COLUMN " ++ displayIdent old_column_name ++ " " ++ displayColumnDef new_column_def
  | .RenameTable table_name => "RENAME TO " ++ displayIdent table_name
  | .RenameColumn old_column_name new_column_name =>
    "RENAME COLUMN " ++ displayIdent old_column_name ++ " TO " ++ displayIdent new_column_name
  | .DropIndex index_def => "DROP " ++ displayIndexDef index_def
  | .DropColumn column_name if_exists cascade =>
    "DROP COLUMN " ++ (if if_exists then "IF EXISTS " else "") ++
      displayIdent column_name ++ (if cascade then " CASCADE" else "")

/-- display_separated for alter operations. -/
def displayAlterTableOperationListSep (sep : String) : List AlterTableOperation → String
  | [] => ""
  | [o] => displayAlterTableOperation o
  | o :: rest => displayAlterTableOperation o ++ sep ++ displayAlterTableOperationListSep sep rest

/-- Display for LOCKType, via the Rust Debug derive used in Statement::Lock
(src/ast/mod.rs line 1036); modelled from the spec. -/
def displayLockInfoListDebug (l : List LockInfo) : String :=
  "[" ++ String.intercalate ", "
    (l.map (fun i => "LockInfo \x7b table_name: " ++ displayObjectName i.table_name ++
      ", lock: " ++ (match i.lock with | .Read => "Read" | .Write => "Write") ++ " \x7d")) ++ "]"

/-- The copy-values tail of Display for Statement::Copy
(src/ast/mod.rs lines 753-777). -/
def displayCopyValues (values : List (Option String)) : String :=
  if values.isEmpty then ""
  else "\n" ++ String.intercalate "\t"
    (values.map (fun v => match v with | some s => s | none => "\\N"))

/-- display_comma_separated for object name lists. -/
def displayObjectNameListSep (sep : String) : List ObjectName → String
  | [] => ""
  | [o] => displayObjectName o
  | o :: rest => displayObjectName o ++ sep ++ displayObjectNameListSep sep rest


mutual

/-- Display for Statement (src/ast/mod.rs lines 699-1063). -/
def displayStatement : Statement → String
  | .Query s => displayQuery s
  | .Explain analyze format_type body =>
    "EXPLAIN" ++
      (match analyze with
       | some _ => "ANALYZE"
       | none => "") ++
      (match format_type with
       | some a => "FORMAT = " ++ displayExplainFormat a
       | none => "") ++ displayExplainStmt body
  | .Insert priority ignore table_name columns source update =>
    "INSERT " ++
      (match priority with
       | some .DELAYED => "DELAYED "
       | some .HIGH_PRIORITY => "HIGH_PRIORITY "
       | some .LOW_PRIORITY => "LOW_PRIORITY "
       | none => "") ++
      (if ignore then "IGNORE " else "") ++
      "INTO " ++ displayObjectName table_name ++ " " ++
      (if columns.isEmpty then "" else "(" ++ displayIdentListSep ", " columns ++ ") ") ++
      displayQuery source ++
      (match update with
       | some u => " ON DUPLICATE KEY UPDATE " ++ displayAssignmentListSep ", " u
       | none => "")
  | .Replace table_name columns source =>
    "INSERT INTO " ++ displayObjectName table_name ++ " " ++
      (if columns.isEmpty then "" else "(" ++ displayIdentListSep ", " columns ++ ") ") ++
      displayQuery source
  | .Copy table_name columns values =>
    "COPY " ++ displayObjectName table_name ++
      (if columns.isEmpty then "" else " (" ++ displayIdentListSep ", " columns ++ ")") ++
      " FROM stdin; " ++ displayCopyValues values ++ "\n\\."
  | .Update table_name assignments selection limit =>
    "UPDATE " ++ displayObjectName table_name ++
      (if assignments.isEmpty then "" else " SET " ++ displayAssignmentListSep ", " assignments) ++
      (match selection with
       | some s => " WHERE " ++ displayExpr s
       | none => "") ++
      (match limit with
       | some l => " LIMIT " ++ displayExpr l
       | none => "")
  | .Delete table_name selection =>
    "DELETE FROM " ++ displayObjectName table_name ++
      (match selection with
       | some s => " WHERE " ++ displayExpr s
       | none => "")
  | .CreateView name columns query materialized with_options =>
    "CREATE" ++ (if materialized then " MATERIALIZED" else "") ++
      " VIEW " ++ displayObjectName name ++
      (if with_options.isEmpty then ""
       else " WITH (" ++ displaySqlOptionListSep ", " with_options ++ ")") ++
      (if columns.isEmpty then "" else " (" ++ displayIdentListSep ", " columns ++ ")") ++
      " AS " ++ displayQuery query
  | .CreateTable name columns index constraints with_options table_options
      if_not_exists external file_format location query without_rowid =>
    "CREATE " ++ (if external then "EXTERNAL " else "") ++ "TABLE " ++
      (if if_not_exists then "IF NOT EXISTS " else "") ++ displayObjectName name ++
      (if !columns.isEmpty || !constraints.isEmpty then
        " (" ++ displayColumnDefListSep ", " columns ++
          (if !columns.isEmpty && !constraints.isEmpty then ", " else "") ++
          (if index.isEmpty then "" else ", " ++ displayIndexInfoListSep ", " index) ++
          displayTableConstraintListSep ", " constraints ++ ")"
       else if query.isNone then " ()"
       else "") ++
      (if without_rowid then " WITHOUT ROWID" else "") ++
      (if external then
        " STORED AS " ++
          (match file_format with
           | some ff => displayFileFormat ff
           | none => "") ++ " LOCATION '" ++
          (match location with
           | some loc => loc
           | none => "") ++ "'"
       else "") ++
      String.join (table_options.map displayTableOptionDef) ++
      (if with_options.isEmpty then ""
       else " WITH (" ++ displaySqlOptionListSep ", " with_options ++ ")") ++
      (match query with
       | some q => " AS " ++ displayQuery q
       | none => "")
  | .CreateVirtualTable name if_not_exists module_name module_args =>
    "CREATE VIRTUAL TABLE " ++ (if if_not_exists then "IF NOT EXISTS " else "") ++
      displayObjectName name ++ " USING " ++ displayIdent module_name ++
      (if module_args.isEmpty then ""
       else " (" ++ displayIdentListSep ", " module_args ++ ")")
  | .CreateIndex name table_name columns unique if_not_exists =>
    "CREATE" ++ (if unique then " UNIQUE " else " ") ++ "INDEX" ++
      (if if_not_exists then " IF NOT EXISTS " else " ") ++ displayObjectName name ++
      " ON " ++ displayObjectName table_name ++ "(" ++ displayIdentListSep "," columns ++ ");"
  | .AlterTable name operation =>
    "ALTER TABLE " ++ displayObjectName name ++ " " ++
      displayAlterTableOperationListSep "," operation
  | .Drop object_type if_exists names on_info cascade =>
    "DROP " ++ displayObjectType object_type ++ (if if_exists then " IF EXISTS" else "") ++
      " " ++ displayObjectNameListSep ", " names ++
      (if cascade then " CASCADE" else "") ++ " " ++
      (if object_type = ObjectType.Index then "ON " ++ displayObjectName on_info else "")
  | .SetVariable local_scope variable_name value =>
    "SET " ++ (if local_scope then "LOCAL " else "") ++
      displayIdent variable_name ++ " = " ++ displaySetVariableValue value
  | .ReLoad _variable_name selection =>
    (match selection with
     | some s => "RELOAD USER" ++ " WHERE " ++ displayExpr s
     | none => "RELOAD CONFIG")
  | .ShowVariable variable_name global selection =>
    "SHOW " ++ (if global then "GLOBAL" else "") ++ " " ++ displayIdent variable_name ++
      (match selection with
       | some s => " WHERE " ++ displayExpr s
       | none => "")
  | .ShowColumns extended full table_name filter =>
    "SHOW " ++ (if extended then "EXTENDED " else "") ++ (if full then "FULL " else "") ++
      "COLUMNS FROM " ++ displayObjectName table_name ++
      (match filter with
       | some ft => " " ++ displayShowStatementFilter ft
       | none => "")
  | .StartTransaction modes =>
    "START TRANSACTION" ++
      (if modes.isEmpty then "" else " " ++ displayTransactionModeListSep ", " modes)
  | .SetTransaction modes =>
    "SET TRANSACTION" ++
      (if modes.isEmpty then "" else " " ++ displayTransactionModeListSep ", " modes)
  | .Commit chain => "COMMIT" ++ (if chain then " AND CHAIN" else "")
  | .Rollback chain => "ROLLBACK" ++ (if chain then " AND CHAIN" else "")
  | .CreateSchema schema_name => "CREATE SCHEMA " ++ displayObjectName schema_name
  | .Assert condition message =>
    "ASSERT " ++ displayExpr condition ++
      (match message with
       | some m => " AS " ++ displayExpr m
       | none => "")
  | .UNLock chain => "UNLOCK" ++ (if chain then " AND CHAIN" else "")
  | .Lock lock_tables => "LOCK" ++ displayLockInfoListDebug lock_tables
  | .Call name parameter =>
    "Call " ++ displayIdent name ++
      (match parameter with
       | some p => "parameter[" ++ displayExprListSep ", " p ++ "]"
       | none => "")
  | .ChangeDatabase database => "USE " ++ database
  | .AdminSetVariable variable_name value selection =>
    "SET " ++ displayIdent variable_name ++ " = " ++ displaySetVariableValue value ++
      (match selection with
       | some p => "WHERE " ++ displayExpr p
       | none => "")
  | .Desc table_name => "DESC " ++ displayObjectName table_name
  | .ShowCreate table_name => "SHOW CREATE TABLE " ++ displayObjectName table_name

/-- Display for ExplainStmt (src/ast/mod.rs lines 151-159). -/
def displayExplainStmt : ExplainStmt → String
  | .Stmt s => displayStatement s
  | .Connection literal => "FOR CONNECTION " ++ displayValue literal

end


/-- ParserError (src/parser.rs lines 25-29), with Rust `panic!` embedded as a
third, distinguished outcome that propagates through every combinator. -/
inductive PErr where
  | TokenizerError (msg : String)
  | ParserError (msg : String)
  | Panic (msg : String)
deriving DecidableEq, Repr

/-- The parser computation monad: the cursor index is the only mutable parser
state (spec 3.2 "The parser itself holds the only mutable state (its cursor
index)").  A result always carries the post-state, matching `&mut self`
mutation that persists even when an Err is returned. -/
def PM (α : Type) : Type := Nat → Except PErr α × Nat

/-- Monad pure for PM. -/
def pmPure (a : α) : PM α := fun i => (Except.ok a, i)

/-- Monad bind for PM: errors short-circuit but keep the mutated cursor. -/
def pmBind (m : PM α) (f : α → PM β) : PM β := fun i =>
  match m i with
  | (Except.ok a, j) => f a j
  | (Except.error e, j) => (Except.error e, j)

instance : Monad PM where
  pure := pmPure
  bind := pmBind

/-- Raise an error without moving the cursor. -/
def throwPE (e : PErr) : PM α := fun i => (Except.error e, i)

/-- The parser_err! macro (src/parser.rs lines 32-36). -/
def parser_err_pm (msg : String) : PM α := throwPE (PErr.ParserError msg)

/-- Running out of recursion fuel is reported as an ordinary parser error so
that it can never be mistaken for a successful parse. -/
def fuel_err : PM α := parser_err_pm "recursion fuel exhausted"

/-- Parser (src/parser.rs lines 91-97) without the mutable index, which lives
in the PM state. -/
structure Parser where
  tokens : List Token
  dialect_type : DBType

/-- The skipping loop of peek_nth_token (src/parser.rs lines 1007-1021),
expressed on the token list suffix that starts at the cursor: skip whitespace,
count down `n` over non-whitespace tokens.  Past the end of the stream the
original loop merely counts `n` down and answers EOF, which the `[]` arm
answers directly. -/
def peek_nth_suffix : List Token → Nat → Token
  | [], _ => Token.EOF
  | Token.Whitespace _ :: rest, n => peek_nth_suffix rest n
  | t :: _, 0 => t
  | _ :: rest, n + 1 => peek_nth_suffix rest n

/-- Parser::peek_nth_token's loop from absolute index `i` (src/parser.rs lines
1007-1021). -/
def peek_nth_from (l : List Token) (i n : Nat) : Token :=
  peek_nth_suffix (l.drop i) n

/-- Parser::peek_nth_token (src/parser.rs lines 1006-1021). -/
def Parser.peek_nth_token (P : Parser) (n : Nat) : PM Token :=
  fun i => (Except.ok (peek_nth_from P.tokens i n), i)

/-- Parser::peek_token (src/parser.rs lines 1000-1004). -/
def Parser.peek_token (P : Parser) : PM Token :=
  P.peek_nth_token 0

/-- The pure value of peek_token at a given cursor. -/
def peek_at (P : Parser) (i : Nat) : Token :=
  peek_nth_from P.tokens i 0

/-- The advancing loop of next_token (src/parser.rs lines 1026-1034):
first non-whitespace token from `i`, and the index just past it. -/
def next_token_suffix : List Token → Token × Nat
  | [] => (Token.EOF, 1)
  | Token.Whitespace _ :: rest =>
    let r := next_token_suffix rest
    (r.1, r.2 + 1)
  | t :: _ => (t, 1)

/-- Parser::next_token's loop from absolute index `i` (src/parser.rs lines
1026-1034): the suffix loop counts the consumed tokens, so the new cursor is
`i` plus that count. -/
def next_token_pos (l : List Token) (i : Nat) : Token × Nat :=
  let r := next_token_suffix (l.drop i)
  (r.1, i + r.2)

/-- Parser::next_token (src/parser.rs lines 1026-1034). -/
def next_token (P : Parser) : PM Token :=
  fun i => let r := next_token_pos P.tokens i
           (Except.ok r.1, r.2)

/-- The advancing loop of next_token_no_ignore_comment (src/parser.rs lines
1039-1050): skips spaces, tabs, newlines and single-line comments but stops at
a multi-line comment. -/
def next_token_no_ignore_comment_suffix : List Token → Token × Nat
  | [] => (Token.EOF, 1)
  | Token.Whitespace Whitespace.Space :: rest =>
    let r := next_token_no_ignore_comment_suffix rest
    (r.1, r.2 + 1)
  | Token.Whitespace Whitespace.Newline :: rest =>
    let r := next_token_no_ignore_comment_suffix rest
    (r.1, r.2 + 1)
  | Token.Whitespace Whitespace.Tab :: rest =>
    let r := next_token_no_ignore_comment_suffix rest
    (r.1, r.2 + 1)
  | Token.Whitespace (Whitespace.SingleLineComment _) :: rest =>
    let r := next_token_no_ignore_comment_suffix rest
    (r.1, r.2 + 1)
  | t :: _ => (t, 1)

/-- Parser::next_token_no_ignore_comment's loop from absolute index `i`
(src/parser.rs lines 1039-1050). -/
def next_token_no_ignore_comment_pos (l : List Token) (i : Nat) : Token × Nat :=
  let r := next_token_no_ignore_comment_suffix (l.drop i)
  (r.1, i + r.2)

/-- Parser::next_token_no_ignore_comment (src/parser.rs lines 1039-1050). -/
def next_token_no_ignore_comment (P : Parser) : PM Token :=
  fun i => let r := next_token_no_ignore_comment_pos P.tokens i
           (Except.ok r.1, r.2)

/-- Parser::next_token_no_skip (src/parser.rs lines 1053-1056). -/
def next_token_no_skip (P : Parser) : PM (Option Token) :=
  fun i => (Except.ok (P.tokens.get? i), i + 1)

/-- The rewinding loop of prev_token (src/parser.rs lines 1061-1070).  The
Rust code asserts index > 0 on every step; the parser only calls prev_token
after a successful next_token, so the assertion never fires, and reaching
index 0 is modelled as staying at 0. -/
def prev_token_pos (l : List Token) : Nat → Nat
  | 0 => 0
  | i + 1 =>
    match l.get? i with
    | some (Token.Whitespace _) => prev_token_pos l i
    | _ => i

/-- Parser::prev_token (src/parser.rs lines 1061-1070). -/
def prev_token (P : Parser) : PM Unit :=
  fun i => (Except.ok (), prev_token_pos P.tokens i)

/-- Parser::expected (src/parser.rs lines 1073-1075). -/
def expected (what : String) (found : Token) : PM α :=
  parser_err_pm ("Expected " ++ what ++ ", found: " ++ found.render)

/-- Parser::parse_keyword (src/parser.rs lines 1079-1087). -/
def parse_keyword (P : Parser) (expected_kw : Keyword) : PM Bool := do
  let t ← P.peek_token
  match t with
  | Token.Word w =>
    if expected_kw = w.keyword then do
      let _ ← next_token P
      pure true
    else pure false
  | _ => pure false

/-- The iteration of parse_keywords, with the saved index to rewind to. -/
def parse_keywords_loop (P : Parser) (saved : Nat) : List Keyword → PM Bool
  | [] => pure true
  | k :: rest => do
    let b ← parse_keyword P k
    if b then parse_keywords_loop P saved rest
    else fun _ => (Except.ok false, saved)

/-- Parser::parse_keywords (src/parser.rs lines 1091-1102): consume the whole
sequence, or rewind to the saved index and return false. -/
def parse_keywords (P : Parser) (keywords : List Keyword) : PM Bool :=
  fun i => parse_keywords_loop P i keywords i

/-- Parser::parse_one_of_keywords (src/parser.rs lines 1106-1119). -/
def parse_one_of_keywords (P : Parser) (keywords : List Keyword) : PM (Option Keyword) := do
  let t ← P.peek_token
  match t with
  | Token.Word w =>
    match keywords.find? (fun k => k == w.keyword) with
    | some k => do
      let _ ← next_token P
      pure (some k)
    | none => pure none
  | _ => pure none

/-- The Rust Debug rendering of a keyword tag, used in expect_keyword's
message (src/parser.rs line 1139): the bare constructor name. -/
def keyword_debug (k : Keyword) : String :=
  (reprStr k).drop 17

/-- Parser::expect_one_of_keywords (src/parser.rs lines 1122-1132). -/
def expect_one_of_keywords (P : Parser) (keywords : List Keyword) : PM Keyword := do
  match ← parse_one_of_keywords P keywords with
  | some k => pure k
  | none =>
    expected ("one of " ++ String.intercalate " or " (keywords.map keyword_debug))
      (← P.peek_token)

/-- Parser::expect_keyword (src/parser.rs lines 1135-1141). -/
def expect_keyword (P : Parser) (k : Keyword) : PM Unit := do
  if ← parse_keyword P k then pure ()
  else expected (keyword_debug k) (← P.peek_token)

/-- Parser::expect_keywords (src/parser.rs lines 1145-1150). -/
def expect_keywords (P : Parser) : List Keyword → PM Unit
  | [] => pure ()
  | k :: rest => do
    expect_keyword P k
    expect_keywords P rest

/-- Parser::consume_token (src/parser.rs lines 1154-1162). -/
def consume_token (P : Parser) (expected_tok : Token) : PM Bool := do
  if (← P.peek_token) = expected_tok then do
    let _ ← next_token P
    pure true
  else pure false

/-- Parser::expect_token (src/parser.rs lines 1165-1171). -/
def expect_token (P : Parser) (t : Token) : PM Unit := do
  if ← consume_token P t then pure ()
  else expected t.render (← P.peek_token)

/-- Parser::parse_comma_separated (src/parser.rs lines 1174-1186), with fuel
bounding the number of list elements. -/
def parse_comma_separated (P : Parser) (f : PM α) : Nat → PM (List α)
  | 0 => fuel_err
  | fuel + 1 => do
    let v ← f
    if ← consume_token P Token.Comma then do
      let rest ← parse_comma_separated P f fuel
      pure (v :: rest)
    else pure [v]

/-- Parser::maybe_parse (src/parser.rs lines 1191-1202): run `f`, rewinding
the cursor on failure.  A panic is not caught (Rust panics abort). -/
def maybe_parse (f : PM α) : PM (Option α) := fun i =>
  match f i with
  | (Except.ok a, j) => (Except.ok (some a), j)
  | (Except.error (PErr.Panic m), j) => (Except.error (PErr.Panic m), j)
  | (Except.error _, _) => (Except.ok none, i)

/-- Parser::parse_all_or_distinct (src/parser.rs lines 1206-1214). -/
def parse_all_or_distinct (P : Parser) : PM Bool := do
  let all ← parse_keyword P Keyword.ALL
  let distinct ← parse_keyword P Keyword.DISTINCT
  if all && distinct then parser_err_pm "Cannot specify both ALL and DISTINCT"
  else pure distinct

/-- A result that is not a Rust panic. -/
def ResNoPanic (r : Except PErr α × Nat) : Prop :=
  ∀ m, r.1 ≠ Except.error (PErr.Panic m)

/-- A parser computation that never panics, from any cursor. -/
def NoPanicPM (m : PM α) : Prop :=
  ∀ i, ResNoPanic (m i)

/-- Rust str::replace (used by parse_comment_for_select, src/parser.rs line
2511): replace every non-overlapping occurrence of a pattern, left to right. -/
def replace_chars (pat rep : List Char) : Nat → List Char → List Char
  | _, [] => []
  | 0, l => l
  | fuel + 1, c :: rest =>
    if pat.length > 0 ∧ pat.isPrefixOf (c :: rest) then
      rep ++ replace_chars pat rep fuel (rest.drop (pat.length - 1))
    else
      c :: replace_chars pat rep fuel rest

/-- Rust str::replace on strings.  Every step of replace_chars consumes at
least one character, so the character count is always enough fuel. -/
def string_replace (s pat rep : String) : String :=
  String.mk (replace_chars pat.data rep.data s.data.length s.data)

/-- Ident::with_quote (src/ast/mod.rs lines 101-110); the assert on the quote
character never fires at the single call site, which passes a single quote. -/
def Ident.with_quote (q : Char) (value : String) : Ident :=
  ⟨value, some q⟩


/-- IsOptional (src/parser.rs lines 47-52). -/
inductive IsOptional where
  | Optional
  | Mandatory
deriving DecidableEq

/-- IsLateral (src/parser.rs lines 54-57). -/
inductive IsLateral where
  | Lateral
  | NotLateral
deriving DecidableEq

/-- Parser::parse_value (src/parser.rs lines 2015-2037).  The Rust
`n.parse()` on a number token is a no-op without the bigdecimal feature
(source comment lines 2023-2025), so the number arm always succeeds. -/
def parse_value (P : Parser) : PM Value := do
  match ← next_token P with
  | Token.Word w =>
    match w.keyword with
    | Keyword.TRUE => pure (Value.Boolean true)
    | Keyword.FALSE => pure (Value.Boolean false)
    | Keyword.NULL => pure Value.Null
    | _ => expected "a concrete value" (Token.Word w)
  | Token.Number n => pure (Value.Number n)
  | Token.SingleQuotedString s => pure (Value.SingleQuotedString s)
  | Token.NationalStringLiteral s => pure (Value.NationalStringLiteral s)
  | Token.HexStringLiteral s => pure (Value.HexStringLiteral s)
  | Token.VariableString v => pure (Value.VariableName v)
  | Token.Char c => pure (Value.Char c)
  | unexpected => expected "a value" unexpected

/-- Parser::parse_number_value (src/parser.rs lines 2039-2055). -/
def parse_number_value (P : Parser) : PM Value := do
  match ← parse_value P with
  | Value.Number n => pure (Value.Number n)
  | Value.Char c =>
    if Value.Char c = Value.Char '?' then pure (Value.Char c)
    else do
      prev_token P
      expected "literal number" (← P.peek_token)
  | _ => do
    prev_token P
    expected "literal number" (← P.peek_token)

/-- Parser::parse_literal_uint (src/parser.rs lines 2058-2065).  The u64 parse
failure message is abbreviated; its exact text is unused. -/
def parse_literal_uint (P : Parser) : PM Nat := do
  match ← next_token P with
  | Token.Number s =>
    match str_to_nat s with
    | some n => pure n
    | none => parser_err_pm ("Could not parse '" ++ s ++ "' as u64: invalid digit")
  | unexpected => expected "literal int" unexpected

/-- Parser::parse_literal_string (src/parser.rs lines 2068-2073). -/
def parse_literal_string (P : Parser) : PM String := do
  match ← next_token P with
  | Token.SingleQuotedString s => pure s
  | unexpected => expected "literal string" unexpected

/-- Parser::parse_identifier (src/parser.rs lines 2222-2228). -/
def parse_identifier (P : Parser) : PM Ident := do
  match ← next_token P with
  | Token.Word w => pure w.to_ident
  | Token.VariableString v => pure ⟨v, none⟩
  | unexpected => expected "identifier" unexpected

/-- The period loop of parse_object_name (src/parser.rs lines 2210-2219). -/
def parse_object_name_loop (P : Parser) : Nat → PM (List Ident)
  | 0 => fuel_err
  | fuel + 1 => do
    let id ← parse_identifier P
    if ← consume_token P Token.Period then do
      let rest ← parse_object_name_loop P fuel
      pure (id :: rest)
    else pure [id]

/-- Parser::parse_object_name (src/parser.rs lines 2210-2219). -/
def parse_object_name (P : Parser) (fuel : Nat) : PM ObjectName := do
  let idents ← parse_object_name_loop P fuel
  pure ⟨idents⟩

/-- Parser::parse_parenthesized_column_list (src/parser.rs lines 2231-2244). -/
def parse_parenthesized_column_list (P : Parser) (fuel : Nat) (optional : IsOptional) :
    PM (List Ident) := do
  if ← consume_token P Token.LParen then do
    let cols ← parse_comma_separated P (parse_identifier P) fuel
    expect_token P Token.RParen
    pure cols
  else if optional = IsOptional.Optional then pure []
  else expected "a list of columns in parentheses" (← P.peek_token)

/-- Parser::parse_optional_precision (src/parser.rs lines 2246-2254). -/
def parse_optional_precision (P : Parser) : PM (Option Nat) := do
  if ← consume_token P Token.LParen then do
    let n ← parse_literal_uint P
    expect_token P Token.RParen
    pure (some n)
  else pure none

/-- Parser::parse_optional_precision_scale (src/parser.rs lines 2256-2271). -/
def parse_optional_precision_scale (P : Parser) : PM (Option Nat × Option Nat) := do
  if ← consume_token P Token.LParen then do
    let n ← parse_literal_uint P
    let scale ←
      if ← consume_token P Token.Comma then do
        let s ← parse_literal_uint P
        pure (some s)
      else pure none
    expect_token P Token.RParen
    pure (some n, scale)
  else pure (none, none)

/-- Parser::parse_data_type (src/parser.rs lines 2076-2149). -/
def parse_data_type (P : Parser) (fuel : Nat) : PM DataType := do
  match ← next_token P with
  | Token.Word w =>
    match w.keyword with
    | Keyword.BOOLEAN => pure DataType.Boolean
    | Keyword.FLOAT => do
      let p ← parse_optional_precision P
      pure (DataType.Float p)
    | Keyword.REAL => pure DataType.Real
    | Keyword.DOUBLE => do
      let _ ← parse_keyword P Keyword.PRECISION
      pure DataType.Double
    | Keyword.SMALLINT => do
      let _ ← parse_optional_precision P
      pure DataType.SmallInt
    | Keyword.INT => do
      let _ ← parse_optional_precision P
      pure DataType.Int
    | Keyword.INTEGER => do
      let _ ← parse_optional_precision P
      pure DataType.Int
    | Keyword.BIGINT => do
      let _ ← parse_optional_precision P
      pure DataType.BigInt
    | Keyword.VARCHAR => do
      let p ← parse_optional_precision P
      pure (DataType.Varchar p)
    | Keyword.CHAR => do
      if ← parse_keyword P Keyword.VARYING then do
        let p ← parse_optional_precision P
        pure (DataType.Varchar p)
      else do
        let p ← parse_optional_precision P
        pure (DataType.Char p)
    | Keyword.CHARACTER => do
      if ← parse_keyword P Keyword.VARYING then do
        let p ← parse_optional_precision P
        pure (DataType.Varchar p)
      else do
        let p ← parse_optional_precision P
        pure (DataType.Char p)
    | Keyword.UUID => pure DataType.Uuid
    | Keyword.DATE => pure DataType.Date
    | Keyword.TIMESTAMP => do
      if ← parse_keyword P Keyword.WITH then expect_keywords P [Keyword.TIME, Keyword.ZONE]
      else if ← parse_keyword P Keyword.WITHOUT then expect_keywords P [Keyword.TIME, Keyword.ZONE]
      else pure ()
      pure DataType.Timestamp
    | Keyword.TIME => do
      if ← parse_keyword P Keyword.WITH then expect_keywords P [Keyword.TIME, Keyword.ZONE]
      else if ← parse_keyword P Keyword.WITHOUT then expect_keywords P [Keyword.TIME, Keyword.ZONE]
      else pure ()
      pure DataType.Time
    | Keyword.INTERVAL => pure DataType.Interval
    | Keyword.REGCLASS => pure DataType.Regclass
    | Keyword.TEXT => do
      if ← consume_token P Token.LBracket then do
        expect_token P Token.RBracket
        pure (DataType.Array DataType.Text)
      else pure DataType.Text
    | Keyword.BYTEA => pure DataType.Bytea
    | Keyword.NUMERIC => do
      let (precision, scale) ← parse_optional_precision_scale P
      pure (DataType.Decimal precision scale)
    | Keyword.DECIMAL => do
      let (precision, scale) ← parse_optional_precision_scale P
      pure (DataType.Decimal precision scale)
    | Keyword.DEC => do
      let (precision, scale) ← parse_optional_precision_scale P
      pure (DataType.Decimal precision scale)
    | _ => do
      prev_token P
      let type_name ← parse_object_name P fuel
      pure (DataType.Custom type_name)
  | unexpected => expected "a data type name" unexpected

/-- Parser::parse_date_time_field (src/parser.rs lines 747-760). -/
def parse_date_time_field (P : Parser) : PM DateTimeField := do
  match ← next_token P with
  | Token.Word w =>
    match w.keyword with
    | Keyword.YEAR => pure DateTimeField.Year
    | Keyword.MONTH => pure DateTimeField.Month
    | Keyword.DAY => pure DateTimeField.Day
    | Keyword.HOUR => pure DateTimeField.Hour
    | Keyword.MINUTE => pure DateTimeField.Minute
    | Keyword.SECOND => pure DateTimeField.Second
    | _ => expected "date/time field" (Token.Word w)
  | unexpected => expected "date/time field" unexpected

/-- Parser::parse_literal_interval (src/parser.rs lines 774-839). -/
def parse_literal_interval (P : Parser) : PM Expr := do
  let value ← parse_literal_string P
  let leading_field ←
    match ← P.peek_token with
    | Token.Word kw =>
      if [Keyword.YEAR, Keyword.MONTH, Keyword.DAY, Keyword.HOUR, Keyword.MINUTE,
          Keyword.SECOND].any (fun d => kw.keyword == d) then do
        let fld ← parse_date_time_field P
        pure (some fld)
      else pure none
    | _ => pure none
  let (leading_precision, last_field, fsec_precision) ←
    if leading_field = some DateTimeField.Second then do
      let (leading_precision, fsec_precision) ← parse_optional_precision_scale P
      pure (leading_precision, (none : Option DateTimeField), fsec_precision)
    else do
      let leading_precision ← parse_optional_precision P
      if ← parse_keyword P Keyword.TO then do
        let lastf ← parse_date_time_field P
        let fsec_precision ←
          if lastf = DateTimeField.Second then parse_optional_precision P
          else pure none
        pure (leading_precision, some lastf, fsec_precision)
      else
        pure (leading_precision, none, none)
  pure (Expr.Value (Value.Interval value leading_field leading_precision last_field
    fsec_precision))

/-- Modelled from the spec: keywords::RESERVED_FOR_COLUMN_ALIAS (spec 4.1:
"keywords that may never be silently reinterpreted as a column alias (e.g.
FROM, WHERE, GROUP, ORDER, LIMIT, ...)"; the file is not under src/ and the
spec's list is non-exhaustive). -/
def RESERVED_FOR_COLUMN_ALIAS : List Keyword :=
  [Keyword.WITH, Keyword.SELECT, Keyword.WHERE, Keyword.GROUP, Keyword.HAVING,
   Keyword.ORDER, Keyword.LIMIT, Keyword.OFFSET, Keyword.FETCH, Keyword.UNION,
   Keyword.EXCEPT, Keyword.INTERSECT, Keyword.FROM, Keyword.INTO, Keyword.END,
   Keyword.FOR]

/-- Modelled from the spec: keywords::RESERVED_FOR_TABLE_ALIAS (spec 4.1:
"stricter superset used after a table expression (includes JOIN, INNER, LEFT,
NATURAL, USING, ON, ...)"). -/
def RESERVED_FOR_TABLE_ALIAS : List Keyword :=
  RESERVED_FOR_COLUMN_ALIAS ++
  [Keyword.ON, Keyword.JOIN, Keyword.INNER, Keyword.CROSS, Keyword.FULL,
   Keyword.LEFT, Keyword.RIGHT, Keyword.NATURAL, Keyword.USING, Keyword.OUTER,
   Keyword.FORCE, Keyword.SET]

/-- Parser::parse_optional_alias (src/parser.rs lines 2154-2189). -/
def parse_optional_alias (P : Parser) (reserved_kwds : List Keyword) :
    PM (Option Ident) := do
  let after_as ← parse_keyword P Keyword.AS
  match ← next_token P with
  | Token.Word w =>
    if after_as || !(reserved_kwds.contains w.keyword) then pure (some w.to_ident)
    else do
      prev_token P
      pure none
  | Token.SingleQuotedString s => pure (some (Ident.with_quote '\'' s))
  | not_an_ident =>
    if after_as then expected "an identifier after AS" not_an_ident
    else do
      prev_token P
      pure none

/-- Parser::parse_window_frame_units (src/parser.rs lines 570-580). -/
def parse_window_frame_units (P : Parser) : PM WindowFrameUnits := do
  match ← next_token P with
  | Token.Word w =>
    match w.keyword with
    | Keyword.ROWS => pure WindowFrameUnits.Rows
    | Keyword.RANGE => pure WindowFrameUnits.Range
    | Keyword.GROUPS => pure WindowFrameUnits.Groups
    | _ => expected "ROWS, RANGE, GROUPS" (Token.Word w)
  | unexpected => expected "ROWS, RANGE, GROUPS" unexpected

/-- Parser::parse_window_frame_bound (src/parser.rs lines 600-617). -/
def parse_window_frame_bound (P : Parser) : PM WindowFrameBound := do
  if ← parse_keywords P [Keyword.CURRENT, Keyword.ROW] then
    pure WindowFrameBound.CurrentRow
  else do
    let rows ←
      if ← parse_keyword P Keyword.UNBOUNDED then pure (none : Option Nat)
      else do
        let n ← parse_literal_uint P
        pure (some n)
    if ← parse_keyword P Keyword.PRECEDING then pure (WindowFrameBound.Preceding rows)
    else if ← parse_keyword P Keyword.FOLLOWING then pure (WindowFrameBound.Following rows)
    else expected "PRECEDING or FOLLOWING" (← P.peek_token)

/-- Parser::parse_window_frame (src/parser.rs lines 582-597). -/
def parse_window_frame (P : Parser) : PM WindowFrame := do
  let units ← parse_window_frame_units P
  if ← parse_keyword P Keyword.BETWEEN then do
    let start_bound ← parse_window_frame_bound P
    expect_keyword P Keyword.AND
    let end_bound ← parse_window_frame_bound P
    pure ⟨units, start_bound, some end_bound⟩
  else do
    let start_bound ← parse_window_frame_bound P
    pure ⟨units, start_bound, none⟩

/-- Parser::parse_comment_for_select (src/parser.rs lines 2508-2518): capture
a leading block comment with every space character removed. -/
def parse_comment_for_select (P : Parser) : PM (Option Ident) := do
  match ← next_token_no_ignore_comment P with
  | Token.Whitespace (Whitespace.MultiLineComment v) =>
    pure (some ⟨string_replace v " " "", none⟩)
  | _ => do
    prev_token P
    pure none

/-- Parser::parse_offset (src/parser.rs lines 3051-3061). -/
def parse_offset (P : Parser) : PM Offset := do
  let value := Expr.Value (← parse_number_value P)
  let rows ← do
    if ← parse_keyword P Keyword.ROW then pure OffsetRows.Row
    else if ← parse_keyword P Keyword.ROWS then pure OffsetRows.Rows
    else pure OffsetRows.None
  pure (Offset.mk value rows)

/-- Parser::parse_mysql_limit (src/parser.rs lines 3024-3039): `ALL` yields
(None, None); otherwise the first number becomes the limit, and either an
OFFSET keyword or a bare comma introduces the offset value. -/
def parse_mysql_limit (P : Parser) : PM (Option Expr × Option Offset) := do
  if ← parse_keyword P Keyword.ALL then pure (none, none)
  else do
    let limit_value := some (Expr.Value (← parse_number_value P))
    if ← parse_keyword P Keyword.OFFSET then do
      let o ← parse_offset P
      pure (limit_value, some o)
    else if (← P.peek_token) = Token.Comma then do
      let _ ← next_token P
      let o ← parse_offset P
      pure (limit_value, some o)
    else
      pure (limit_value, none)

/-- Parser::parse_limit (src/parser.rs lines 3042-3048). -/
def parse_limit (P : Parser) : PM (Option Expr) := do
  if ← parse_keyword P Keyword.ALL then pure none
  else do
    let v ← parse_number_value P
    pure (some (Expr.Value v))

/-- Parser::parse_fetch (src/parser.rs lines 3064-3089). -/
def parse_fetch (P : Parser) : PM Fetch := do
  let _ ← expect_one_of_keywords P [Keyword.FIRST, Keyword.NEXT]
  let (quantity, percent) ←
    if (← parse_one_of_keywords P [Keyword.ROW, Keyword.ROWS]).isSome then
      pure ((none : Option Expr), false)
    else do
      let quantity := Expr.Value (← parse_value P)
      let percent ← parse_keyword P Keyword.PERCENT
      let _ ← expect_one_of_keywords P [Keyword.ROW, Keyword.ROWS]
      pure (some quantity, percent)
  let with_ties ← do
    if ← parse_keyword P Keyword.ONLY then pure false
    else if ← parse_keywords P [Keyword.WITH, Keyword.TIES] then pure true
    else expected "one of ONLY or WITH TIES" (← P.peek_token)
  pure (Fetch.mk with_ties percent quantity)

/-- Parser::parse_lock_type (src/parser.rs lines 341-356). -/
def parse_lock_type (P : Parser) : PM LOCKType := do
  let fallthrough ←
    match ← P.peek_token with
    | Token.Word _ => do
      if ← parse_keyword P Keyword.READ then pure (some LOCKType.Read)
      else if ← parse_keyword P Keyword.WRITE then pure (some LOCKType.Write)
      else pure none
    | _ => pure none
  match fallthrough with
  | some t => pure t
  | none => expected "LOCK tables type only support read and write" (← P.peek_token)

/-- The value of get_next_precedence at a cursor (src/parser.rs lines
967-998); the Rust function returns Ok in every branch, so the value is pure. -/
def get_next_precedence_val (P : Parser) (i : Nat) : Nat :=
  match peek_nth_from P.tokens i 0 with
  | Token.Word w =>
    if w.keyword = Keyword.OR then 5
    else if w.keyword = Keyword.AND then 10
    else if w.keyword = Keyword.NOT then
      match peek_nth_from P.tokens i 1 with
      | Token.Word w2 =>
        if w2.keyword = Keyword.IN then 20
        else if w2.keyword = Keyword.BETWEEN then 20
        else if w2.keyword = Keyword.LIKE then 20
        else 0
      | _ => 0
    else if w.keyword = Keyword.IS then 17
    else if w.keyword = Keyword.IN then 20
    else if w.keyword = Keyword.BETWEEN then 20
    else if w.keyword = Keyword.LIKE then 20
    else 0
  | Token.Eq | Token.Lt | Token.LtEq | Token.Neq | Token.Gt | Token.GtEq => 20
  | Token.Pipe => 21
  | Token.Caret => 22
  | Token.Ampersand => 23
  | Token.Plus | Token.Minus => 30
  | Token.Mult | Token.Div | Token.Mod | Token.StringConcat | Token.Negate
  | Token.LDisplacement | Token.RDisplacement => 40
  | Token.DoubleColon => 50
  | _ => 0

/-- Parser::get_next_precedence (src/parser.rs lines 967-998).  UNARY_NOT_PREC
= 15, BETWEEN_PREC = 20, PLUS_MINUS_PREC = 30 (lines 962-964). -/
def get_next_precedence (P : Parser) : PM Nat :=
  fun i => (Except.ok (get_next_precedence_val P i), i)


/-- Parser::parse_force_for_select (src/parser.rs lines 2496-2506). -/
def parse_force_for_select (P : Parser) : PM Ident := do
  if ← parse_keyword P Keyword.INDEX then do
    expect_token P Token.LParen
    let force ← parse_identifier P
    expect_token P Token.RParen
    pure force
  else
    expected "an error in your SQL syntax,force index \x7b\x7d" (← P.peek_token)

/-- Parser::parse_optional_table_alias (src/parser.rs lines 2195-2206). -/
def parse_optional_table_alias (P : Parser) (fuel : Nat) (reserved_kwds : List Keyword) :
    PM (Option TableAlias) := do
  match ← parse_optional_alias P reserved_kwds with
  | some name => do
    let columns ← parse_parenthesized_column_list P fuel IsOptional.Optional
    pure (some ⟨name, columns⟩)
  | none => pure none

/-- Parser::parse_set_operator (src/parser.rs lines 2431-2438); it only
inspects the given token. -/
def parse_set_operator (token : Token) : Option SetOperator :=
  match token with
  | Token.Word w =>
    if w.keyword = Keyword.UNION then some SetOperator.Union
    else if w.keyword = Keyword.EXCEPT then some SetOperator.Except
    else if w.keyword = Keyword.INTERSECT then some SetOperator.Intersect
    else none
  | _ => none

mutual

/-- Parser::parse_expr (src/parser.rs lines 359-361). -/
def parse_expr (P : Parser) : Nat → PM Expr
  | 0 => fuel_err
  | fuel + 1 => parse_subexpr P fuel 0

termination_by structural a0 => a0

/-- Parser::parse_subexpr (src/parser.rs lines 364-378): prefix, then the
precedence-climbing loop. -/
def parse_subexpr (P : Parser) : Nat → Nat → PM Expr
  | 0, _ => fuel_err
  | fuel + 1, precedence => do
    let e ← parse_prefix_op P fuel
    parse_subexpr_loop P fuel precedence e

termination_by structural a0 a1 => a0

/-- The loop of parse_subexpr (src/parser.rs lines 368-376): parse_infix is
invoked only while the next precedence strictly exceeds the minimum. -/
def parse_subexpr_loop (P : Parser) : Nat → Nat → Expr → PM Expr
  | 0, _, _ => fuel_err
  | fuel + 1, precedence, expr => do
    let next_precedence ← get_next_precedence P
    if precedence ≥ next_precedence then pure expr
    else do
      let e ← parse_infix_op P fuel expr next_precedence
      parse_subexpr_loop P fuel precedence e

termination_by structural a0 a1 a2 => a0

/-- Parser::parse_prefix (src/parser.rs lines 391-525), named parse_prefix_op
here. -/
def parse_prefix_op (P : Parser) : Nat → PM Expr
  | 0 => fuel_err
  | fuel + 1 => do
    match ← maybe_parse (do
        match ← parse_data_type P fuel with
        | DataType.Interval => parse_literal_interval P
        | DataType.Custom _ => parser_err_pm "dummy"
        | data_type => do
          let v ← parse_literal_string P
          pure (Expr.TypedString data_type v)) with
    | some v => pure v
    | none => do
      let expr_part ← (do
        match ← next_token P with
        | Token.Word w =>
          match w.keyword with
          | Keyword.TRUE => do
            prev_token P
            let v ← parse_value P
            pure (Expr.Value v)
          | Keyword.FALSE => do
            prev_token P
            let v ← parse_value P
            pure (Expr.Value v)
          | Keyword.NULL => do
            prev_token P
            let v ← parse_value P
            pure (Expr.Value v)
          | Keyword.CASE => parse_case_expr P fuel
          | Keyword.CAST => parse_cast_expr P fuel
          | Keyword.EXISTS => parse_exists_expr P fuel
          | Keyword.EXTRACT => parse_extract_expr P fuel
          | Keyword.INTERVAL => parse_literal_interval P
          | Keyword.LISTAGG => parse_listagg_expr P fuel
          | Keyword.NOT => do
            let e ← parse_subexpr P fuel 15
            pure (Expr.UnaryOp UnaryOperator.Not e)
          | _ =>
            match ← P.peek_token with
            | Token.LParen => parse_prefix_word_compound P fuel w
            | Token.Period => parse_prefix_word_compound P fuel w
            | _ => pure (Expr.Identifier w.to_ident)
        | Token.Mult => pure Expr.Wildcard
        | Token.Minus => do
          let e ← parse_subexpr P fuel 30
          pure (Expr.UnaryOp UnaryOperator.Minus e)
        | Token.Plus => do
          let e ← parse_subexpr P fuel 30
          pure (Expr.UnaryOp UnaryOperator.Plus e)
        | Token.Number _ => do
          prev_token P
          let v ← parse_value P
          pure (Expr.Value v)
        | Token.SingleQuotedString _ => do
          prev_token P
          let v ← parse_value P
          pure (Expr.Value v)
        | Token.NationalStringLiteral _ => do
          prev_token P
          let v ← parse_value P
          pure (Expr.Value v)
        | Token.HexStringLiteral _ => do
          prev_token P
          let v ← parse_value P
          pure (Expr.Value v)
        | Token.VariableString _ => do
          prev_token P
          let v ← parse_value P
          pure (Expr.Value v)
        | Token.Char _ => do
          prev_token P
          let v ← parse_value P
          pure (Expr.Value v)
        | Token.LParen => do
          let e ←
            (do
              if ← parse_keyword P Keyword.SELECT then do
                prev_token P
                let q ← parse_query P fuel
                pure (Expr.Subquery q)
              else if ← parse_keyword P Keyword.WITH then do
                prev_token P
                let q ← parse_query P fuel
                pure (Expr.Subquery q)
              else do
                let inner ← parse_expr P fuel
                pure (Expr.Nested inner))
          expect_token P Token.RParen
          pure e
        | Token.Negate => do
          let e ← parse_expr P fuel
          pure (Expr.BitwiseNested e)
        | unexpected => expected "an expression" unexpected)
      match P.dialect_type with
      | DBType.MySql => pure expr_part
      | _ =>
        if ← parse_keyword P Keyword.COLLATE then do
          let collation ← parse_object_name P fuel
          pure (Expr.Collate expr_part collation)
        else pure expr_part

termination_by structural a0 => a0

/-- The multi-part identifier / function-call word case of parse_prefix
(src/parser.rs lines 444-471). -/
def parse_prefix_word_compound (P : Parser) : Nat → Word → PM Expr
  | 0, _ => fuel_err
  | fuel + 1, w => do
    let (id_parts, ends_with_wildcard) ← parse_prefix_compound P fuel [w.to_ident]
    if ends_with_wildcard then pure (Expr.QualifiedWildcard id_parts)
    else if ← consume_token P Token.LParen then do
      prev_token P
      parse_function P fuel ⟨id_parts⟩
    else pure (Expr.CompoundIdentifier id_parts)

termination_by structural a0 a1 => a0

/-- The period-consuming loop of parse_prefix (src/parser.rs lines 448-460). -/
def parse_prefix_compound (P : Parser) : Nat → List Ident → PM (List Ident × Bool)
  | 0, _ => fuel_err
  | fuel + 1, id_parts => do
    if ← consume_token P Token.Period then do
      match ← next_token P with
      | Token.Word w => parse_prefix_compound P fuel (id_parts ++ [w.to_ident])
      | Token.Mult => pure (id_parts, true)
      | unexpected => expected "an identifier or a '*' after '.'" unexpected
    else pure (id_parts, false)

termination_by structural a0 a1 => a0

/-- Parser::parse_function (src/parser.rs lines 527-568). -/
def parse_function (P : Parser) : Nat → ObjectName → PM Expr
  | 0, _ => fuel_err
  | fuel + 1, name => do
    expect_token P Token.LParen
    let distinct ← parse_all_or_distinct P
    let args ← parse_optional_args P fuel
    let over ←
      (if ← parse_keyword P Keyword.OVER then do
        expect_token P Token.LParen
        let partition_by ←
          (if ← parse_keywords P [Keyword.PARTITION, Keyword.BY] then
            parse_comma_separated_exprs P fuel
          else pure [])
        let order_by ←
          (if ← parse_keywords P [Keyword.ORDER, Keyword.BY] then
            parse_comma_separated_order_by P fuel
          else pure [])
        let window_frame ←
          (if ← consume_token P Token.RParen then pure (none : Option WindowFrame)
          else do
            let wf ← parse_window_frame P
            expect_token P Token.RParen
            pure (some wf))
        pure (some (WindowSpec.mk partition_by order_by window_frame))
      else pure none)
    pure (Expr.Function (Function.mk name args over distinct))

termination_by structural a0 a1 => a0

/-- Parser::parse_optional_args (src/parser.rs lines 2948-2956). -/
def parse_optional_args (P : Parser) : Nat → PM (List Expr)
  | 0 => fuel_err
  | fuel + 1 => do
    if ← consume_token P Token.RParen then pure []
    else do
      let args ← parse_comma_separated_exprs P fuel
      expect_token P Token.RParen
      pure args

termination_by structural a0 => a0

/-- Parser::parse_case_expr (src/parser.rs lines 619-647). -/
def parse_case_expr (P : Parser) : Nat → PM Expr
  | 0 => fuel_err
  | fuel + 1 => do
    let operand ←
      (if ← parse_keyword P Keyword.WHEN then pure (none : Option Expr)
      else do
        let e ← parse_expr P fuel
        expect_keyword P Keyword.WHEN
        pure (some e))
    let (conditions, results) ← parse_case_loop P fuel [] []
    let else_result ←
      (if ← parse_keyword P Keyword.ELSE then do
        let e ← parse_expr P fuel
        pure (some e)
      else pure none)
    expect_keyword P Keyword.END
    pure (Expr.Case operand conditions results else_result)

termination_by structural a0 => a0

/-- The WHEN/THEN loop of parse_case_expr (src/parser.rs lines 627-634). -/
def parse_case_loop (P : Parser) : Nat → List Expr → List Expr → PM (List Expr × List Expr)
  | 0, _, _ => fuel_err
  | fuel + 1, conditions, results => do
    let c ← parse_expr P fuel
    expect_keyword P Keyword.THEN
    let r ← parse_expr P fuel
    if ← parse_keyword P Keyword.WHEN then
      parse_case_loop P fuel (conditions ++ [c]) (results ++ [r])
    else pure (conditions ++ [c], results ++ [r])

termination_by structural a0 a1 a2 => a0

/-- Parser::parse_cast_expr (src/parser.rs lines 650-660). -/
def parse_cast_expr (P : Parser) : Nat → PM Expr
  | 0 => fuel_err
  | fuel + 1 => do
    expect_token P Token.LParen
    let e ← parse_expr P fuel
    expect_keyword P Keyword.AS
    let data_type ← parse_data_type P fuel
    expect_token P Token.RParen
    pure (Expr.Cast e data_type)

termination_by structural a0 => a0

/-- Parser::parse_exists_expr (src/parser.rs lines 663-668). -/
def parse_exists_expr (P : Parser) : Nat → PM Expr
  | 0 => fuel_err
  | fuel + 1 => do
    expect_token P Token.LParen
    let q ← parse_query P fuel
    expect_token P Token.RParen
    pure (Expr.Exists q)

termination_by structural a0 => a0

/-- Parser::parse_extract_expr (src/parser.rs lines 670-680). -/
def parse_extract_expr (P : Parser) : Nat → PM Expr
  | 0 => fuel_err
  | fuel + 1 => do
    expect_token P Token.LParen
    let field ← parse_date_time_field P
    expect_keyword P Keyword.FROM
    let e ← parse_expr P fuel
    expect_token P Token.RParen
    pure (Expr.Extract field e)

termination_by structural a0 => a0

/-- Parser::parse_listagg_expr (src/parser.rs lines 683-741). -/
def parse_listagg_expr (P : Parser) : Nat → PM Expr
  | 0 => fuel_err
  | fuel + 1 => do
    expect_token P Token.LParen
    let distinct ← parse_all_or_distinct P
    let e ← parse_expr P fuel
    let separator ←
      (if ← consume_token P Token.Comma then do
        let s ← parse_expr P fuel
        pure (some s)
      else pure none)
    let on_overflow ←
      (if ← parse_keywords P [Keyword.ON, Keyword.OVERFLOW] then do
        if ← parse_keyword P Keyword.ERROR then pure (some ListAggOnOverflow.Error)
        else do
          expect_keyword P Keyword.TRUNCATE
          let filler ←
            (match ← P.peek_token with
            | Token.Word w =>
              if w.keyword = Keyword.WITH || w.keyword = Keyword.WITHOUT then
                pure (none : Option Expr)
              else expected "either filler, WITH, or WITHOUT in LISTAGG" (Token.Word w)
            | Token.SingleQuotedString _ => do
              let fe ← parse_expr P fuel
              pure (some fe)
            | Token.NationalStringLiteral _ => do
              let fe ← parse_expr P fuel
              pure (some fe)
            | Token.HexStringLiteral _ => do
              let fe ← parse_expr P fuel
              pure (some fe)
            | unexpected => expected "either filler, WITH, or WITHOUT in LISTAGG" unexpected)
          let with_count ← parse_keyword P Keyword.WITH
          if !with_count then do
            if ← parse_keyword P Keyword.WITHOUT then pure ()
            else expected "either WITH or WITHOUT in LISTAGG" (← P.peek_token)
          else pure ()
          expect_keyword P Keyword.COUNT
          pure (some (ListAggOnOverflow.Truncate filler with_count))
      else pure none)
    expect_token P Token.RParen
    let within_group ←
      (if ← parse_keywords P [Keyword.WITHIN, Keyword.GROUP] then do
        expect_token P Token.LParen
        expect_keywords P [Keyword.ORDER, Keyword.BY]
        let order_by_expr ← parse_comma_separated_order_by P fuel
        expect_token P Token.RParen
        pure order_by_expr
      else pure [])
    pure (Expr.ListAgg (ListAgg.mk distinct e separator on_overflow within_group))

termination_by structural a0 => a0

/-- Parser::parse_infix (src/parser.rs lines 842-916), named parse_infix_op
here.  The two `panic!("No infix parser for token ...")` branches are embedded
as the Panic outcome. -/
def parse_infix_op (P : Parser) : Nat → Expr → Nat → PM Expr
  | 0, _, _ => fuel_err
  | fuel + 1, expr, precedence => do
    let tok ← next_token P
    let regular_binary_operator ←
      (match tok with
      | Token.Eq => pure (some BinaryOperator.Eq)
      | Token.Neq => pure (some BinaryOperator.NotEq)
      | Token.Gt => pure (some BinaryOperator.Gt)
      | Token.GtEq => pure (some BinaryOperator.GtEq)
      | Token.Lt => pure (some BinaryOperator.Lt)
      | Token.LtEq => pure (some BinaryOperator.LtEq)
      | Token.Plus => pure (some BinaryOperator.Plus)
      | Token.Minus => pure (some BinaryOperator.Minus)
      | Token.Mult => pure (some BinaryOperator.Multiply)
      | Token.Mod => pure (some BinaryOperator.Modulus)
      | Token.StringConcat => pure (some BinaryOperator.StringConcat)
      | Token.Pipe => pure (some BinaryOperator.BitwiseOr)
      | Token.Caret => pure (some BinaryOperator.BitwiseXor)
      | Token.Ampersand => pure (some BinaryOperator.BitwiseAnd)
      | Token.Negate => pure (some BinaryOperator.BitwiseNegate)
      | Token.LDisplacement => pure (some BinaryOperator.BitwiseNegateLDisplacement)
      | Token.RDisplacement => pure (some BinaryOperator.BitwiseNegateRDisplacement)
      | Token.Div => pure (some BinaryOperator.Divide)
      | Token.Word w =>
        (match w.keyword with
        | Keyword.AND => pure (some BinaryOperator.And)
        | Keyword.OR => pure (some BinaryOperator.Or)
        | Keyword.LIKE => pure (some BinaryOperator.Like)
        | Keyword.NOT => do
          if ← parse_keyword P Keyword.LIKE then pure (some BinaryOperator.NotLike)
          else pure none
        | _ => pure none)
      | _ => pure none)
    match regular_binary_operator with
    | some op => do
      let right ← parse_subexpr P fuel precedence
      pure (Expr.BinaryOp expr op right)
    | none =>
      match tok with
      | Token.Word w =>
        (match w.keyword with
        | Keyword.IS => do
          if ← parse_keyword P Keyword.NULL then pure (Expr.IsNull expr)
          else if ← parse_keywords P [Keyword.NOT, Keyword.NULL] then pure (Expr.IsNotNull expr)
          else expected "NULL or NOT NULL after IS" (← P.peek_token)
        | Keyword.NOT => parse_infix_negated P fuel expr
        | Keyword.IN => parse_infix_negated P fuel expr
        | Keyword.BETWEEN => parse_infix_negated P fuel expr
        | _ => throwPE (PErr.Panic ("No infix parser for token " ++ tok.render)))
      | Token.DoubleColon => parse_pg_cast P fuel expr
      | _ => throwPE (PErr.Panic ("No infix parser for token " ++ tok.render))

termination_by structural a0 a1 a2 => a0

/-- The NOT / IN / BETWEEN arm of parse_infix (src/parser.rs lines 896-906). -/
def parse_infix_negated (P : Parser) : Nat → Expr → PM Expr
  | 0, _ => fuel_err
  | fuel + 1, expr => do
    prev_token P
    let negated ← parse_keyword P Keyword.NOT
    if ← parse_keyword P Keyword.IN then parse_in P fuel expr negated
    else if ← parse_keyword P Keyword.BETWEEN then parse_between P fuel expr negated
    else expected "IN or BETWEEN after NOT" (← P.peek_token)

termination_by structural a0 a1 => a0

/-- Parser::parse_in (src/parser.rs lines 919-937). -/
def parse_in (P : Parser) : Nat → Expr → Bool → PM Expr
  | 0, _, _ => fuel_err
  | fuel + 1, expr, negated => do
    expect_token P Token.LParen
    let in_op ←
      (do
        if ← parse_keyword P Keyword.SELECT then do
          prev_token P
          let q ← parse_query P fuel
          pure (Expr.InSubquery expr q negated)
        else if ← parse_keyword P Keyword.WITH then do
          prev_token P
          let q ← parse_query P fuel
          pure (Expr.InSubquery expr q negated)
        else do
          let lst ← parse_comma_separated_exprs P fuel
          pure (Expr.InList expr lst negated))
    expect_token P Token.RParen
    pure in_op

termination_by structural a0 a1 a2 => a0

/-- Parser::parse_between (src/parser.rs lines 940-952): both bounds are
parsed at BETWEEN_PREC. -/
def parse_between (P : Parser) : Nat → Expr → Bool → PM Expr
  | 0, _, _ => fuel_err
  | fuel + 1, expr, negated => do
    let low ← parse_subexpr P fuel 20
    expect_keyword P Keyword.AND
    let high ← parse_subexpr P fuel 20
    pure (Expr.Between expr negated low high)

termination_by structural a0 a1 a2 => a0

/-- Parser::parse_pg_cast (src/parser.rs lines 955-960). -/
def parse_pg_cast (P : Parser) : Nat → Expr → PM Expr
  | 0, _ => fuel_err
  | fuel + 1, expr => do
    let data_type ← parse_data_type P fuel
    pure (Expr.Cast expr data_type)

/-- Parser::parse_order_by_expr (src/parser.rs lines 2976-3000). -/
def parse_order_by_expr (P : Parser) : Nat → PM OrderByExpr
  | 0 => fuel_err
  | fuel + 1 => do
    let e ← parse_expr P fuel
    let asc ← do
      if ← parse_keyword P Keyword.ASC then pure (some true)
      else if ← parse_keyword P Keyword.DESC then pure (some false)
      else pure none
    let nulls_first ← do
      if ← parse_keywords P [Keyword.NULLS, Keyword.FIRST] then pure (some true)
      else if ← parse_keywords P [Keyword.NULLS, Keyword.LAST] then pure (some false)
      else pure none
    pure (OrderByExpr.mk e asc nulls_first)

termination_by structural a0 => a0

/-- Parser::parse_top (src/parser.rs lines 3004-3022). -/
def parse_top (P : Parser) : Nat → PM SqlParse.Top
  | 0 => fuel_err
  | fuel + 1 => do
    let quantity ←
      (if ← consume_token P Token.LParen then do
        let q ← parse_expr P fuel
        expect_token P Token.RParen
        pure (some q)
      else do
        let v ← parse_number_value P
        pure (some (Expr.Value v)))
    let percent ← parse_keyword P Keyword.PERCENT
    let with_ties ← parse_keywords P [Keyword.WITH, Keyword.TIES]
    pure (Top.mk with_ties percent quantity)

termination_by structural a0 => a0

/-- Parser::parse_select_item (src/parser.rs lines 2959-2973). -/
def parse_select_item (P : Parser) : Nat → PM SelectItem
  | 0 => fuel_err
  | fuel + 1 => do
    match ← parse_expr P fuel with
    | Expr.Wildcard => pure SelectItem.Wildcard
    | Expr.QualifiedWildcard prefix_parts =>
      pure (SelectItem.QualifiedWildcard ⟨prefix_parts⟩)
    | e =>
      match ← parse_optional_alias P RESERVED_FOR_COLUMN_ALIAS with
      | some a => pure (SelectItem.ExprWithAlias e a)
      | none => pure (SelectItem.UnnamedExpr e)

termination_by structural a0 => a0

/-- Parser::parse_select (src/parser.rs lines 2442-2494). -/
def parse_select (P : Parser) : Nat → PM Select
  | 0 => fuel_err
  | fuel + 1 => do
    let comment ← parse_comment_for_select P
    let distinct ← parse_all_or_distinct P
    let top ←
      (if ← parse_keyword P Keyword.TOP then do
        let t ← parse_top P fuel
        pure (some t)
      else pure none)
    let projection ← parse_comma_separated_select_items P fuel
    let from_tables ←
      (if ← parse_keyword P Keyword.FROM then
        parse_comma_separated_taj P fuel
      else pure [])
    let selection ←
      (if ← parse_keyword P Keyword.WHERE then do
        let e ← parse_expr P fuel
        pure (some e)
      else pure none)
    let group_by ←
      (if ← parse_keywords P [Keyword.GROUP, Keyword.BY] then
        parse_comma_separated_exprs P fuel
      else pure [])
    let having ←
      (if ← parse_keyword P Keyword.HAVING then do
        let e ← parse_expr P fuel
        pure (some e)
      else pure none)
    pure (Select.mk comment distinct top projection from_tables selection group_by having)

termination_by structural a0 => a0

/-- Parser::parse_table_and_joins (src/parser.rs lines 2686-2761). -/
def parse_table_and_joins (P : Parser) : Nat → PM TableWithJoins
  | 0 => fuel_err
  | fuel + 1 => do
    let relation ← parse_table_factor P fuel
    let joins ← parse_taj_loop P fuel []
    pure (TableWithJoins.mk relation joins)

termination_by structural a0 => a0

/-- The join loop of parse_table_and_joins (src/parser.rs lines 2693-2759). -/
def parse_taj_loop (P : Parser) : Nat → List Join → PM (List Join)
  | 0, _ => fuel_err
  | fuel + 1, joins => do
    if ← parse_keyword P Keyword.CROSS then do
      let join_operator ← do
        if ← parse_keyword P Keyword.JOIN then pure JoinOperator.CrossJoin
        else if ← parse_keyword P Keyword.APPLY then pure JoinOperator.CrossApply
        else expected "JOIN or APPLY after CROSS" (← P.peek_token)
      let relation ← parse_table_factor P fuel
      parse_taj_loop P fuel (joins ++ [Join.mk relation join_operator])
    else if ← parse_keyword P Keyword.OUTER then do
      expect_keyword P Keyword.APPLY
      let relation ← parse_table_factor P fuel
      parse_taj_loop P fuel (joins ++ [Join.mk relation JoinOperator.OuterApply])
    else do
      let natural ← parse_keyword P Keyword.NATURAL
      let peek_keyword ←
        (match ← P.peek_token with
        | Token.Word w => pure w.keyword
        | _ => pure Keyword.NoKeyword)
      if peek_keyword = Keyword.INNER || peek_keyword = Keyword.JOIN then do
        let _ ← parse_keyword P Keyword.INNER
        expect_keyword P Keyword.JOIN
        let relation ← parse_table_factor P fuel
        let join_constraint ← parse_join_constraint P fuel natural
        parse_taj_loop P fuel (joins ++ [Join.mk relation (JoinOperator.Inner join_constraint)])
      else if peek_keyword = Keyword.LEFT then do
        let _ ← next_token P
        let _ ← parse_keyword P Keyword.OUTER
        expect_keyword P Keyword.JOIN
        let relation ← parse_table_factor P fuel
        let join_constraint ← parse_join_constraint P fuel natural
        parse_taj_loop P fuel
          (joins ++ [Join.mk relation (JoinOperator.LeftOuter join_constraint)])
      else if peek_keyword = Keyword.RIGHT then do
        let _ ← next_token P
        let _ ← parse_keyword P Keyword.OUTER
        expect_keyword P Keyword.JOIN
        let relation ← parse_table_factor P fuel
        let join_constraint ← parse_join_constraint P fuel natural
        parse_taj_loop P fuel
          (joins ++ [Join.mk relation (JoinOperator.RightOuter join_constraint)])
      else if peek_keyword = Keyword.FULL then do
        let _ ← next_token P
        let _ ← parse_keyword P Keyword.OUTER
        expect_keyword P Keyword.JOIN
        let relation ← parse_table_factor P fuel
        let join_constraint ← parse_join_constraint P fuel natural
        parse_taj_loop P fuel
          (joins ++ [Join.mk relation (JoinOperator.FullOuter join_constraint)])
      else if peek_keyword = Keyword.OUTER then
        expected "LEFT, RIGHT, or FULL" (← P.peek_token)
      else if natural then
        expected "a join type after NATURAL" (← P.peek_token)
      else pure joins

termination_by structural a0 a1 => a0

/-- Parser::parse_table_factor (src/parser.rs lines 2764-2848). -/
def parse_table_factor (P : Parser) : Nat → PM TableFactor
  | 0 => fuel_err
  | fuel + 1 => do
    if ← parse_keyword P Keyword.LATERAL then do
      if ← consume_token P Token.LParen then pure ()
      else expected "subquery after LATERAL" (← P.peek_token)
      parse_derived_table_factor P fuel IsLateral.Lateral
    else if ← consume_token P Token.LParen then do
      match ← maybe_parse_derived_table_factor P fuel IsLateral.NotLateral with
      | some tf => pure tf
      | none => do
        let table_and_joins ← parse_table_and_joins P fuel
        expect_token P Token.RParen
        pure (TableFactor.NestedJoin table_and_joins)
    else do
      let name ← parse_object_name P fuel
      let args ←
        (if ← consume_token P Token.LParen then parse_optional_args P fuel
        else pure [])
      let force1 ←
        (if ← parse_keyword P Keyword.FORCE then do
          let fi ← parse_force_for_select P
          pure (some fi)
        else pure none)
      let alias_name ← parse_optional_table_alias P fuel RESERVED_FOR_TABLE_ALIAS
      let force2 ←
        (if ← parse_keyword P Keyword.FORCE then do
          let fi ← parse_force_for_select P
          pure (some fi)
        else pure force1)
      let with_hints ←
        (if ← parse_keyword P Keyword.WITH then do
          if ← consume_token P Token.LParen then do
            let hs ← parse_comma_separated_exprs P fuel
            expect_token P Token.RParen
            pure hs
          else do
            prev_token P
            pure []
        else pure [])
      pure (TableFactor.Table name alias_name force2 args with_hints)

termination_by structural a0 => a0

/-- Parser::parse_derived_table_factor (src/parser.rs lines 2850-2865). -/
def parse_derived_table_factor (P : Parser) : Nat → IsLateral → PM TableFactor
  | 0, _ => fuel_err
  | fuel + 1, lateral => do
    let subquery ← parse_query P fuel
    expect_token P Token.RParen
    let alias_name ← parse_optional_table_alias P fuel RESERVED_FOR_TABLE_ALIAS
    pure (TableFactor.Derived (lateral = IsLateral.Lateral) subquery alias_name)

termination_by structural a0 a1 => a0

/-- Parser::parse_join_constraint (src/parser.rs lines 2867-2879). -/
def parse_join_constraint (P : Parser) : Nat → Bool → PM JoinConstraint
  | 0, _ => fuel_err
  | fuel + 1, natural => do
    if natural then pure JoinConstraint.Natural
    else if ← parse_keyword P Keyword.ON then do
      let constraint ← parse_expr P fuel
      pure (JoinConstraint.On constraint)
    else if ← parse_keyword P Keyword.USING then do
      let columns ← parse_parenthesized_column_list P fuel IsOptional.Mandatory
      pure (JoinConstraint.Using columns)
    else expected "ON, or USING after JOIN" (← P.peek_token)

termination_by structural a0 a1 => a0

/-- Parser::parse_query (src/parser.rs lines 2292-2341). -/
def parse_query (P : Parser) : Nat → PM Query
  | 0 => fuel_err
  | fuel + 1 => do
    let ctes ←
      (if ← parse_keyword P Keyword.WITH then
        parse_comma_separated_ctes P fuel
      else pure [])
    let body ← parse_query_body P fuel 0
    let order_by ←
      (if ← parse_keywords P [Keyword.ORDER, Keyword.BY] then
        parse_comma_separated_order_by P fuel
      else pure [])
    let (limit, offset) ←
      (if ← parse_keyword P Keyword.LIMIT then parse_mysql_limit P
      else pure (none, none))
    let update ←
      (if ← parse_keyword P Keyword.FOR then do
        expect_keyword P Keyword.UPDATE
        pure true
      else pure false)
    let fetch ←
      (if ← parse_keyword P Keyword.FETCH then do
        let f ← parse_fetch P
        pure (some f)
      else pure none)
    pure (Query.mk ctes body order_by limit offset update fetch)

termination_by structural a0 => a0

/-- Parser::parse_cte (src/parser.rs lines 2344-2354). -/
def parse_cte (P : Parser) : Nat → PM Cte
  | 0 => fuel_err
  | fuel + 1 => do
    let name ← parse_identifier P
    let columns ← parse_parenthesized_column_list P fuel IsOptional.Optional
    expect_keyword P Keyword.AS
    expect_token P Token.LParen
    let query ← parse_query P fuel
    expect_token P Token.RParen
    pure (Cte.mk ⟨name, columns⟩ query)

termination_by structural a0 => a0

/-- Parser::parse_query_body (src/parser.rs lines 2364-2409). -/
def parse_query_body (P : Parser) : Nat → Nat → PM SetExpr
  | 0, _ => fuel_err
  | fuel + 1, precedence => do
    let expr ←
      (do
        if ← parse_keyword P Keyword.SELECT then do
          let s ← parse_select P fuel
          pure (SetExpr.Select s)
        else if ← consume_token P Token.LParen then do
          let subquery ← parse_query P fuel
          expect_token P Token.RParen
          pure (SetExpr.Query subquery)
        else if ← parse_keyword P Keyword.VALUES then do
          let v ← parse_values P fuel
          pure (SetExpr.Values v)
        else if ← parse_keyword P Keyword.VALUE then do
          let v ← parse_values P fuel
          pure (SetExpr.Value v)
        else
          expected "SELECT, VALUES, or a subquery in the query body" (← P.peek_token))
    parse_query_body_loop P fuel precedence expr

termination_by structural a0 a1 => a0

/-- The set-operator loop of parse_query_body (src/parser.rs lines 2385-2406). -/
def parse_query_body_loop (P : Parser) : Nat → Nat → SetExpr → PM SetExpr
  | 0, _, _ => fuel_err
  | fuel + 1, precedence, expr => do
    let t ← P.peek_token
    match parse_set_operator t with
    | none => pure expr
    | some op =>
      let next_precedence :=
        match op with
        | SetOperator.Union => 10
        | SetOperator.Except => 10
        | SetOperator.Intersect => 20
      if precedence ≥ next_precedence then pure expr
      else do
        let _ ← next_token P
        let all ← parse_keyword P Keyword.ALL
        let right ← parse_query_body P fuel next_precedence
        parse_query_body_loop P fuel precedence (SetExpr.SetOperation op all expr right)

termination_by structural a0 a1 a2 => a0

/-- Parser::parse_comma_separated (src/parser.rs lines 1174-1186) at
expression elements; specialised so the mutual block is structural in fuel. -/
def parse_comma_separated_exprs (P : Parser) : Nat → PM (List Expr)
  | 0 => fuel_err
  | fuel + 1 => do
    let v ← parse_expr P fuel
    if ← consume_token P Token.Comma then do
      let rest ← parse_comma_separated_exprs P fuel
      pure (v :: rest)
    else pure [v]

termination_by structural a0 => a0

/-- Parser::parse_comma_separated at ORDER BY elements. -/
def parse_comma_separated_order_by (P : Parser) : Nat → PM (List OrderByExpr)
  | 0 => fuel_err
  | fuel + 1 => do
    let v ← parse_order_by_expr P fuel
    if ← consume_token P Token.Comma then do
      let rest ← parse_comma_separated_order_by P fuel
      pure (v :: rest)
    else pure [v]

termination_by structural a0 => a0

/-- Parser::parse_comma_separated at projection elements. -/
def parse_comma_separated_select_items (P : Parser) : Nat → PM (List SelectItem)
  | 0 => fuel_err
  | fuel + 1 => do
    let v ← parse_select_item P fuel
    if ← consume_token P Token.Comma then do
      let rest ← parse_comma_separated_select_items P fuel
      pure (v :: rest)
    else pure [v]

termination_by structural a0 => a0

/-- Parser::parse_comma_separated at FROM-list elements. -/
def parse_comma_separated_taj (P : Parser) : Nat → PM (List TableWithJoins)
  | 0 => fuel_err
  | fuel + 1 => do
    let v ← parse_table_and_joins P fuel
    if ← consume_token P Token.Comma then do
      let rest ← parse_comma_separated_taj P fuel
      pure (v :: rest)
    else pure [v]

termination_by structural a0 => a0

/-- Parser::parse_comma_separated at common-table-expression elements. -/
def parse_comma_separated_ctes (P : Parser) : Nat → PM (List Cte)
  | 0 => fuel_err
  | fuel + 1 => do
    let v ← parse_cte P fuel
    if ← consume_token P Token.Comma then do
      let rest ← parse_comma_separated_ctes P fuel
      pure (v :: rest)
    else pure [v]

termination_by structural a0 => a0

/-- Parser::parse_comma_separated at the parenthesized rows of parse_values
(src/parser.rs lines 3091-3099). -/
def parse_comma_separated_rows (P : Parser) : Nat → PM (List (List Expr))
  | 0 => fuel_err
  | fuel + 1 => do
    expect_token P Token.LParen
    let exprs ← parse_comma_separated_exprs P fuel
    expect_token P Token.RParen
    if ← consume_token P Token.Comma then do
      let rest ← parse_comma_separated_rows P fuel
      pure (exprs :: rest)
    else pure [exprs]

termination_by structural a0 => a0

/-- Parser::maybe_parse (src/parser.rs lines 1191-1202) applied to
parse_derived_table_factor; inlined so the mutual block is structural in
fuel.  With no fuel the attempted parse fails at once, which maybe_parse
turns into None at the saved cursor. -/
def maybe_parse_derived_table_factor (P : Parser) : Nat → IsLateral → PM (Option TableFactor)
  | 0, _ => fun i => (Except.ok none, i)
  | fuel + 1, lateral => fun i =>
    match parse_derived_table_factor P fuel lateral i with
    | (Except.ok a, j) => (Except.ok (some a), j)
    | (Except.error (PErr.Panic m), j) => (Except.error (PErr.Panic m), j)
    | (Except.error _, _) => (Except.ok none, i)

termination_by structural a0 a1 => a0

/-- Parser::parse_values (src/parser.rs lines 3091-3099). -/
def parse_values (P : Parser) : Nat → PM Values
  | 0 => fuel_err
  | fuel + 1 => do
    let values ← parse_comma_separated_rows P fuel
    pure (Values.mk values)
termination_by structural a0 => a0

end


/-- Run a computation and discard its result, keeping the cursor:
the `if let Err(e) = self.expect_keyword(Keyword::INTO) {}` pattern of
parse_insert (src/parser.rs line 2897). -/
def discard_result (m : PM α) : PM Unit := fun i =>
  match m i with
  | (_, j) => (Except.ok (), j)

/-- Run a computation and reify its Result, keeping the cursor: the
`match (self.parse_value(), token)` pattern (src/parser.rs lines 202, 2607).
A panic still propagates. -/
def try_pm (m : PM α) : PM (Except PErr α) := fun i =>
  match m i with
  | (Except.ok a, j) => (Except.ok (Except.ok a), j)
  | (Except.error (PErr.Panic msg), j) => (Except.error (PErr.Panic msg), j)
  | (Except.error e, j) => (Except.ok (Except.error e), j)

/-- Parser::parse_assignment (src/parser.rs lines 2941-2946). -/
def parse_assignment (P : Parser) (fuel : Nat) : PM Assignment := do
  let id ← parse_identifier P
  expect_token P Token.Eq
  let value ← parse_expr P fuel
  pure ⟨id, value⟩

/-- Parser::parse_on_duplicate_key_update (src/parser.rs lines 2411-2429):
the phrase is matched word by word. -/
def parse_on_duplicate_key_update (P : Parser) : PM Bool := do
  if ← parse_keyword P Keyword.ON then
    if ← parse_keyword P Keyword.DUPLICATE then
      if ← parse_keyword P Keyword.KEY then
        if ← parse_keyword P Keyword.UPDATE then pure true
        else expected "on duplicate key update error" (← P.peek_token)
      else expected "on duplicate key update error" (← P.peek_token)
    else expected "on duplicate key update error" (← P.peek_token)
  else pure false

/-- Parser::parse_insert (src/parser.rs lines 2882-2914).  The error from
expect_keyword(INTO) is silently discarded, so INTO is optional. -/
def parse_insert (P : Parser) (fuel : Nat) : PM Statement := do
  let priority ← do
    if ← parse_keyword P Keyword.LOW_PRIORITY then pure (some Priority.LOW_PRIORITY)
    else if ← parse_keyword P Keyword.HIGH_PRIORITY then pure (some Priority.HIGH_PRIORITY)
    else if ← parse_keyword P Keyword.DELAYED then pure (some Priority.DELAYED)
    else pure none
  let ignore ← parse_keyword P Keyword.IGNORE
  discard_result (expect_keyword P Keyword.INTO)
  let table_name ← parse_object_name P fuel
  let columns ← parse_parenthesized_column_list P fuel IsOptional.Optional
  let source ← parse_query P fuel
  let update ←
    (if ← parse_on_duplicate_key_update P then do
      let assignments ← parse_comma_separated P (parse_assignment P fuel) fuel
      pure (some assignments)
    else pure none)
  pure (Statement.Insert priority ignore table_name columns source update)

/-- Parser::parse_update (src/parser.rs lines 2916-2938). -/
def parse_update (P : Parser) (fuel : Nat) : PM Statement := do
  let table_name ← parse_object_name P fuel
  expect_keyword P Keyword.SET
  let assignments ← parse_comma_separated P (parse_assignment P fuel) fuel
  let selection ←
    (if ← parse_keyword P Keyword.WHERE then do
      let e ← parse_expr P fuel
      pure (some e)
    else pure none)
  let (limit, _) ←
    (if ← parse_keyword P Keyword.LIMIT then parse_mysql_limit P
    else pure (none, none))
  pure (Statement.Update table_name assignments selection limit)

/-- Parser::parse_delete (src/parser.rs lines 2273-2286). -/
def parse_delete (P : Parser) (fuel : Nat) : PM Statement := do
  expect_keyword P Keyword.FROM
  let table_name ← parse_object_name P fuel
  let selection ←
    (if ← parse_keyword P Keyword.WHERE then do
      let e ← parse_expr P fuel
      pure (some e)
    else pure none)
  pure (Statement.Delete table_name selection)

/-- Parser::parse_drop (src/parser.rs lines 1327-1363). -/
def parse_drop (P : Parser) (fuel : Nat) : PM Statement := do
  let object_type ← do
    if ← parse_keyword P Keyword.TABLE then pure ObjectType.Table
    else if ← parse_keyword P Keyword.VIEW then pure ObjectType.View
    else if ← parse_keyword P Keyword.INDEX then pure ObjectType.Index
    else if ← parse_keyword P Keyword.SCHEMA then pure ObjectType.Schema
    else if ← parse_keyword P Keyword.DATABASE then pure ObjectType.Schema
    else expected "TABLE, VIEW, INDEX or SCHEMA after DROP" (← P.peek_token)
  let if_exists ← parse_keywords P [Keyword.IF, Keyword.EXISTS]
  let names ← parse_comma_separated P (parse_object_name P fuel) fuel
  let on_info ←
    (match object_type with
    | ObjectType.Index =>
      (do
        if ← parse_keyword P Keyword.ON then parse_object_name P fuel
        else pure ⟨[]⟩)
    | _ => pure ⟨[]⟩)
  let cascade ← parse_keyword P Keyword.CASCADE
  let restrict ← parse_keyword P Keyword.RESTRICT
  if cascade && restrict then
    parser_err_pm "Cannot specify both CASCADE and RESTRICT in DROP"
  else
    pure (Statement.Drop object_type if_exists names on_info cascade)

/-- Parser::parse_explain_analyze (src/parser.rs lines 212-219). -/
def parse_explain_analyze (P : Parser) : PM (Option Bool) := do
  if ← parse_keyword P Keyword.ANALYZE then pure (some true)
  else pure none

/-- Parser::parse_explain_format (src/parser.rs lines 221-242). -/
def parse_explain_format (P : Parser) : PM (Option ExplainFormat) := do
  if ← parse_keyword P Keyword.FORMAT then
    if ← consume_token P Token.Eq then
      if ← parse_keyword P Keyword.JSON then pure (some ExplainFormat.JSON)
      else if ← parse_keyword P Keyword.TRADITIONAL then pure (some ExplainFormat.TRADITIONAL)
      else if ← parse_keyword P Keyword.TREE then pure (some ExplainFormat.TREE)
      else expected "EXPLAIN FORMAT =" (← P.peek_token)
    else expected "EXPLAIN FORMAT =" (← P.peek_token)
  else pure none

/-- Parser::parse_explain_for_connection (src/parser.rs lines 199-210). -/
def parse_explain_for_connection (P : Parser) : PM ExplainStmt := do
  if ← parse_keyword P Keyword.CONNECTION then do
    let token ← P.peek_token
    match ← try_pm (parse_value P) with
    | Except.ok value => pure (ExplainStmt.Connection value)
    | Except.error _ => expected "connection value" token
  else expected "EXPLAIN FOR  " (← P.peek_token)

/-- Parser::parse_explain (src/parser.rs lines 180-197). -/
def parse_explain (P : Parser) (fuel : Nat) : PM Statement := do
  let analyze ← parse_explain_analyze P
  let format_type ← parse_explain_format P
  let body ←
    (match ← next_token P with
    | Token.Word w =>
      (match w.keyword with
      | Keyword.SELECT => do
        prev_token P
        let q ← parse_query P fuel
        pure (ExplainStmt.Stmt (Statement.Query q))
      | Keyword.WITH => do
        prev_token P
        let q ← parse_query P fuel
        pure (ExplainStmt.Stmt (Statement.Query q))
      | Keyword.VALUE => do
        prev_token P
        let q ← parse_query P fuel
        pure (ExplainStmt.Stmt (Statement.Query q))
      | Keyword.UPDATE => do
        let s ← parse_update P fuel
        pure (ExplainStmt.Stmt s)
      | Keyword.DELETE => do
        let s ← parse_delete P fuel
        pure (ExplainStmt.Stmt s)
      | Keyword.FOR => parse_explain_for_connection P
      | _ => expected "Explain explainable_stmt " (Token.Word w))
    | unexpected => expected "Explain explainable_stmt " unexpected)
  pure (Statement.Explain analyze format_type body)

/-- Parser::parse_desc (src/parser.rs lines 244-247). -/
def parse_desc (P : Parser) (fuel : Nat) : PM Statement := do
  let table_name ← parse_object_name P fuel
  pure (Statement.Desc table_name)

/-- Parser::parse_use (src/parser.rs lines 249-258). -/
def parse_use (P : Parser) : PM Statement := do
  let database_name ← parse_identifier P
  if ← consume_token P Token.EOF then
    pure (Statement.ChangeDatabase (displayIdent database_name))
  else expected "Use Wrong syntax" (← P.peek_token)

/-- The loop of parse_call_parameter (src/parser.rs lines 274-291). -/
def parse_call_parameter_loop (P : Parser) : Nat → Bool → List Expr → PM (List Expr)
  | 0, _, _ => fuel_err
  | fuel + 1, r_paren, ident_list => do
    if ← consume_token P Token.RParen then
      parse_call_parameter_loop P fuel true ident_list
    else if r_paren then do
      if ← consume_token P Token.EOF then pure ident_list
      else expected "Call Wrong syntax" (← P.peek_token)
    else do
      let ident_list ← parse_comma_separated P (parse_expr P fuel) fuel
      parse_call_parameter_loop P fuel r_paren ident_list

/-- Parser::parse_call_parameter (src/parser.rs lines 270-299). -/
def parse_call_parameter (P : Parser) (fuel : Nat) : PM (List Expr) := do
  if ← consume_token P Token.LParen then
    parse_call_parameter_loop P fuel false []
  else expected "Call Wrong syntax" (← P.peek_token)

/-- Parser::parse_call (src/parser.rs lines 260-268). -/
def parse_call (P : Parser) (fuel : Nat) : PM Statement := do
  let fun_name ← parse_identifier P
  if ← consume_token P Token.EOF then
    pure (Statement.Call fun_name none)
  else do
    let params ← parse_call_parameter P fuel
    pure (Statement.Call fun_name (some params))

/-- Parser::parse_unlock (src/parser.rs lines 301-310). -/
def parse_unlock (P : Parser) : PM Statement := do
  if ← parse_keyword P Keyword.TABLES then
    if ← consume_token P Token.EOF then pure (Statement.UNLock true)
    else expected "UNLOCK Wrong syntax" (← P.peek_token)
  else expected "UNLOCK Wrong syntax" (← P.peek_token)

/-- Parser::parse_lock_tables_relation (src/parser.rs lines 334-338). -/
def parse_lock_tables_relation (P : Parser) (fuel : Nat) : PM LockInfo := do
  let name ← parse_object_name P fuel
  let lock_type ← parse_lock_type P
  pure ⟨name, lock_type⟩

/-- The comma loop of parse_lock_tables_info (src/parser.rs lines 319-324). -/
def parse_lock_tables_loop (P : Parser) : Nat → Nat → List LockInfo → PM (List LockInfo)
  | 0, _, _ => fuel_err
  | loop_fuel + 1, fuel, lock_list => do
    let r ← parse_lock_tables_relation P fuel
    if ← consume_token P Token.Comma then
      parse_lock_tables_loop P loop_fuel fuel (lock_list ++ [r])
    else pure (lock_list ++ [r])

/-- Parser::parse_lock_tables_info (src/parser.rs lines 316-332). -/
def parse_lock_tables_info (P : Parser) (fuel : Nat) : PM (List LockInfo) := do
  if ← parse_keyword P Keyword.TABLES then
    parse_lock_tables_loop P fuel fuel []
  else expected "LOCK Wrong syntax" (← P.peek_token)

/-- Parser::parse_lock (src/parser.rs lines 312-314). -/
def parse_lock (P : Parser) (fuel : Nat) : PM Statement := do
  let lock_tables ← parse_lock_tables_info P fuel
  pure (Statement.Lock lock_tables)

/-- Parser::parse_assert (src/parser.rs lines 379-388). -/
def parse_assert (P : Parser) (fuel : Nat) : PM Statement := do
  let condition ← parse_expr P fuel
  let message ←
    (if ← parse_keyword P Keyword.AS then do
      let e ← parse_expr P fuel
      pure (some e)
    else pure none)
  pure (Statement.Assert condition message)

/-- Parser::parse_reload (src/parser.rs lines 2520-2565). -/
def parse_reload (P : Parser) (fuel : Nat) : PM Statement := do
  match ← next_token P with
  | Token.Word w =>
    (match w.keyword with
    | Keyword.CONFIG => do
      prev_token P
      let variable_name ← parse_identifier P
      if ← consume_token P Token.EOF then
        pure (Statement.ReLoad variable_name none)
      else
        expected "reload config does not support parameters" (← P.peek_token)
    | Keyword.USER => do
      prev_token P
      let variable_name ← parse_identifier P
      if !(← consume_token P Token.EOF) then do
        let selection ←
          (if ← parse_keyword P Keyword.WHERE then do
            let e ← parse_expr P fuel
            pure (some e)
          else pure none)
        pure (Statement.ReLoad variable_name selection)
      else
        pure (Statement.ReLoad variable_name none)
    | _ => do
      prev_token P
      expected "reload only support config and user privileges" (← P.peek_token))
  | _ => do
    prev_token P
    expected "reload only support config and user privileges" (← P.peek_token)

/-- Parser::parse_set_variables_value (src/parser.rs lines 2605-2613). -/
def parse_set_variables_value (P : Parser) : PM SetVariableValue := do
  let token ← P.peek_token
  match ← try_pm (parse_value P) with
  | Except.ok value => pure (SetVariableValue.Literal value)
  | Except.error _ =>
    match token with
    | Token.Word ident => pure (SetVariableValue.Ident ident.to_ident)
    | unexpected => expected "variable value" unexpected

/-- The mode loop of parse_transaction_modes (src/parser.rs lines 3119-3148). -/
def parse_transaction_modes_loop (P : Parser) :
    Nat → Bool → List TransactionMode → PM (List TransactionMode)
  | 0, _, _ => fuel_err
  | fuel + 1, required, modes => do
    let mode_opt ← do
      if ← parse_keywords P [Keyword.ISOLATION, Keyword.LEVEL] then do
        let iso_level ← do
          if ← parse_keywords P [Keyword.READ, Keyword.UNCOMMITTED] then
            pure TransactionIsolationLevel.ReadUncommitted
          else if ← parse_keywords P [Keyword.READ, Keyword.COMMITTED] then
            pure TransactionIsolationLevel.ReadCommitted
          else if ← parse_keywords P [Keyword.REPEATABLE, Keyword.READ] then
            pure TransactionIsolationLevel.RepeatableRead
          else if ← parse_keyword P Keyword.SERIALIZABLE then
            pure TransactionIsolationLevel.Serializable
          else expected "isolation level" (← P.peek_token)
        pure (some (TransactionMode.IsolationLevel iso_level))
      else if ← parse_keywords P [Keyword.READ, Keyword.ONLY] then
        pure (some (TransactionMode.AccessMode TransactionAccessMode.ReadOnly))
      else if ← parse_keywords P [Keyword.READ, Keyword.WRITE] then
        pure (some (TransactionMode.AccessMode TransactionAccessMode.ReadWrite))
      else if required then expected "transaction mode" (← P.peek_token)
      else pure none
    match mode_opt with
    | none => pure modes
    | some mode => do
      let required ← consume_token P Token.Comma
      parse_transaction_modes_loop P fuel required (modes ++ [mode])

/-- Parser::parse_transaction_modes (src/parser.rs lines 3116-3150). -/
def parse_transaction_modes (P : Parser) (fuel : Nat) : PM (List TransactionMode) :=
  parse_transaction_modes_loop P fuel false []

/-- Parser::parse_start_transaction (src/parser.rs lines 3102-3107). -/
def parse_start_transaction (P : Parser) (fuel : Nat) : PM Statement := do
  expect_keyword P Keyword.TRANSACTION
  let modes ← parse_transaction_modes P fuel
  pure (Statement.StartTransaction modes)

/-- Parser::parse_begin (src/parser.rs lines 3109-3114). -/
def parse_begin (P : Parser) (fuel : Nat) : PM Statement := do
  let _ ← parse_one_of_keywords P [Keyword.TRANSACTION, Keyword.WORK]
  let modes ← parse_transaction_modes P fuel
  pure (Statement.StartTransaction modes)

/-- Parser::parse_commit_rollback_chain (src/parser.rs lines 3164-3173). -/
def parse_commit_rollback_chain (P : Parser) : PM Bool := do
  let _ ← parse_one_of_keywords P [Keyword.TRANSACTION, Keyword.WORK]
  if ← parse_keyword P Keyword.AND then do
    let chain ← parse_keyword P Keyword.NO
    expect_keyword P Keyword.CHAIN
    pure (!chain)
  else pure false

/-- Parser::parse_commit (src/parser.rs lines 3152-3156). -/
def parse_commit (P : Parser) : PM Statement := do
  let chain ← parse_commit_rollback_chain P
  pure (Statement.Commit chain)

/-- Parser::parse_rollback (src/parser.rs lines 3158-3162). -/
def parse_rollback (P : Parser) : PM Statement := do
  let chain ← parse_commit_rollback_chain P
  pure (Statement.Rollback chain)

/-- Parser::parse_set (src/parser.rs lines 2567-2603). -/
def parse_set (P : Parser) (fuel : Nat) : PM Statement := do
  let modifier ← parse_one_of_keywords P [Keyword.SESSION, Keyword.LOCAL]
  let variable_name ← parse_identifier P
  let eq_or_to ←
    (do
      if ← consume_token P Token.Eq then pure true
      else parse_keyword P Keyword.TO)
  if eq_or_to then do
    let value ← parse_set_variables_value P
    if !(← consume_token P Token.EOF) then do
      let selection ←
        (if ← parse_keyword P Keyword.WHERE then do
          let e ← parse_expr P fuel
          pure (some e)
        else pure none)
      pure (Statement.AdminSetVariable variable_name value selection)
    else
      pure (Statement.SetVariable (modifier = some Keyword.LOCAL) variable_name value)
  else if variable_name.value = "TRANSACTION" && modifier.isNone then do
    let modes ← parse_transaction_modes P fuel
    pure (Statement.SetTransaction modes)
  else if str_lower variable_name.value = "names" && modifier.isNone then do
    let value ← parse_set_variables_value P
    pure (Statement.SetVariable (modifier = some Keyword.LOCAL) variable_name value)
  else expected "equals sign or TO" (← P.peek_token)

/-- Parser::parse_show_statement_filter (src/parser.rs lines 2674-2684). -/
def parse_show_statement_filter (P : Parser) (fuel : Nat) :
    PM (Option ShowStatementFilter) := do
  if ← parse_keyword P Keyword.LIKE then do
    let s ← parse_literal_string P
    pure (some (ShowStatementFilter.Like s))
  else if ← parse_keyword P Keyword.WHERE then do
    let e ← parse_expr P fuel
    pure (some (ShowStatementFilter.Where e))
  else pure none

/-- Parser::parse_show_columns (src/parser.rs lines 2656-2672). -/
def parse_show_columns (P : Parser) (fuel : Nat) : PM Statement := do
  let extended ← parse_keyword P Keyword.EXTENDED
  let full ← parse_keyword P Keyword.FULL
  let _ ← expect_one_of_keywords P [Keyword.COLUMNS, Keyword.FIELDS]
  let _ ← expect_one_of_keywords P [Keyword.FROM, Keyword.IN]
  let table_name ← parse_object_name P fuel
  let filter ← parse_show_statement_filter P fuel
  pure (Statement.ShowColumns extended full table_name filter)

/-- Parser::parse_show (src/parser.rs lines 2615-2654). -/
def parse_show (P : Parser) (fuel : Nat) : PM Statement := do
  if (← parse_one_of_keywords P
      [Keyword.EXTENDED, Keyword.FULL, Keyword.COLUMNS, Keyword.FIELDS]).isSome then do
    prev_token P
    parse_show_columns P fuel
  else if ← parse_keyword P Keyword.CREATE then do
    if ← parse_keyword P Keyword.TABLE then do
      let table_name ← parse_object_name P fuel
      pure (Statement.ShowCreate table_name)
    else do
      prev_token P
      expected "equals sign or TO" (← P.peek_token)
  else do
    let global ← parse_keyword P Keyword.GLOBAL
    let variable_name ← parse_identifier P
    let selection ←
      (if ← parse_keyword P Keyword.WHERE then do
        let e ← parse_expr P fuel
        pure (some e)
      else pure none)
    pure (Statement.ShowVariable variable_name global selection)

/-- The token loop of parse_tab_value (src/parser.rs lines 1986-2010). -/
def parse_tab_value_loop (P : Parser) :
    Nat → List (Option String) → String → PM (List (Option String))
  | 0, _, _ => fuel_err
  | fuel + 1, values, content => do
    match ← next_token_no_skip P with
    | none => pure values
    | some t =>
      match t with
      | Token.Whitespace Whitespace.Tab =>
        parse_tab_value_loop P fuel (values ++ [some content]) ""
      | Token.Whitespace Whitespace.Newline =>
        parse_tab_value_loop P fuel (values ++ [some content]) ""
      | Token.Backslash => do
        if ← consume_token P Token.Period then pure values
        else
          match ← next_token P with
          | Token.Word w =>
            if w.value = "N" then parse_tab_value_loop P fuel (values ++ [none]) content
            else parse_tab_value_loop P fuel values content
          | _ => parse_tab_value_loop P fuel values content
      | _ => parse_tab_value_loop P fuel values (content ++ t.render)

/-- Parser::parse_tsv / parse_tab_value (src/parser.rs lines 1978-2012). -/
def parse_tsv (P : Parser) (fuel : Nat) : PM (List (Option String)) :=
  parse_tab_value_loop P fuel [] ""

/-- Parser::parse_copy (src/parser.rs lines 1963-1974). -/
def parse_copy (P : Parser) (fuel : Nat) : PM Statement := do
  let table_name ← parse_object_name P fuel
  let columns ← parse_parenthesized_column_list P fuel IsOptional.Optional
  expect_keywords P [Keyword.FROM, Keyword.STDIN]
  expect_token P Token.SemiColon
  let values ← parse_tsv P fuel
  pure (Statement.Copy table_name columns values)


/-- Parser::parse_referential_action (src/parser.rs lines 1634-1651). -/
def parse_referential_action (P : Parser) : PM ReferentialAction := do
  if ← parse_keyword P Keyword.RESTRICT then pure ReferentialAction.Restrict
  else if ← parse_keyword P Keyword.CASCADE then pure ReferentialAction.Cascade
  else if ← parse_keywords P [Keyword.SET, Keyword.NULL] then pure ReferentialAction.SetNull
  else if ← parse_keywords P [Keyword.NO, Keyword.ACTION] then pure ReferentialAction.NoAction
  else if ← parse_keywords P [Keyword.SET, Keyword.DEFAULT] then pure ReferentialAction.SetDefault
  else expected "one of RESTRICT, CASCADE, SET NULL, NO ACTION or SET DEFAULT" (← P.peek_token)

/-- The ON DELETE / ON UPDATE loop of the REFERENCES column option
(src/parser.rs lines 1605-1615). -/
def parse_references_actions_loop (P : Parser) :
    Nat → Option ReferentialAction → Option ReferentialAction →
    PM (Option ReferentialAction × Option ReferentialAction)
  | 0, _, _ => fuel_err
  | fuel + 1, on_delete, on_update => do
    let del_hit ←
      (if on_delete.isNone then parse_keywords P [Keyword.ON, Keyword.DELETE]
       else pure false)
    if del_hit then do
      let a ← parse_referential_action P
      parse_references_actions_loop P fuel (some a) on_update
    else do
      let upd_hit ←
        (if on_update.isNone then parse_keywords P [Keyword.ON, Keyword.UPDATE]
         else pure false)
      if upd_hit then do
        let a ← parse_referential_action P
        parse_references_actions_loop P fuel on_delete (some a)
      else pure (on_delete, on_update)

/-- Parser::parse_column_option_def (src/parser.rs lines 1565-1632). -/
def parse_column_option_def (P : Parser) (fuel : Nat) : PM ColumnOptionDef := do
  let name ←
    (if ← parse_keyword P Keyword.CONSTRAINT then do
      let n ← parse_identifier P
      pure (some n)
    else pure none)
  let option ← do
    if ← parse_keywords P [Keyword.NOT, Keyword.NULL] then pure ColumnOption.NotNull
    else if ← parse_keyword P Keyword.AUTO_INCREMENT then pure ColumnOption.AutoIncrement
    else if ← parse_keyword P Keyword.NULL then pure ColumnOption.Null
    else if ← parse_keyword P Keyword.UNSIGNED then pure ColumnOption.Unsigned
    else if ← parse_keyword P Keyword.COMMENT then do
      let e ← parse_expr P fuel
      pure (ColumnOption.Comment e)
    else if ← parse_keyword P Keyword.AFTER then do
      let e ← parse_expr P fuel
      pure (ColumnOption.After e)
    else if ← parse_keyword P Keyword.CHARACTER then do
      if ← parse_keyword P Keyword.SET then do
        let e ← parse_expr P fuel
        pure (ColumnOption.Character e)
      else expected "column character set " (← P.peek_token)
    else if ← parse_keyword P Keyword.COLLATE then do
      let e ← parse_expr P fuel
      pure (ColumnOption.Collate e)
    else if ← parse_keyword P Keyword.DEFAULT then do
      let e ← parse_expr P fuel
      pure (ColumnOption.Default e)
    else if ← parse_keywords P [Keyword.PRIMARY, Keyword.KEY] then
      pure (ColumnOption.Unique true)
    else if ← parse_keyword P Keyword.UNIQUE then
      pure (ColumnOption.Unique false)
    else if ← parse_keyword P Keyword.REFERENCES then do
      let foreign_table ← parse_object_name P fuel
      let referred_columns ← parse_parenthesized_column_list P fuel IsOptional.Optional
      let (on_delete, on_update) ← parse_references_actions_loop P fuel none none
      pure (ColumnOption.ForeignKey foreign_table referred_columns on_delete on_update)
    else if ← parse_keyword P Keyword.CHECK then do
      expect_token P Token.LParen
      let e ← parse_expr P fuel
      expect_token P Token.RParen
      pure (ColumnOption.Check e)
    else expected "column option" (← P.peek_token)
  pure ⟨name, option⟩

/-- The option loop of parse_column_def (src/parser.rs lines 1429-1434). -/
def parse_column_def_options_loop (P : Parser) :
    Nat → List ColumnOptionDef → PM (List ColumnOptionDef)
  | 0, _ => fuel_err
  | fuel + 1, options => do
    match ← P.peek_token with
    | Token.EOF => pure options
    | Token.Comma => pure options
    | Token.RParen => pure options
    | Token.SemiColon => pure options
    | _ => do
      let o ← parse_column_option_def P fuel
      parse_column_def_options_loop P fuel (options ++ [o])

/-- Parser::parse_column_def (src/parser.rs lines 1415-1441). -/
def parse_column_def (P : Parser) (fuel : Nat) : PM ColumnDef := do
  let name ← parse_identifier P
  let data_type ← parse_data_type P fuel
  let collation ←
    (if ← parse_keyword P Keyword.COLLATE then do
      let o ← parse_object_name P fuel
      pure (some o)
    else pure none)
  let options ← parse_column_def_options_loop P fuel []
  pure ⟨name, data_type, collation, options⟩

/-- Parser::parse_alter_index_constraint (src/parser.rs lines 1783-1789). -/
def parse_alter_index_constraint (P : Parser) : PM (Option Ident) := do
  if ← parse_keyword P Keyword.CONSTRAINT then do
    let n ← parse_identifier P
    pure (some n)
  else pure none

/-- Parser::parse_alter_index_storge_type (src/parser.rs lines 1791-1799). -/
def parse_alter_index_storge_type (P : Parser) : PM (Option MysqlIndexStorageType) := do
  if ← parse_keyword P Keyword.FULLTEXT then pure (some MysqlIndexStorageType.FullText)
  else if ← parse_keyword P Keyword.SPATIAL then pure (some MysqlIndexStorageType.Spatial)
  else pure none

/-- Parser::parse_alter_index_def_options (src/parser.rs lines 1753-1781). -/
def parse_alter_index_def_options (P : Parser) (fuel : Nat) : PM (Option IndexOptions) := do
  if ← consume_token P Token.Comma then do
    prev_token P
    pure none
  else if ← consume_token P Token.RParen then do
    prev_token P
    pure none
  else if ← consume_token P Token.EOF then pure none
  else if ← consume_token P Token.SemiColon then pure none
  else if ← parse_keyword P Keyword.KEY_BLOCK_SIZE then do
    let e ← parse_expr P fuel
    pure (some (IndexOptions.KeyBlockSize e))
  else if ← parse_keyword P Keyword.WITH then do
    expect_keyword P Keyword.PARSER
    let i ← parse_identifier P
    pure (some (IndexOptions.WithParser i))
  else if ← parse_keyword P Keyword.USING then do
    let i ← parse_identifier P
    pure (some (IndexOptions.IndexType i))
  else if ← parse_keyword P Keyword.COMMENT then do
    let e ← parse_expr P fuel
    pure (some (IndexOptions.Comment e))
  else if ← parse_keyword P Keyword.REFERENCES then do
    let table ← parse_identifier P
    let column ← parse_parenthesized_column_list P fuel IsOptional.Mandatory
    pure (some (IndexOptions.References table column))
  else expected "alter table for index options " (← P.peek_token)

/-- Parser::parse_alter_index_def_primary (src/parser.rs lines 1695-1711). -/
def parse_alter_index_def_primary (P : Parser) (fuel : Nat) (drop : Bool) : PM MysqlIndex := do
  if drop then pure ⟨none, none, none, none, none⟩
  else do
    let index_type ←
      (if ← parse_keyword P Keyword.USING then do
        let i ← parse_identifier P
        pure (some i)
      else pure none)
    let key_parts ← parse_parenthesized_column_list P fuel IsOptional.Mandatory
    let index_option ← parse_alter_index_def_options P fuel
    pure ⟨none, none, index_type, some key_parts, index_option⟩

/-- Parser::parse_alter_index_def_normal (src/parser.rs lines 1713-1751). -/
def parse_alter_index_def_normal (P : Parser) (fuel : Nat)
    (unique foreign drop : Bool) : PM MysqlIndex := do
  let name ←
    if foreign then do
      expect_keyword P Keyword.KEY
      pure (none : Option Ident)
    else do
      if !unique then prev_token P
      else pure ()
      let n ← parse_identifier P
      pure (some n)
  let index_name ←
    (do
      if !(← consume_token P Token.LParen) then do
        let n ← parse_identifier P
        pure (some n)
      else do
        prev_token P
        pure none)
  if drop then pure ⟨name, index_name, none, none, none⟩
  else do
    let index_type ←
      if unique then do
        if !(← consume_token P Token.LParen) then do
          let n ← parse_identifier P
          pure (some n)
        else do
          prev_token P
          pure (none : Option Ident)
      else pure none
    let key_parts ← parse_parenthesized_column_list P fuel IsOptional.Mandatory
    let index_option ← parse_alter_index_def_options P fuel
    pure ⟨name, index_name, index_type, some key_parts, index_option⟩

/-- Parser::parse_alter_index_def (src/parser.rs lines 1676-1692). -/
def parse_alter_index_def (P : Parser) (fuel : Nat) : PM IndexDef := do
  if ← parse_keyword P Keyword.INDEX then do
    let m ← parse_alter_index_def_normal P fuel false false false
    pure (IndexDef.Normal m)
  else if ← parse_keyword P Keyword.KEY then do
    let m ← parse_alter_index_def_normal P fuel false false false
    pure (IndexDef.Normal m)
  else if ← parse_keyword P Keyword.PRIMARY then do
    expect_keyword P Keyword.KEY
    let m ← parse_alter_index_def_primary P fuel false
    pure (IndexDef.PrimaryKey m)
  else if ← parse_keyword P Keyword.UNIQUE then do
    let m ← parse_alter_index_def_normal P fuel true false false
    pure (IndexDef.Unique m)
  else if ← parse_keyword P Keyword.FOREIGN then do
    let m ← parse_alter_index_def_normal P fuel false true false
    pure (IndexDef.ForeignKey m)
  else expected "alter table index def " (← P.peek_token)

/-- Parser::parse_alter_drop_index (src/parser.rs lines 1653-1667). -/
def parse_alter_drop_index (P : Parser) (fuel : Nat) : PM IndexDef := do
  if ← parse_keyword P Keyword.INDEX then do
    let m ← parse_alter_index_def_normal P fuel false false true
    pure (IndexDef.Normal m)
  else if ← parse_keyword P Keyword.KEY then do
    let m ← parse_alter_index_def_normal P fuel false false true
    pure (IndexDef.Normal m)
  else if ← parse_keyword P Keyword.PRIMARY then do
    expect_keyword P Keyword.KEY
    let m ← parse_alter_index_def_primary P fuel true
    pure (IndexDef.PrimaryKey m)
  else if ← parse_keyword P Keyword.FOREIGN then do
    let m ← parse_alter_index_def_normal P fuel false true true
    pure (IndexDef.ForeignKey m)
  else expected "alter table index def " (← P.peek_token)

/-- Parser::parse_alter_add_index (src/parser.rs lines 1669-1674). -/
def parse_alter_add_index (P : Parser) (fuel : Nat) : PM AlterTableOperation := do
  let constraint ← parse_alter_index_constraint P
  let index_type ← parse_alter_index_storge_type P
  let index ← parse_alter_index_def P fuel
  pure (AlterTableOperation.AddIndex ⟨constraint, index_type, index⟩)

/-- Parser::parse_create_table_for_index (src/parser.rs lines 1493-1509). -/
def parse_create_table_for_index (P : Parser) (fuel : Nat) : PM (Option IndexInfo) := do
  match ← parse_one_of_keywords P
      [Keyword.KEY, Keyword.INDEX, Keyword.PRIMARY, Keyword.UNIQUE, Keyword.FOREIGN,
       Keyword.FULLTEXT, Keyword.CONSTRAINT] with
  | some _ => do
    prev_token P
    let constraint ← parse_alter_index_constraint P
    let index_type ← parse_alter_index_storge_type P
    let index ← parse_alter_index_def P fuel
    pure (some ⟨constraint, index_type, index⟩)
  | none => pure none

/-- Parser::parse_optional_table_constraint (src/parser.rs lines 1801-1850). -/
def parse_optional_table_constraint (P : Parser) (fuel : Nat) :
    PM (Option TableConstraint) := do
  let name ←
    (if ← parse_keyword P Keyword.CONSTRAINT then do
      let n ← parse_identifier P
      pure (some n)
    else pure none)
  match ← next_token P with
  | Token.Word w =>
    if w.keyword = Keyword.PRIMARY || w.keyword = Keyword.UNIQUE then do
      let is_primary := w.keyword = Keyword.PRIMARY
      if is_primary then expect_keyword P Keyword.KEY
      else pure ()
      let columns ← parse_parenthesized_column_list P fuel IsOptional.Mandatory
      pure (some (TableConstraint.Unique name columns is_primary))
    else if w.keyword = Keyword.FOREIGN then do
      expect_keyword P Keyword.KEY
      let columns ← parse_parenthesized_column_list P fuel IsOptional.Mandatory
      expect_keyword P Keyword.REFERENCES
      let foreign_table ← parse_object_name P fuel
      let referred_columns ← parse_parenthesized_column_list P fuel IsOptional.Mandatory
      pure (some (TableConstraint.ForeignKey name columns foreign_table referred_columns))
    else if w.keyword = Keyword.CHECK then do
      expect_token P Token.LParen
      let e ← parse_expr P fuel
      expect_token P Token.RParen
      pure (some (TableConstraint.Check name e))
    else
      if name.isSome then expected "PRIMARY, UNIQUE, FOREIGN, or CHECK" (Token.Word w)
      else do
        prev_token P
        pure none
  | unexpected =>
    if name.isSome then expected "PRIMARY, UNIQUE, FOREIGN, or CHECK" unexpected
    else do
      prev_token P
      pure none

/-- The column/constraint loop of parse_columns (src/parser.rs lines
1451-1488). -/
def parse_columns_loop (P : Parser) :
    Nat → List ColumnDef → List IndexInfo → List TableConstraint →
    PM (List ColumnDef × List IndexInfo × List TableConstraint)
  | 0, _, _, _ => fuel_err
  | fuel + 1, columns, index, constraints => do
    match P.dialect_type with
    | DBType.MySql => do
      let (columns, index) ←
        (match ← P.peek_token with
        | Token.Word _ => do
          match ← parse_create_table_for_index P fuel with
          | some index_def => pure (columns, index ++ [index_def])
          | none => do
            let column_def ← parse_column_def P fuel
            pure (columns ++ [column_def], index)
        | _ => pure (columns, index))
      let comma ← consume_token P Token.Comma
      if ← consume_token P Token.RParen then pure (columns, index, constraints)
      else if !comma then expected "',' or ')' after column definition" (← P.peek_token)
      else parse_columns_loop P fuel columns index constraints
    | _ => do
      let (columns, constraints) ←
        (match ← parse_optional_table_constraint P fuel with
        | some constraint => pure (columns, constraints ++ [constraint])
        | none =>
          (do
            match ← P.peek_token with
            | Token.Word _ => do
              let column_def ← parse_column_def P fuel
              pure (columns ++ [column_def], constraints)
            | _ => expected "column name or constraint definition" (← P.peek_token)))
      let comma ← consume_token P Token.Comma
      if ← consume_token P Token.RParen then pure (columns, index, constraints)
      else if !comma then expected "',' or ')' after column definition" (← P.peek_token)
      else parse_columns_loop P fuel columns index constraints

/-- Parser::parse_columns (src/parser.rs lines 1443-1491). -/
def parse_columns (P : Parser) (fuel : Nat) :
    PM (List ColumnDef × List IndexInfo × List TableConstraint) := do
  if !(← consume_token P Token.LParen) then pure ([], [], [])
  else if ← consume_token P Token.RParen then pure ([], [], [])
  else parse_columns_loop P fuel [] [] []

/-- Parser::consume_table_option_token (src/parser.rs lines 1557-1563). -/
def consume_table_option_token (P : Parser) : PM Unit := do
  if ← consume_token P Token.Eq then pure ()
  else expected "table option" (← P.peek_token)

/-- Parser::parse_table_option_def (src/parser.rs lines 1523-1555).  The
`a.parse().unwrap()` on AUTO_INCREMENT is a Rust panic when the number does
not fit u64; it is embedded as the Panic outcome. -/
def parse_table_option_def (P : Parser) (fuel : Nat) : PM TableOptionDef := do
  if ← parse_keyword P Keyword.COMMENT then do
    consume_table_option_token P
    let e ← parse_expr P fuel
    pure ⟨none, TableOption.Comment e⟩
  else if ← parse_keyword P Keyword.COLLATE then do
    consume_table_option_token P
    let e ← parse_expr P fuel
    pure ⟨none, TableOption.Collate e⟩
  else if ← parse_keyword P Keyword.DEFAULT then do
    prev_token P
    let name ← parse_identifier P
    if ← parse_keyword P Keyword.CHARSET then do
      consume_table_option_token P
      let e ← parse_expr P fuel
      pure ⟨some name, TableOption.Charset e⟩
    else expected "talbe option for default charset" (← P.peek_token)
  else if ← parse_keyword P Keyword.AUTO_INCREMENT then do
    consume_table_option_token P
    match ← next_token P with
    | Token.Number a =>
      (match str_to_nat a with
      | some n => pure ⟨none, TableOption.Auto_Increment n⟩
      | none => throwPE (PErr.Panic ("could not parse " ++ a ++ " as u64")))
    | _ => expected "table option for auto_increment" (← P.peek_token)
  else if ← parse_keyword P Keyword.ENGINE then do
    consume_table_option_token P
    let e ← parse_expr P fuel
    pure ⟨none, TableOption.Engine e⟩
  else expected "table option" (← P.peek_token)

/-- The loop of parse_table_options (src/parser.rs lines 1513-1519). -/
def parse_table_options_loop (P : Parser) :
    Nat → List TableOptionDef → PM (List TableOptionDef)
  | 0, _ => fuel_err
  | fuel + 1, table_options => do
    if ← consume_token P Token.EOF then pure table_options
    else if ← consume_token P Token.SemiColon then pure table_options
    else do
      let d ← parse_table_option_def P fuel
      parse_table_options_loop P fuel (table_options ++ [d])

/-- Parser::parse_table_options (src/parser.rs lines 1511-1521). -/
def parse_table_options (P : Parser) (fuel : Nat) : PM (List TableOptionDef) :=
  parse_table_options_loop P fuel []

/-- Parser::parse_sql_option (src/parser.rs lines 1864-1869). -/
def parse_sql_option (P : Parser) : PM SqlOption := do
  let name ← parse_identifier P
  expect_token P Token.Eq
  let value ← parse_value P
  pure ⟨name, value⟩

/-- Parser::parse_with_options (src/parser.rs lines 1853-1862). -/
def parse_with_options (P : Parser) (fuel : Nat) : PM (List SqlOption) := do
  if ← parse_keyword P Keyword.WITH then do
    expect_token P Token.LParen
    let options ← parse_comma_separated P (parse_sql_option P) fuel
    expect_token P Token.RParen
    pure options
  else pure []

/-- Parser::parse_create_table (src/parser.rs lines 1380-1413). -/
def parse_create_table (P : Parser) (fuel : Nat) : PM Statement := do
  let if_not_exists ← parse_keywords P [Keyword.IF, Keyword.NOT, Keyword.EXISTS]
  let table_name ← parse_object_name P fuel
  let (columns, index, constraints) ← parse_columns P fuel
  let without_rowid ← parse_keywords P [Keyword.WITHOUT, Keyword.ROWID]
  let with_options ← parse_with_options P fuel
  let table_options ← parse_table_options P fuel
  let query ←
    (if ← parse_keyword P Keyword.AS then do
      let q ← parse_query P fuel
      pure (some q)
    else pure none)
  pure (Statement.CreateTable table_name columns index constraints with_options
    table_options if_not_exists false none none query without_rowid)

/-- Parser::parse_create_index (src/parser.rs lines 1365-1378). -/
def parse_create_index (P : Parser) (fuel : Nat) (unique : Bool) : PM Statement := do
  let if_not_exists ← parse_keywords P [Keyword.IF, Keyword.NOT, Keyword.EXISTS]
  let index_name ← parse_object_name P fuel
  expect_keyword P Keyword.ON
  let table_name ← parse_object_name P fuel
  let columns ← parse_parenthesized_column_list P fuel IsOptional.Mandatory
  pure (Statement.CreateIndex index_name table_name columns unique if_not_exists)

/-- Parser::parse_create_view (src/parser.rs lines 1307-1325). -/
def parse_create_view (P : Parser) (fuel : Nat) : PM Statement := do
  let materialized ← parse_keyword P Keyword.MATERIALIZED
  expect_keyword P Keyword.VIEW
  let name ← parse_object_name P fuel
  let columns ← parse_parenthesized_column_list P fuel IsOptional.Optional
  let with_options ← parse_with_options P fuel
  expect_keyword P Keyword.AS
  let query ← parse_query P fuel
  pure (Statement.CreateView name columns query materialized with_options)

/-- Parser::parse_file_format (src/parser.rs lines 1291-1305). -/
def parse_file_format (P : Parser) : PM FileFormat := do
  match ← next_token P with
  | Token.Word w =>
    (match w.keyword with
    | Keyword.AVRO => pure FileFormat.AVRO
    | Keyword.JSONFILE => pure FileFormat.JSONFILE
    | Keyword.ORC => pure FileFormat.ORC
    | Keyword.PARQUET => pure FileFormat.PARQUET
    | Keyword.RCFILE => pure FileFormat.RCFILE
    | Keyword.SEQUENCEFILE => pure FileFormat.SEQUENCEFILE
    | Keyword.TEXTFILE => pure FileFormat.TEXTFILE
    | _ => expected "fileformat" (Token.Word w))
  | unexpected => expected "fileformat" unexpected

/-- Parser::parse_create_external_table (src/parser.rs lines 1265-1289). -/
def parse_create_external_table (P : Parser) (fuel : Nat) : PM Statement := do
  expect_keyword P Keyword.TABLE
  let table_name ← parse_object_name P fuel
  let (columns, index, constraints) ← parse_columns P fuel
  expect_keywords P [Keyword.STORED, Keyword.AS]
  let file_format ← parse_file_format P
  expect_keyword P Keyword.LOCATION
  let location ← parse_literal_string P
  pure (Statement.CreateTable table_name columns index constraints [] [] false true
    (some file_format) (some location) none false)

/-- Parser::parse_create_virtual_table (src/parser.rs lines 1241-1258). -/
def parse_create_virtual_table (P : Parser) (fuel : Nat) : PM Statement := do
  expect_keyword P Keyword.TABLE
  let if_not_exists ← parse_keywords P [Keyword.IF, Keyword.NOT, Keyword.EXISTS]
  let table_name ← parse_object_name P fuel
  expect_keyword P Keyword.USING
  let module_name ← parse_identifier P
  let module_args ← parse_parenthesized_column_list P fuel IsOptional.Optional
  pure (Statement.CreateVirtualTable table_name if_not_exists module_name module_args)

/-- Parser::parse_create_schema (src/parser.rs lines 1260-1263). -/
def parse_create_schema (P : Parser) (fuel : Nat) : PM Statement := do
  let schema_name ← parse_object_name P fuel
  pure (Statement.CreateSchema schema_name)

/-- Parser::parse_create (src/parser.rs lines 1217-1238). -/
def parse_create (P : Parser) (fuel : Nat) : PM Statement := do
  if ← parse_keyword P Keyword.TABLE then parse_create_table P fuel
  else if ← parse_keyword P Keyword.INDEX then parse_create_index P fuel false
  else if ← parse_keywords P [Keyword.UNIQUE, Keyword.INDEX] then parse_create_index P fuel true
  else if ← parse_keyword P Keyword.MATERIALIZED then do
    prev_token P
    parse_create_view P fuel
  else if ← parse_keyword P Keyword.VIEW then do
    prev_token P
    parse_create_view P fuel
  else if ← parse_keyword P Keyword.EXTERNAL then parse_create_external_table P fuel
  else if ← parse_keyword P Keyword.VIRTUAL then parse_create_virtual_table P fuel
  else if ← parse_keyword P Keyword.SCHEMA then parse_create_schema P fuel
  else if ← parse_keyword P Keyword.DATABASE then parse_create_schema P fuel
  else expected "an object type after CREATE" (← P.peek_token)

/-- One ALTER TABLE operation (src/parser.rs lines 1882-1951). -/
def parse_alter_operation (P : Parser) (fuel : Nat) : PM AlterTableOperation := do
  let add_or_modify ←
    (do
      if ← parse_keyword P Keyword.ADD then pure true
      else parse_keyword P Keyword.MODIFY)
  if add_or_modify then
    match P.dialect_type with
    | DBType.MySql => do
      if !(← parse_keyword P Keyword.COLUMN) then parse_alter_add_index P fuel
      else do
        let column_def ← parse_column_def P fuel
        pure (AlterTableOperation.AddColumn column_def)
    | _ => do
      match ← parse_optional_table_constraint P fuel with
      | some constraint => pure (AlterTableOperation.AddConstraint constraint)
      | none => do
        if !(← parse_keyword P Keyword.COLUMN) then parse_alter_add_index P fuel
        else do
          let column_def ← parse_column_def P fuel
          pure (AlterTableOperation.AddColumn column_def)
  else if ← parse_keyword P Keyword.CHANGE then do
    let _ ← parse_keyword P Keyword.COLUMN
    let old_column_name ← parse_identifier P
    let new_column_def ← parse_column_def P fuel
    pure (AlterTableOperation.ChangeColumn old_column_name new_column_def)
  else if ← parse_keyword P Keyword.RENAME then do
    if ← parse_keyword P Keyword.TO then do
      let table_name ← parse_identifier P
      pure (AlterTableOperation.RenameTable table_name)
    else do
      let _ ← parse_keyword P Keyword.COLUMN
      let old_column_name ← parse_identifier P
      expect_keyword P Keyword.TO
      let new_column_name ← parse_identifier P
      pure (AlterTableOperation.RenameColumn old_column_name new_column_name)
  else if ← parse_keyword P Keyword.DROP then do
    if !(← parse_keyword P Keyword.COLUMN) then do
      let index_def ← parse_alter_drop_index P fuel
      pure (AlterTableOperation.DropIndex index_def)
    else do
      let if_exists ← parse_keywords P [Keyword.IF, Keyword.EXISTS]
      let column_name ← parse_identifier P
      let cascade ← parse_keyword P Keyword.CASCADE
      pure (AlterTableOperation.DropColumn column_name if_exists cascade)
  else expected "ADD, RENAME, or DROP after ALTER TABLE" (← P.peek_token)

/-- The operation loop of parse_alter (src/parser.rs lines 1876-1954). -/
def parse_alter_loop (P : Parser) :
    Nat → List AlterTableOperation → PM (List AlterTableOperation)
  | 0, _ => fuel_err
  | fuel + 1, tmp => do
    if ← consume_token P Token.EOF then pure tmp
    else if ← consume_token P Token.SemiColon then pure tmp
    else do
      let _ ← consume_token P Token.Comma
      let operation ← parse_alter_operation P fuel
      parse_alter_loop P fuel (tmp ++ [operation])

/-- Parser::parse_alter (src/parser.rs lines 1871-1960). -/
def parse_alter (P : Parser) (fuel : Nat) : PM Statement := do
  expect_keyword P Keyword.TABLE
  let _ ← parse_keyword P Keyword.ONLY
  let table_name ← parse_object_name P fuel
  let operation ← parse_alter_loop P fuel []
  pure (Statement.AlterTable table_name operation)

/-- Parser::parse_statement (src/parser.rs lines 136-177). -/
def parse_statement (P : Parser) (fuel : Nat) : PM Statement := do
  match ← next_token P with
  | Token.Word w =>
    (match w.keyword with
    | Keyword.SELECT => do
      prev_token P
      let q ← parse_query P fuel
      pure (Statement.Query q)
    | Keyword.WITH => do
      prev_token P
      let q ← parse_query P fuel
      pure (Statement.Query q)
    | Keyword.VALUES => do
      prev_token P
      let q ← parse_query P fuel
      pure (Statement.Query q)
    | Keyword.EXPLAIN => parse_explain P fuel
    | Keyword.CALL => parse_call P fuel
    | Keyword.CREATE => parse_create P fuel
    | Keyword.DROP => parse_drop P fuel
    | Keyword.DELETE => parse_delete P fuel
    | Keyword.INSERT => parse_insert P fuel
    | Keyword.REPLACE => parse_insert P fuel
    | Keyword.RELOAD => parse_reload P fuel
    | Keyword.UPDATE => parse_update P fuel
    | Keyword.ALTER => parse_alter P fuel
    | Keyword.COPY => parse_copy P fuel
    | Keyword.SET => parse_set P fuel
    | Keyword.SHOW => parse_show P fuel
    | Keyword.START => parse_start_transaction P fuel
    | Keyword.BEGIN => parse_begin P fuel
    | Keyword.COMMIT => parse_commit P
    | Keyword.ROLLBACK => parse_rollback P
    | Keyword.ASSERT => parse_assert P fuel
    | Keyword.LOCK => parse_lock P fuel
    | Keyword.UNLOCK => parse_unlock P
    | Keyword.USE => parse_use P
    | Keyword.DESC => parse_desc P fuel
    | _ => expected "an SQL statement" (Token.Word w))
  | Token.LParen => do
    prev_token P
    let q ← parse_query P fuel
    pure (Statement.Query q)
  | unexpected => expected "an SQL statement" unexpected

/-- The statement loop of parse_sql (src/parser.rs lines 114-130): skip
statement delimiters, stop at EOF, and between statements require a `;` or
EOF before parsing the next one. -/
def parse_sql_loop (P : Parser) (stmt_fuel : Nat) :
    Nat → Bool → List Statement → PM (List Statement)
  | 0, _, _ => fuel_err
  | fuel + 1, expecting_statement_delimiter, stmts => do
    if ← consume_token P Token.SemiColon then
      parse_sql_loop P stmt_fuel fuel false stmts
    else if (← P.peek_token) = Token.EOF then pure stmts
    else if expecting_statement_delimiter then
      expected "end of statement" (← P.peek_token)
    else do
      let statement ← parse_statement P stmt_fuel
      parse_sql_loop P stmt_fuel fuel true (stmts ++ [statement])

/-- Parser::parse_sql (src/parser.rs lines 106-132): tokenize, then run the
statement loop from cursor 0.  A TokenizerError is wrapped with its line and
column (src/parser.rs lines 64-71). -/
def parse_sql (d : Dialect) (sql : String) : Except PErr (List Statement) :=
  match tokenize d sql with
  | Except.error e =>
    Except.error (PErr.TokenizerError
      (e.message ++ " at Line: " ++ toString e.line ++ ", Column " ++ toString e.col))
  | Except.ok tokens =>
    let P : Parser := ⟨tokens, d.db_type⟩
    (parse_sql_loop P (tokens.length + 100) (tokens.length + 1) false [] 0).1


/-! The remaining definitions state properties checked by the theorems
below: the table of regular infix operators with the precedences of
get_next_precedence (src/parser.rs lines 967-998) and of parse_infix
(src/parser.rs lines 842-894), and an executable structural equality for the
expression shapes the precedence theorems compare. -/

/-- The regular binary operators: each token that parse_infix maps to a
BinaryOperator (src/parser.rs lines 846-894), with the operator and the
token's precedence from get_next_precedence (src/parser.rs lines 967-998). -/
def regular_infix_table : List (Token × BinaryOperator × Nat) :=
  [(Token.Word ⟨"OR", none, Keyword.OR⟩, BinaryOperator.Or, 5),
   (Token.Word ⟨"AND", none, Keyword.AND⟩, BinaryOperator.And, 10),
   (Token.Word ⟨"LIKE", none, Keyword.LIKE⟩, BinaryOperator.Like, 20),
   (Token.Eq, BinaryOperator.Eq, 20),
   (Token.Neq, BinaryOperator.NotEq, 20),
   (Token.Lt, BinaryOperator.Lt, 20),
   (Token.LtEq, BinaryOperator.LtEq, 20),
   (Token.Gt, BinaryOperator.Gt, 20),
   (Token.GtEq, BinaryOperator.GtEq, 20),
   (Token.Pipe, BinaryOperator.BitwiseOr, 21),
   (Token.Caret, BinaryOperator.BitwiseXor, 22),
   (Token.Ampersand, BinaryOperator.BitwiseAnd, 23),
   (Token.Plus, BinaryOperator.Plus, 30),
   (Token.Minus, BinaryOperator.Minus, 30),
   (Token.Mult, BinaryOperator.Multiply, 40),
   (Token.Div, BinaryOperator.Divide, 40),
   (Token.Mod, BinaryOperator.Modulus, 40),
   (Token.StringConcat, BinaryOperator.StringConcat, 40),
   (Token.Negate, BinaryOperator.BitwiseNegate, 40),
   (Token.LDisplacement, BinaryOperator.BitwiseNegateLDisplacement, 40),
   (Token.RDisplacement, BinaryOperator.BitwiseNegateRDisplacement, 40)]

/-- Executable structural equality on the identifier/binary-operation
fragment of Expr, enough to compare the parses of `x a y b z`. -/
def prec_expr_beq : Expr → Expr → Bool
  | Expr.Identifier a, Expr.Identifier b => a == b
  | Expr.BinaryOp l1 o1 r1, Expr.BinaryOp l2 o2 r2 =>
    prec_expr_beq l1 l2 && o1 == o2 && prec_expr_beq r1 r2
  | _, _ => false

/-- The expression parser on the five-token stream `x a y b z`. -/
def prec_pair_run (ta tb : Token) : Except PErr Expr :=
  (parse_expr ⟨[Token.Word ⟨"x", none, Keyword.NoKeyword⟩, ta,
      Token.Word ⟨"y", none, Keyword.NoKeyword⟩, tb,
      Token.Word ⟨"z", none, Keyword.NoKeyword⟩], DBType.MySql⟩ 30 0).1

/-- One precedence comparison: for p(a) < p(b) the parse of `x a y b z` must
be `x a (y b z)`, for p(a) = p(b) it must be `(x a y) b z`; pairs with
p(a) > p(b) are covered by the symmetric pair. -/
def prec_pair_ok (ta : Token) (oa : BinaryOperator) (pa : Nat)
    (tb : Token) (ob : BinaryOperator) (pb : Nat) : Bool :=
  if pa < pb then
    match prec_pair_run ta tb with
    | Except.ok e =>
      prec_expr_beq e (Expr.BinaryOp (Expr.Identifier ⟨"x", none⟩) oa
        (Expr.BinaryOp (Expr.Identifier ⟨"y", none⟩) ob (Expr.Identifier ⟨"z", none⟩)))
    | Except.error _ => false
  else if pa = pb then
    match prec_pair_run ta tb with
    | Except.ok e =>
      prec_expr_beq e (Expr.BinaryOp
        (Expr.BinaryOp (Expr.Identifier ⟨"x", none⟩) oa (Expr.Identifier ⟨"y", none⟩))
        ob (Expr.Identifier ⟨"z", none⟩))
    | Except.error _ => false
  else true

/-- Every ordered pair of regular binary operators respects the precedence
table. -/
def prec_table_check : Bool :=
  regular_infix_table.all fun p1 =>
    regular_infix_table.all fun p2 =>
      prec_pair_ok p1.1 p1.2.1 p1.2.2 p2.1 p2.2.1 p2.2.2


/-! ## Theorems -/

/-- Running a PM computation that succeeds continues with its value and
post-state. -/
theorem pmBind_ok (m : PM α) (f : α → PM β) (i : Nat) (a : α) (j : Nat)
    (h : m i = (Except.ok a, j)) : pmBind m f i = f a j := by
  unfold pmBind; rw [h]

/-- Running a PM computation that fails short-circuits the continuation. -/
theorem pmBind_err (m : PM α) (f : α → PM β) (i : Nat) (e : PErr) (j : Nat)
    (h : m i = (Except.error e, j)) : pmBind m f i = (Except.error e, j) := by
  unfold pmBind; rw [h]

/-- peek_token answers the peeked token and keeps the cursor. -/
theorem peek_token_eq (P : Parser) (i : Nat) :
    P.peek_token i = (Except.ok (peek_at P i), i) := rfl

/-- consume_token on the expected token advances past it. -/
theorem consume_token_pos (P : Parser) (t : Token) (i : Nat) (h : peek_at P i = t) :
    consume_token P t i = (Except.ok true, (next_token_pos P.tokens i).2) := by
  show pmBind P.peek_token
    (fun tok => if tok = t then pmBind (next_token P) (fun _ => pmPure true)
                else pmPure false) i = _
  rw [pmBind_ok _ _ _ _ _ (peek_token_eq P i), h, if_pos rfl]
  rfl

/-- consume_token on any other token reports false and keeps the cursor. -/
theorem consume_token_neg (P : Parser) (t : Token) (i : Nat) (h : ¬ peek_at P i = t) :
    consume_token P t i = (Except.ok false, i) := by
  show pmBind P.peek_token
    (fun tok => if tok = t then pmBind (next_token P) (fun _ => pmPure true)
                else pmPure false) i = _
  rw [pmBind_ok _ _ _ _ _ (peek_token_eq P i), if_neg h]
  rfl

/-- consume_token either advances on a match or reports false in place. -/
theorem consume_token_total (P : Parser) (t : Token) (i : Nat) :
    consume_token P t i = (Except.ok true, (next_token_pos P.tokens i).2) ∨
      consume_token P t i = (Except.ok false, i) := by
  by_cases h : peek_at P i = t
  · exact Or.inl (consume_token_pos P t i h)
  · exact Or.inr (consume_token_neg P t i h)

/-- parse_keyword either succeeds and advances, or reports false without
moving the cursor. -/
theorem parse_keyword_total (P : Parser) (k : Keyword) (i : Nat) :
    (∃ j, parse_keyword P k i = (Except.ok true, j)) ∨
      parse_keyword P k i = (Except.ok false, i) := by
  have h : parse_keyword P k i =
      (match peek_nth_from P.tokens i 0 with
       | Token.Word w =>
         if k = w.keyword then pmBind (next_token P) (fun _ => pmPure true)
         else pmPure false
       | _ => pmPure false) i := rfl
  rw [h]
  cases htok : peek_nth_from P.tokens i 0 <;> simp only []
  case Word w =>
    by_cases hk : k = w.keyword
    · exact Or.inl ⟨(next_token_pos P.tokens i).2, by simp [hk, pmBind, next_token, pmPure]⟩
    · exact Or.inr (by simp [hk, pmPure])
  all_goals exact Or.inr rfl

/-- When the keyword-sequence loop answers false, the cursor is the saved
index it rewinds to. -/
theorem parse_keywords_loop_false (P : Parser) (saved : Nat) :
    ∀ (ks : List Keyword) (i : Nat) (j : Nat),
      parse_keywords_loop P saved ks i = (Except.ok false, j) → j = saved := by
  intro ks
  induction ks with
  | nil =>
    intro i j h
    have : (Except.ok true, i) = ((Except.ok false, j) : Except PErr Bool × Nat) := h
    simp at this
  | cons k rest ih =>
    intro i j h
    have hb : parse_keywords_loop P saved (k :: rest) i =
        pmBind (parse_keyword P k)
          (fun b => if b then parse_keywords_loop P saved rest
                    else fun _ => (Except.ok false, saved)) i := rfl
    rw [hb] at h
    rcases parse_keyword_total P k i with ⟨j', hj⟩ | hf
    · rw [show pmBind (parse_keyword P k)
          (fun b => if b then parse_keywords_loop P saved rest
                    else fun _ => (Except.ok false, saved)) i =
          parse_keywords_loop P saved rest j' by
        unfold pmBind; rw [hj]; rfl] at h
      exact ih j' j h
    · rw [show pmBind (parse_keyword P k)
          (fun b => if b then parse_keywords_loop P saved rest
                    else fun _ => (Except.ok false, saved)) i =
          (Except.ok false, saved) by
        unfold pmBind; rw [hf]; rfl] at h
      have := congrArg Prod.snd h
      simpa using this.symm

/-- C7: Parsing `insert a(id) value(1)` succeeds although INTO is absent,
and yields exactly one Statement.Insert whose table is `a`, whose column list
is [`id`], whose source query body is SetExpr.Value over the single row
[Number "1"], and whose update field is none. -/
theorem C7_insert_value_without_into :
    parse_sql mysql_dialect "insert a(id) value(1)" =
      Except.ok [Statement.Insert none false ⟨[⟨"a", none⟩]⟩ [⟨"id", none⟩]
        (Query.mk [] (SetExpr.Value (Values.mk [[Expr.Value (Value.Number "1")]]))
          [] none none false none) none] := rfl

/-- C3: The parser keeps VALUE and VALUES apart in the AST (the body parsed
from `value(1)` is SetExpr.Value), but rendering the SetExpr.Value node goes
through the Display of Values, which always writes the keyword VALUES, so
the original keyword VALUE is not reproduced. -/
theorem C3_value_is_rendered_as_values :
    parse_sql mysql_dialect "insert a(id) value(1)" =
      Except.ok [Statement.Insert none false ⟨[⟨"a", none⟩]⟩ [⟨"id", none⟩]
        (Query.mk [] (SetExpr.Value (Values.mk [[Expr.Value (Value.Number "1")]]))
          [] none none false none) none] ∧
    displaySetExpr (SetExpr.Value (Values.mk [[Expr.Value (Value.Number "1")]])) =
      "VALUES (1)" ∧
    displaySetExpr (SetExpr.Value (Values.mk [[Expr.Value (Value.Number "1")]])) ≠
      "VALUE (1)" :=
  ⟨rfl, rfl, by decide⟩

/-- C1: The round-trip property fails.  Parsing `insert a(id) value(1)`
yields a statement S whose body is SetExpr.Value; its canonical rendering is
"INSERT INTO a (id) VALUES (1)", and re-parsing that rendering yields a
statement whose body is SetExpr.Values, which is not structurally equal
to S. -/
theorem C1_round_trip_fails_on_value :
    parse_sql mysql_dialect "insert a(id) value(1)" =
      Except.ok [Statement.Insert none false ⟨[⟨"a", none⟩]⟩ [⟨"id", none⟩]
        (Query.mk [] (SetExpr.Value (Values.mk [[Expr.Value (Value.Number "1")]]))
          [] none none false none) none] ∧
    displayStatement (Statement.Insert none false ⟨[⟨"a", none⟩]⟩ [⟨"id", none⟩]
        (Query.mk [] (SetExpr.Value (Values.mk [[Expr.Value (Value.Number "1")]]))
          [] none none false none) none) = "INSERT INTO a (id) VALUES (1)" ∧
    parse_sql mysql_dialect "INSERT INTO a (id) VALUES (1)" =
      Except.ok [Statement.Insert none false ⟨[⟨"a", none⟩]⟩ [⟨"id", none⟩]
        (Query.mk [] (SetExpr.Values (Values.mk [[Expr.Value (Value.Number "1")]]))
          [] none none false none) none] ∧
    Statement.Insert none false (⟨[⟨"a", none⟩]⟩ : ObjectName) [⟨"id", none⟩]
        (Query.mk [] (SetExpr.Values (Values.mk [[Expr.Value (Value.Number "1")]]))
          [] none none false none) none ≠
      Statement.Insert none false ⟨[⟨"a", none⟩]⟩ [⟨"id", none⟩]
        (Query.mk [] (SetExpr.Value (Values.mk [[Expr.Value (Value.Number "1")]]))
          [] none none false none) none :=
  ⟨rfl, rfl, rfl, by simp⟩

/-- C5: Speculative parsing restores the cursor on failure: when the wrapped
computation fails with a parser or tokenizer error (a panic is not caught),
maybe_parse answers none at the saved index; and when parse_keywords answers
false, the cursor is back at its value from before the call. -/
theorem C5_failure_restores_cursor :
    (∀ (α : Type) (f : PM α) (i j : Nat) (e : PErr),
        f i = (Except.error e, j) → (∀ m, e ≠ PErr.Panic m) →
        maybe_parse f i = (Except.ok none, i)) ∧
    (∀ (P : Parser) (ks : List Keyword) (i j : Nat),
        parse_keywords P ks i = (Except.ok false, j) → j = i) := by
  constructor
  · intro α f i j e hf he
    unfold maybe_parse
    rw [hf]
    cases e with
    | Panic m => exact absurd rfl (he m)
    | ParserError m => rfl
    | TokenizerError m => rfl
  · intro P ks i j h
    exact parse_keywords_loop_false P i ks i j h

/-- Witness for C5 at concrete inputs: a computation failing with a parser
error at cursor 7 is rewound to 7, and a keyword sequence that mismatches at
cursor 2 of an empty token stream reports the cursor unchanged. -/
theorem C5_failure_restores_cursor_witness :
    maybe_parse (fun i => (Except.error (PErr.ParserError "boom"), i + 3)) 7 =
      ((Except.ok (none : Option Unit), 7) : Except PErr (Option Unit) × Nat) ∧
    (2 : Nat) = 2 :=
  ⟨C5_failure_restores_cursor.1 Unit
      (fun i => (Except.error (PErr.ParserError "boom"), i + 3)) 7 10
      (PErr.ParserError "boom") rfl (fun m h => PErr.noConfusion h),
    C5_failure_restores_cursor.2 ⟨[], DBType.MySql⟩ [Keyword.SELECT] 2 2 rfl⟩

/-- C6: After LIMIT, `ALL` yields (none, none) and `n` alone yields a limit
with no offset; but the bare comma form `LIMIT m, n` makes m the limit and n
the offset - the same pair as `LIMIT m OFFSET n`, not as `LIMIT n OFFSET m`
as claimed.  At the query level, `SELECT 1 LIMIT 1, 2` therefore equals
`SELECT 1 LIMIT 1 OFFSET 2`. -/
theorem C6_limit_comma_is_limit_offset (m n : String) :
    parse_mysql_limit ⟨[Token.Number m, Token.Comma, Token.Number n], DBType.MySql⟩ 0 =
      (Except.ok (some (Expr.Value (Value.Number m)),
        some (Offset.mk (Expr.Value (Value.Number n)) OffsetRows.None)), 3) ∧
    parse_mysql_limit ⟨[Token.Number m, Token.Word ⟨"OFFSET", none, Keyword.OFFSET⟩,
        Token.Number n], DBType.MySql⟩ 0 =
      (Except.ok (some (Expr.Value (Value.Number m)),
        some (Offset.mk (Expr.Value (Value.Number n)) OffsetRows.None)), 3) ∧
    parse_mysql_limit ⟨[Token.Word ⟨"ALL", none, Keyword.ALL⟩], DBType.MySql⟩ 0 =
      (Except.ok (none, none), 1) ∧
    parse_mysql_limit ⟨[Token.Number m], DBType.MySql⟩ 0 =
      (Except.ok (some (Expr.Value (Value.Number m)), none), 1) ∧
    parse_sql mysql_dialect "SELECT 1 LIMIT 1, 2" =
      parse_sql mysql_dialect "SELECT 1 LIMIT 1 OFFSET 2" ∧
    parse_sql mysql_dialect "SELECT 1 LIMIT ALL" =
      Except.ok [Statement.Query (Query.mk []
        (SetExpr.Select (Select.mk none false none
          [SelectItem.UnnamedExpr (Expr.Value (Value.Number "1"))] [] none [] none))
        [] none none false none)] :=
  ⟨rfl, rfl, rfl, rfl, rfl, rfl⟩

/-- C6 counterexample to the claimed swap: `LIMIT 1, 2` gives the pair
(limit 1, offset 2), while `LIMIT 2 OFFSET 1` gives (limit 2, offset 1), and
the two pairs differ. -/
theorem C6_comma_swap_counterexample :
    parse_sql mysql_dialect "SELECT 1 LIMIT 1, 2" =
      Except.ok [Statement.Query (Query.mk []
        (SetExpr.Select (Select.mk none false none
          [SelectItem.UnnamedExpr (Expr.Value (Value.Number "1"))] [] none [] none))
        [] (some (Expr.Value (Value.Number "1")))
        (some (Offset.mk (Expr.Value (Value.Number "2")) OffsetRows.None)) false none)] ∧
    parse_sql mysql_dialect "SELECT 1 LIMIT 2 OFFSET 1" =
      Except.ok [Statement.Query (Query.mk []
        (SetExpr.Select (Select.mk none false none
          [SelectItem.UnnamedExpr (Expr.Value (Value.Number "1"))] [] none [] none))
        [] (some (Expr.Value (Value.Number "2")))
        (some (Offset.mk (Expr.Value (Value.Number "1")) OffsetRows.None)) false none)] ∧
    ((some (Expr.Value (Value.Number "1")) : Option Expr),
      (some (Offset.mk (Expr.Value (Value.Number "2")) OffsetRows.None) : Option Offset)) ≠
    (some (Expr.Value (Value.Number "2")),
      some (Offset.mk (Expr.Value (Value.Number "1")) OffsetRows.None)) :=
  ⟨rfl, rfl, by simp⟩

/-- C8: DROP with both CASCADE and RESTRICT fails with exactly the message
"Cannot specify both CASCADE and RESTRICT in DROP"; ALL immediately followed
by DISTINCT fails parse_all_or_distinct with "Cannot specify both ALL and
DISTINCT" (whatever follows); with only one of each pair the statements
parse. -/
theorem C8_cascade_restrict_all_distinct :
    (∀ (rest : List Token),
      parse_all_or_distinct ⟨Token.Word ⟨"ALL", none, Keyword.ALL⟩ ::
          Token.Word ⟨"DISTINCT", none, Keyword.DISTINCT⟩ :: rest, DBType.MySql⟩ 0 =
        (Except.error (PErr.ParserError "Cannot specify both ALL and DISTINCT"), 2)) ∧
    parse_sql mysql_dialect "DROP TABLE t CASCADE RESTRICT" =
      Except.error (PErr.ParserError "Cannot specify both CASCADE and RESTRICT in DROP") ∧
    parse_sql mysql_dialect "SELECT ALL DISTINCT 1" =
      Except.error (PErr.ParserError "Cannot specify both ALL and DISTINCT") ∧
    parse_sql mysql_dialect "DROP TABLE t CASCADE" =
      Except.ok [Statement.Drop ObjectType.Table false [⟨[⟨"t", none⟩]⟩] ⟨[]⟩ true] ∧
    parse_sql mysql_dialect "DROP TABLE t RESTRICT" =
      Except.ok [Statement.Drop ObjectType.Table false [⟨[⟨"t", none⟩]⟩] ⟨[]⟩ false] ∧
    parse_sql mysql_dialect "SELECT ALL 1" =
      Except.ok [Statement.Query (Query.mk []
        (SetExpr.Select (Select.mk none false none
          [SelectItem.UnnamedExpr (Expr.Value (Value.Number "1"))] [] none [] none))
        [] none none false none)] ∧
    parse_sql mysql_dialect "SELECT DISTINCT 1" =
      Except.ok [Statement.Query (Query.mk []
        (SetExpr.Select (Select.mk none true none
          [SelectItem.UnnamedExpr (Expr.Value (Value.Number "1"))] [] none [] none))
        [] none none false none)] :=
  ⟨fun _ => rfl, rfl, rfl, rfl, rfl, rfl, rfl⟩

/-- C10: A block comment right after SELECT is stored with every space
removed - parse_comment_for_select applies the space-stripping replace to the
comment text - and rendering re-emits the stripped text directly after
SELECT, so ` a b ` comes back as `/*ab*/`. -/
theorem C10_select_comment_spaces_stripped :
    (∀ (c : String) (rest : List Token),
      parse_comment_for_select ⟨Token.Whitespace (Whitespace.MultiLineComment c) :: rest,
          DBType.MySql⟩ 0 =
        (Except.ok (some ⟨string_replace c " " "", none⟩), 1)) ∧
    string_replace " a b " " " "" = "ab" ∧
    parse_sql mysql_dialect "select /* a b */ 1" =
      Except.ok [Statement.Query (Query.mk []
        (SetExpr.Select (Select.mk (some ⟨"ab", none⟩) false none
          [SelectItem.UnnamedExpr (Expr.Value (Value.Number "1"))] [] none [] none))
        [] none none false none)] ∧
    displayStatement (Statement.Query (Query.mk []
        (SetExpr.Select (Select.mk (some ⟨"ab", none⟩) false none
          [SelectItem.UnnamedExpr (Expr.Value (Value.Number "1"))] [] none [] none))
        [] none none false none)) = "SELECT /*ab*/ 1" :=
  ⟨fun _ _ => rfl, rfl, rfl, rfl⟩


/-- C2 counterexample: by the table p(IS) = 17 < 30 = p(+), yet `x IS y + z`
is rejected (IS only accepts NULL / NOT NULL), so IS does not take part in
the claimed x-a-(y-b-z) law. -/
theorem C2_is_operator_counterexample :
    get_next_precedence_val ⟨[Token.Word ⟨"IS", none, Keyword.IS⟩], DBType.MySql⟩ 0 = 17 ∧
    get_next_precedence_val ⟨[Token.Plus], DBType.MySql⟩ 0 = 30 ∧
    parse_sql mysql_dialect "SELECT x IS y + z" =
      Except.error (PErr.ParserError "Expected NULL or NOT NULL after IS, found: y") :=
  ⟨rfl, rfl, rfl⟩

/-- C2 (amended to the regular binary operators): for every ordered pair
(a, b) from the 21 token-to-BinaryOperator mappings of parse_infix, with the
precedences of get_next_precedence (OR=5, AND=10, LIKE and the comparisons
=20, |=21, ^=22, &=23, + -=30, * / % || ~ << >>=40), `x a y b z` parses as
`x a (y b z)` when p(a) < p(b) and as `(x a y) b z` when p(a) = p(b). -/
theorem C2_regular_operator_precedence :
    prec_table_check = true ∧
    (∀ p1 ∈ regular_infix_table, ∀ p2 ∈ regular_infix_table,
      prec_pair_ok p1.1 p1.2.1 p1.2.2 p2.1 p2.2.1 p2.2.2 = true) ∧
    parse_sql mysql_dialect "SELECT x OR y AND z" =
      Except.ok [Statement.Query (Query.mk []
        (SetExpr.Select (Select.mk none false none
          [SelectItem.UnnamedExpr (Expr.BinaryOp (Expr.Identifier ⟨"x", none⟩)
            BinaryOperator.Or (Expr.BinaryOp (Expr.Identifier ⟨"y", none⟩)
              BinaryOperator.And (Expr.Identifier ⟨"z", none⟩)))] [] none [] none))
        [] none none false none)] ∧
    parse_sql mysql_dialect "SELECT x + y - z" =
      Except.ok [Statement.Query (Query.mk []
        (SetExpr.Select (Select.mk none false none
          [SelectItem.UnnamedExpr (Expr.BinaryOp
            (Expr.BinaryOp (Expr.Identifier ⟨"x", none⟩) BinaryOperator.Plus
              (Expr.Identifier ⟨"y", none⟩))
            BinaryOperator.Minus (Expr.Identifier ⟨"z", none⟩))] [] none [] none))
        [] none none false none)] := by
  have h : prec_table_check = true := by decide
  refine ⟨h, ?_, rfl, rfl⟩
  intro p1 h1 p2 h2
  have h' := List.all_eq_true.mp h p1 h1
  exact List.all_eq_true.mp h' p2 h2

/-- Witness for C2 at the pair (OR, AND): p(OR) = 5 < 10 = p(AND) and the
pair check evaluates to true. -/
theorem C2_regular_operator_precedence_witness :
    prec_pair_ok (Token.Word ⟨"OR", none, Keyword.OR⟩) BinaryOperator.Or 5
      (Token.Word ⟨"AND", none, Keyword.AND⟩) BinaryOperator.And 10 = true :=
  C2_regular_operator_precedence.2.1
    (Token.Word ⟨"OR", none, Keyword.OR⟩, BinaryOperator.Or, 5)
    (List.mem_cons_self _ _)
    (Token.Word ⟨"AND", none, Keyword.AND⟩, BinaryOperator.And, 10)
    (List.mem_cons_of_mem _ (List.mem_cons_self _ _))

/-- One unfolding of the parse_sql statement loop: the saved continuations of
its do-chain, exposed for the C4 proofs. -/
theorem parse_sql_loop_unfold (P : Parser) (sf fuel : Nat) (exp : Bool)
    (stmts : List Statement) :
    ∃ k k2,
      (parse_sql_loop P sf (fuel + 1) exp stmts = pmBind (consume_token P Token.SemiColon) k) ∧
      (k true = parse_sql_loop P sf fuel false stmts) ∧
      (k false = pmBind P.peek_token k2) ∧
      (k2 = fun t =>
        if t = Token.EOF then pmPure stmts
        else if exp then pmBind P.peek_token (fun t2 => expected "end of statement" t2)
        else pmBind (parse_statement P sf)
          (fun s => parse_sql_loop P sf fuel true (stmts ++ [s]))) :=
  ⟨_, _, rfl, by rfl, by rfl, rfl⟩

/-- The statement loop consumes a statement delimiter and clears the
expecting flag. -/
theorem loop_semicolon_skip (P : Parser) (sf fuel : Nat) (exp : Bool)
    (stmts : List Statement) (i : Nat) (h : peek_at P i = Token.SemiColon) :
    parse_sql_loop P sf (fuel + 1) exp stmts i =
      parse_sql_loop P sf fuel false stmts (next_token_pos P.tokens i).2 := by
  obtain ⟨k, k2, hk, hkt, _, _⟩ := parse_sql_loop_unfold P sf fuel exp stmts
  rw [hk, pmBind_ok _ _ _ _ _ (consume_token_pos P Token.SemiColon i h)]
  exact congrFun hkt _

/-- The statement loop stops at EOF and returns the collected statements. -/
theorem loop_stops_at_eof (P : Parser) (sf fuel : Nat) (exp : Bool)
    (stmts : List Statement) (i : Nat)
    (h1 : ¬ peek_at P i = Token.SemiColon) (h2 : peek_at P i = Token.EOF) :
    parse_sql_loop P sf (fuel + 1) exp stmts i = (Except.ok stmts, i) := by
  obtain ⟨k, k2, hk, _, hkf, hk2⟩ := parse_sql_loop_unfold P sf fuel exp stmts
  rw [hk, pmBind_ok _ _ _ _ _ (consume_token_neg P Token.SemiColon i h1),
    hkf, pmBind_ok _ _ _ _ _ (peek_token_eq P i), hk2]
  simp [h2, pmPure]

/-- When a delimiter is expected and the next token is neither `;` nor EOF,
the statement loop fails with the end-of-statement message. -/
theorem loop_expecting_delimiter_err (P : Parser) (sf fuel : Nat)
    (stmts : List Statement) (i : Nat)
    (h1 : ¬ peek_at P i = Token.SemiColon) (h2 : ¬ peek_at P i = Token.EOF) :
    parse_sql_loop P sf (fuel + 1) true stmts i =
      (Except.error (PErr.ParserError
        ("Expected end of statement, found: " ++ (peek_at P i).render)), i) := by
  obtain ⟨k, k2, hk, _, hkf, hk2⟩ := parse_sql_loop_unfold P sf fuel true stmts
  rw [hk, pmBind_ok _ _ _ _ _ (consume_token_neg P Token.SemiColon i h1),
    hkf, pmBind_ok _ _ _ _ _ (peek_token_eq P i), hk2]
  simp only [h2, if_false, if_neg h2, if_true]
  rw [pmBind_ok _ _ _ _ _ (peek_token_eq P i)]
  rfl

/-- Whatever the statement loop returns extends the already-collected list:
parsed statements are appended in input order. -/
theorem loop_appends_in_order (P : Parser) (sf : Nat) :
    ∀ (fuel : Nat) (exp : Bool) (stmts : List Statement) (i : Nat)
      (l : List Statement) (j : Nat),
      parse_sql_loop P sf fuel exp stmts i = (Except.ok l, j) →
        ∃ t, l = stmts ++ t := by
  intro fuel
  induction fuel with
  | zero =>
    intro exp stmts i l j h
    have : ((Except.error (PErr.ParserError "recursion fuel exhausted") :
        Except PErr (List Statement)), i) = (Except.ok l, j) := h
    simp at this
  | succ fuel ih =>
    intro exp stmts i l j h
    obtain ⟨k, k2, hk, hkt, hkf, hk2⟩ := parse_sql_loop_unfold P sf fuel exp stmts
    rw [hk] at h
    rcases consume_token_total P Token.SemiColon i with hc | hc
    · rw [pmBind_ok _ _ _ _ _ hc] at h
      rw [congrFun hkt _] at h
      exact ih false stmts _ l j h
    · rw [pmBind_ok _ _ _ _ _ hc, hkf, pmBind_ok _ _ _ _ _ (peek_token_eq P i), hk2] at h
      beta_reduce at h
      by_cases he : peek_at P i = Token.EOF
      · rw [if_pos he] at h
        have : (Except.ok stmts, i) = ((Except.ok l, j) : Except PErr (List Statement) × Nat) := h
        exact ⟨[], by simpa using (by
          have := congrArg Prod.fst this
          simpa using this.symm)⟩
      · rw [if_neg he] at h
        cases exp with
        | true =>
          simp only [if_true] at h
          rw [pmBind_ok _ _ _ _ _ (peek_token_eq P i)] at h
          have : (Except.error (PErr.ParserError
              ("Expected end of statement, found: " ++ (peek_at P i).render)), i) =
              ((Except.ok l, j) : Except PErr (List Statement) × Nat) := h
          simp at this
        | false =>
          simp only [Bool.false_eq_true, if_false] at h
          rcases hps : parse_statement P sf i with ⟨res, j2⟩
          cases res with
          | ok a =>
            rw [pmBind_ok _ _ _ _ _ hps] at h
            obtain ⟨t, ht⟩ := ih true (stmts ++ [a]) j2 l j h
            exact ⟨a :: t, by simpa using ht⟩
          | error e =>
            have heq : pmBind (parse_statement P sf)
                (fun s => parse_sql_loop P sf fuel true (stmts ++ [s])) i =
                (Except.error e, j2) := by unfold pmBind; rw [hps]
            rw [heq] at h
            have h2 : (Except.error e : Except PErr (List Statement)) = Except.ok l :=
              congrArg Prod.fst h
            simp at h2

/-- C4: The statement loop of parse_sql skips `;` tokens, stops at EOF with
the statements collected so far, rejects a missing delimiter with "Expected
end of statement, found: ...", and appends statements in input order; at the
top level, repeated and leading delimiters are tolerated and statements come
back in source order. -/
theorem C4_parse_sql_statement_sequencing :
    (∀ (P : Parser) (sf fuel : Nat) (exp : Bool) (stmts : List Statement) (i : Nat),
      peek_at P i = Token.SemiColon →
        parse_sql_loop P sf (fuel + 1) exp stmts i =
          parse_sql_loop P sf fuel false stmts (next_token_pos P.tokens i).2) ∧
    (∀ (P : Parser) (sf fuel : Nat) (exp : Bool) (stmts : List Statement) (i : Nat),
      ¬ peek_at P i = Token.SemiColon → peek_at P i = Token.EOF →
        parse_sql_loop P sf (fuel + 1) exp stmts i = (Except.ok stmts, i)) ∧
    (∀ (P : Parser) (sf fuel : Nat) (stmts : List Statement) (i : Nat),
      ¬ peek_at P i = Token.SemiColon → ¬ peek_at P i = Token.EOF →
        parse_sql_loop P sf (fuel + 1) true stmts i =
          (Except.error (PErr.ParserError
            ("Expected end of statement, found: " ++ (peek_at P i).render)), i)) ∧
    (∀ (P : Parser) (sf fuel : Nat) (exp : Bool) (stmts : List Statement) (i : Nat)
      (l : List Statement) (j : Nat),
      parse_sql_loop P sf fuel exp stmts i = (Except.ok l, j) → ∃ t, l = stmts ++ t) ∧
    parse_sql mysql_dialect ";;SELECT 1; ; SELECT 2;" =
      Except.ok [Statement.Query (Query.mk []
        (SetExpr.Select (Select.mk none false none
          [SelectItem.UnnamedExpr (Expr.Value (Value.Number "1"))] [] none [] none))
        [] none none false none),
        Statement.Query (Query.mk []
        (SetExpr.Select (Select.mk none false none
          [SelectItem.UnnamedExpr (Expr.Value (Value.Number "2"))] [] none [] none))
        [] none none false none)] ∧
    parse_sql mysql_dialect "SELECT 1 SELECT 2" =
      Except.error (PErr.ParserError "Expected end of statement, found: SELECT") :=
  ⟨loop_semicolon_skip, loop_stops_at_eof, loop_expecting_delimiter_err,
    loop_appends_in_order, rfl, rfl⟩

/-- Witness for C4 at concrete streams: a `;` is skipped, EOF stops the
loop, a missing delimiter fails with the expected message, and a parsed
statement list extends the accumulator. -/
theorem C4_parse_sql_statement_sequencing_witness :
    parse_sql_loop ⟨[Token.SemiColon], DBType.MySql⟩ 5 3 true [] 0 =
      parse_sql_loop ⟨[Token.SemiColon], DBType.MySql⟩ 5 2 false [] 1 ∧
    parse_sql_loop ⟨[], DBType.MySql⟩ 5 3 true [] 0 = (Except.ok [], 0) ∧
    parse_sql_loop ⟨[Token.Number "1"], DBType.MySql⟩ 5 3 true [] 0 =
      (Except.error (PErr.ParserError "Expected end of statement, found: 1"), 0) ∧
    ∃ t, [Statement.Query (Query.mk []
        (SetExpr.Select (Select.mk none false none
          [SelectItem.UnnamedExpr (Expr.Value (Value.Number "1"))] [] none [] none))
        [] none none false none)] = ([] : List Statement) ++ t :=
  ⟨C4_parse_sql_statement_sequencing.1 _ 5 2 true [] 0 rfl,
    C4_parse_sql_statement_sequencing.2.1 _ 5 2 true [] 0 (by decide) rfl,
    C4_parse_sql_statement_sequencing.2.2.1 _ 5 2 [] 0 (by decide) (by decide),
    C4_parse_sql_statement_sequencing.2.2.2.1
      ⟨[Token.Word ⟨"SELECT", none, Keyword.SELECT⟩, Token.Whitespace Whitespace.Space,
        Token.Number "1"], DBType.MySql⟩ 10 3 false [] 0 _ 3 rfl⟩


/-! ## No-panic lemmas: the parser block never reaches a Rust panic

The only `panic!` in the source is the pair of "No infix parser for token"
branches of Parser::parse_infix (src/parser.rs lines 908 and 915), modelled as
the `PErr.Panic` outcome.  The lemmas below prove every leaf parser and, by a
mutual induction over the recursion fuel, every function of the expression and
query parser block free of that outcome; parse_infix itself is proved
panic-free at every cursor whose get_next_precedence value is nonzero, which
is the guard under which parse_subexpr's loop invokes it. -/

set_option maxRecDepth 100000

theorem np_ok (a : α) (j : Nat) :
    ResNoPanic ((Except.ok a, j) : Except PErr α × Nat) :=
  fun _ h => Except.noConfusion h

theorem np_parser_error (s : String) (j : Nat) :
    ResNoPanic ((Except.error (PErr.ParserError s), j) : Except PErr α × Nat) :=
  fun _ h => PErr.noConfusion (Except.error.inj h)

theorem np_tokenizer_error (s : String) (j : Nat) :
    ResNoPanic ((Except.error (PErr.TokenizerError s), j) : Except PErr α × Nat) :=
  fun _ h => PErr.noConfusion (Except.error.inj h)

theorem np_pure (a : α) : NoPanicPM (pmPure a) :=
  fun i => np_ok a i

theorem np_pure' (a : α) : NoPanicPM (pure a : PM α) :=
  fun i => np_ok a i

theorem np_bind {m : PM α} {f : α → PM β}
    (hm : NoPanicPM m) (hf : ∀ a, NoPanicPM (f a)) : NoPanicPM (pmBind m f) := by
  intro i mm h
  unfold pmBind at h
  rcases hmi : m i with ⟨r, j⟩
  rw [hmi] at h
  cases r with
  | ok a => exact hf a j mm h
  | error e =>
    have h' : ((Except.error e, j) : Except PErr β × Nat).1 =
        Except.error (PErr.Panic mm) := h
    have he : e = PErr.Panic mm := Except.error.inj h'
    have hne := hm i mm
    rw [hmi] at hne
    exact hne (by rw [he])

theorem np_bind' {m : PM α} {f : α → PM β}
    (hm : NoPanicPM m) (hf : ∀ a, NoPanicPM (f a)) : NoPanicPM (m >>= f) :=
  np_bind hm hf

theorem np_ite {c : Prop} [Decidable c] {m1 m2 : PM α}
    (h1 : NoPanicPM m1) (h2 : NoPanicPM m2) : NoPanicPM (if c then m1 else m2) := by
  by_cases hc : c
  · rw [if_pos hc]; exact h1
  · rw [if_neg hc]; exact h2

theorem np_throwPE (s : String) : NoPanicPM (throwPE (PErr.ParserError s) : PM α) :=
  fun i => np_parser_error s i

theorem np_parser_err_pm (s : String) : NoPanicPM (parser_err_pm s : PM α) :=
  fun i => np_parser_error s i

theorem np_fuel_err : NoPanicPM (fuel_err : PM α) :=
  fun i => np_parser_error _ i

theorem np_expected (w : String) (t : Token) : NoPanicPM (expected w t : PM α) :=
  fun i => np_parser_error _ i

theorem np_next_token (P : Parser) : NoPanicPM (next_token P) :=
  fun i => np_ok _ _

theorem np_peek_token (P : Parser) : NoPanicPM P.peek_token :=
  fun i => np_ok _ _

theorem np_peek_nth_token (P : Parser) (n : Nat) : NoPanicPM (P.peek_nth_token n) :=
  fun i => np_ok _ _

theorem np_prev_token (P : Parser) : NoPanicPM (prev_token P) :=
  fun i => np_ok _ _

theorem np_get_next_precedence (P : Parser) : NoPanicPM (get_next_precedence P) :=
  fun i => np_ok _ _

theorem np_maybe_parse {f : PM α} (hf : NoPanicPM f) : NoPanicPM (maybe_parse f) := by
  intro i mm h
  unfold maybe_parse at h
  rcases hfi : f i with ⟨r, j⟩
  rw [hfi] at h
  cases r with
  | ok a => exact Except.noConfusion h
  | error e =>
    cases e with
    | Panic m2 =>
      have := hf i m2
      rw [hfi] at this
      exact this rfl
    | ParserError m2 => exact Except.noConfusion h
    | TokenizerError m2 => exact Except.noConfusion h

theorem np_parse_keyword (P : Parser) (k : Keyword) : NoPanicPM (parse_keyword P k) := by
  unfold parse_keyword
  refine np_bind' (np_peek_token P) ?_
  intro t
  cases t <;> try exact np_pure' _
  case Word w =>
    exact np_ite (np_bind' (np_next_token P) (fun _ => np_pure' _)) (np_pure' _)

theorem np_consume_token (P : Parser) (t : Token) : NoPanicPM (consume_token P t) := by
  unfold consume_token
  refine np_bind' (np_peek_token P) ?_
  intro t2
  exact np_ite (np_bind' (np_next_token P) (fun _ => np_pure' _)) (np_pure' _)

theorem np_parse_keywords_loop (P : Parser) (saved : Nat) :
    ∀ (ks : List Keyword), NoPanicPM (parse_keywords_loop P saved ks) := by
  intro ks
  induction ks with
  | nil => exact np_pure' _
  | cons k rest ih =>
    show NoPanicPM (parse_keyword P k >>= fun b =>
      if b then parse_keywords_loop P saved rest else fun _ => (Except.ok false, saved))
    refine np_bind' (np_parse_keyword P k) ?_
    intro b
    exact np_ite ih (fun _ => np_ok _ _)

theorem np_parse_keywords (P : Parser) (ks : List Keyword) :
    NoPanicPM (parse_keywords P ks) :=
  fun i => np_parse_keywords_loop P i ks i

theorem np_parse_one_of_keywords (P : Parser) (ks : List Keyword) :
    NoPanicPM (parse_one_of_keywords P ks) := by
  unfold parse_one_of_keywords
  refine np_bind' (np_peek_token P) ?_
  intro t
  cases t <;> try exact np_pure' _
  case Word w =>
    show NoPanicPM (match ks.find? (fun k => k == w.keyword) with
      | some k => next_token P >>= fun _ => pure (some k)
      | none => pure none)
    cases ks.find? (fun k => k == w.keyword) with
    | none => exact np_pure' _
    | some k => exact np_bind' (np_next_token P) (fun _ => np_pure' _)

theorem np_expect_token (P : Parser) (t : Token) : NoPanicPM (expect_token P t) := by
  unfold expect_token
  refine np_bind' (np_consume_token P t) ?_
  intro b
  exact np_ite (np_pure' _) (np_bind' (np_peek_token P) (fun t2 => np_expected _ _))

theorem np_expect_keyword (P : Parser) (k : Keyword) : NoPanicPM (expect_keyword P k) := by
  unfold expect_keyword
  refine np_bind' (np_parse_keyword P k) ?_
  intro b
  exact np_ite (np_pure' _) (np_bind' (np_peek_token P) (fun t2 => np_expected _ _))

theorem np_expect_keywords (P : Parser) (ks : List Keyword) :
    NoPanicPM (expect_keywords P ks) := by
  induction ks with
  | nil => exact np_pure' _
  | cons k rest ih =>
    show NoPanicPM (expect_keyword P k >>= fun _ => expect_keywords P rest)
    exact np_bind' (np_expect_keyword P k) (fun _ => ih)

theorem np_expect_one_of_keywords (P : Parser) (ks : List Keyword) :
    NoPanicPM (expect_one_of_keywords P ks) := by
  unfold expect_one_of_keywords
  refine np_bind' (np_parse_one_of_keywords P ks) ?_
  intro o
  cases o with
  | some k => exact np_pure' _
  | none => exact np_bind' (np_peek_token P) (fun t2 => np_expected _ _)

theorem np_parse_value (P : Parser) : NoPanicPM (parse_value P) := by
  unfold parse_value
  refine np_bind' (np_next_token P) ?_
  intro t
  cases t <;> try exact np_pure' _
  all_goals try exact np_expected _ _
  case Word w =>
    rcases w with ⟨wv, wq, wk⟩
    cases wk <;> first
      | exact np_pure' _
      | exact np_expected _ _

theorem np_parse_number_value (P : Parser) : NoPanicPM (parse_number_value P) := by
  unfold parse_number_value
  refine np_bind' (np_parse_value P) ?_
  intro v
  cases v <;> try exact np_pure' _
  case Char c =>
    refine np_ite (np_pure' _) ?_
    exact np_bind' (np_prev_token P)
      (fun _ => np_bind' (np_peek_token P) (fun t => np_expected _ _))
  all_goals
    show NoPanicPM (prev_token P >>= fun _ =>
      P.peek_token >>= fun t => (expected "literal number" t : PM Value))
  all_goals exact np_bind' (np_prev_token P) (fun _ => np_bind' (np_peek_token P) (fun t => np_expected _ _))

theorem np_parse_literal_uint (P : Parser) : NoPanicPM (parse_literal_uint P) := by
  unfold parse_literal_uint
  refine np_bind' (np_next_token P) ?_
  intro t
  cases t <;> try exact np_expected _ _
  case Number s =>
    show NoPanicPM (match str_to_nat s with
      | some n => (pure n : PM Nat)
      | none => parser_err_pm ("Could not parse '" ++ s ++ "' as u64: invalid digit"))
    cases str_to_nat s with
    | some n => exact np_pure' _
    | none => exact np_parser_err_pm _

theorem np_parse_literal_string (P : Parser) : NoPanicPM (parse_literal_string P) := by
  unfold parse_literal_string
  refine np_bind' (np_next_token P) ?_
  intro t
  cases t <;> first
    | exact np_pure' _
    | exact np_expected _ _

theorem np_parse_identifier (P : Parser) : NoPanicPM (parse_identifier P) := by
  unfold parse_identifier
  refine np_bind' (np_next_token P) ?_
  intro t
  cases t <;> first
    | exact np_pure' _
    | exact np_expected _ _

theorem np_parse_object_name_loop (P : Parser) :
    ∀ fuel, NoPanicPM (parse_object_name_loop P fuel) := by
  intro fuel
  induction fuel with
  | zero => exact np_fuel_err
  | succ fuel ih =>
    show NoPanicPM (parse_identifier P >>= fun id =>
      consume_token P Token.Period >>= fun b =>
        if b then parse_object_name_loop P fuel >>= fun rest => pure (id :: rest)
        else pure [id])
    refine np_bind' (np_parse_identifier P) ?_
    intro id
    refine np_bind' (np_consume_token P Token.Period) ?_
    intro b
    exact np_ite (np_bind' ih (fun rest => np_pure' _)) (np_pure' _)

theorem np_parse_object_name (P : Parser) (fuel : Nat) :
    NoPanicPM (parse_object_name P fuel) := by
  unfold parse_object_name
  exact np_bind' (np_parse_object_name_loop P fuel) (fun ids => np_pure' _)

theorem np_parse_comma_separated {f : PM α} (P : Parser) (hf : NoPanicPM f) :
    ∀ fuel, NoPanicPM (parse_comma_separated P f fuel) := by
  intro fuel
  induction fuel with
  | zero => exact np_fuel_err
  | succ fuel ih =>
    show NoPanicPM (f >>= fun v =>
      consume_token P Token.Comma >>= fun b =>
        if b then parse_comma_separated P f fuel >>= fun rest => pure (v :: rest)
        else pure [v])
    refine np_bind' hf ?_
    intro v
    refine np_bind' (np_consume_token P Token.Comma) ?_
    intro b
    exact np_ite (np_bind' ih (fun rest => np_pure' _)) (np_pure' _)

theorem np_parse_parenthesized_column_list (P : Parser) (fuel : Nat) (o : IsOptional) :
    NoPanicPM (parse_parenthesized_column_list P fuel o) := by
  unfold parse_parenthesized_column_list
  refine np_bind' (np_consume_token P Token.LParen) ?_
  intro b
  refine np_ite ?_ ?_
  · exact np_bind' (np_parse_comma_separated P (np_parse_identifier P) fuel)
      (fun cols => np_bind' (np_expect_token P Token.RParen) (fun _ => np_pure' _))
  · exact np_ite (c := o = IsOptional.Optional) (np_pure' _)
      (np_bind' (np_peek_token P) (fun t => np_expected _ _))

theorem np_parse_optional_precision (P : Parser) :
    NoPanicPM (parse_optional_precision P) := by
  unfold parse_optional_precision
  refine np_bind' (np_consume_token P Token.LParen) ?_
  intro b
  refine np_ite ?_ (np_pure' _)
  exact np_bind' (np_parse_literal_uint P)
    (fun n => np_bind' (np_expect_token P Token.RParen) (fun _ => np_pure' _))

theorem np_parse_optional_precision_scale (P : Parser) :
    NoPanicPM (parse_optional_precision_scale P) := by
  unfold parse_optional_precision_scale
  refine np_bind' (np_consume_token P Token.LParen) ?_
  intro b
  refine np_ite ?_ (np_pure' _)
  refine np_bind' (np_parse_literal_uint P) ?_
  intro n
  refine np_bind' (np_consume_token P Token.Comma) ?_
  intro b2
  cases b2 with
  | false =>
    exact np_bind' (np_pure' _) (fun y => np_bind' (np_expect_token P Token.RParen) (fun _ => np_pure' _))
  | true =>
    exact np_bind' (np_parse_literal_uint P) (fun s => np_bind' (np_pure' _) (fun y => np_bind' (np_expect_token P Token.RParen) (fun _ => np_pure' _)))

theorem np_next_token_no_ignore_comment (P : Parser) :
    NoPanicPM (next_token_no_ignore_comment P) :=
  fun i => np_ok _ _

theorem np_next_token_no_skip (P : Parser) : NoPanicPM (next_token_no_skip P) :=
  fun i => np_ok _ _

theorem np_parse_all_or_distinct (P : Parser) : NoPanicPM (parse_all_or_distinct P) := by
  unfold parse_all_or_distinct
  refine np_bind' (np_parse_keyword P _) ?_
  intro all
  refine np_bind' (np_parse_keyword P _) ?_
  intro distinct
  exact np_ite (np_parser_err_pm _) (np_pure' _)

theorem np_parse_date_time_field (P : Parser) : NoPanicPM (parse_date_time_field P) := by
  unfold parse_date_time_field
  refine np_bind' (np_next_token P) ?_
  intro t
  cases t <;> try exact np_expected _ _
  case Word w =>
    rcases w with ⟨wv, wq, wk⟩
    cases wk <;> first
      | exact np_pure' _
      | exact np_expected _ _

theorem np_parse_window_frame_units (P : Parser) : NoPanicPM (parse_window_frame_units P) := by
  unfold parse_window_frame_units
  refine np_bind' (np_next_token P) ?_
  intro t
  cases t <;> try exact np_expected _ _
  case Word w =>
    rcases w with ⟨wv, wq, wk⟩
    cases wk <;> first
      | exact np_pure' _
      | exact np_expected _ _

theorem np_parse_window_frame_bound (P : Parser) : NoPanicPM (parse_window_frame_bound P) := by
  unfold parse_window_frame_bound
  refine np_bind' (np_parse_keywords P _) ?_
  intro b
  cases b
  case true => exact np_pure' _
  case false =>
    refine np_bind' (np_parse_keyword P _) ?_
    intro b2
    have hjp : ∀ rows : Option Nat,
        NoPanicPM (parse_keyword P Keyword.PRECEDING >>= fun b3 =>
          if b3 = true then (pure (WindowFrameBound.Preceding rows) : PM WindowFrameBound)
          else parse_keyword P Keyword.FOLLOWING >>= fun b4 =>
            if b4 = true then pure (WindowFrameBound.Following rows)
            else P.peek_token >>= fun l => expected "PRECEDING or FOLLOWING" l) := by
      intro rows
      refine np_bind' (np_parse_keyword P _) ?_
      intro b3
      refine np_ite (np_pure' _) ?_
      refine np_bind' (np_parse_keyword P _) ?_
      intro b4
      exact np_ite (np_pure' _) (np_bind' (np_peek_token P) (fun l => np_expected _ _))
    cases b2
    case true => exact np_bind' (np_pure' _) (fun y => hjp y)
    case false =>
      exact np_bind' (np_parse_literal_uint P) (fun n => np_bind' (np_pure' _) (fun y => hjp y))

theorem np_parse_window_frame (P : Parser) : NoPanicPM (parse_window_frame P) := by
  unfold parse_window_frame
  refine np_bind' (np_parse_window_frame_units P) ?_
  intro units
  refine np_bind' (np_parse_keyword P _) ?_
  intro b
  cases b
  case true =>
    exact np_bind' (np_parse_window_frame_bound P) (fun s => np_bind' (np_expect_keyword P _) (fun _ => np_bind' (np_parse_window_frame_bound P) (fun e => np_pure' _)))
  case false =>
    exact np_bind' (np_parse_window_frame_bound P) (fun s => np_pure' _)

theorem np_parse_comment_for_select (P : Parser) : NoPanicPM (parse_comment_for_select P) := by
  unfold parse_comment_for_select
  refine np_bind' (np_next_token_no_ignore_comment P) ?_
  intro t
  cases t <;> try exact np_bind' (np_prev_token P) (fun _ => np_pure' _)
  case Whitespace w =>
    cases w <;> first
      | exact np_pure' _
      | exact np_bind' (np_prev_token P) (fun _ => np_pure' _)

theorem np_parse_offset (P : Parser) : NoPanicPM (parse_offset P) := by
  unfold parse_offset
  refine np_bind' (np_parse_number_value P) ?_
  intro v
  refine np_bind' (np_parse_keyword P _) ?_
  intro b
  cases b
  case true => exact np_bind' (np_pure' _) (fun y => np_pure' _)
  case false =>
    refine np_bind' (np_parse_keyword P _) ?_
    intro b2
    cases b2
    case true => exact np_bind' (np_pure' _) (fun y => np_pure' _)
    case false => exact np_bind' (np_pure' _) (fun y => np_pure' _)

theorem np_parse_limit (P : Parser) : NoPanicPM (parse_limit P) := by
  unfold parse_limit
  refine np_bind' (np_parse_keyword P _) ?_
  intro b
  cases b
  case true => exact np_pure' _
  case false => exact np_bind' (np_parse_number_value P) (fun v => np_pure' _)

theorem np_parse_mysql_limit (P : Parser) : NoPanicPM (parse_mysql_limit P) := by
  unfold parse_mysql_limit
  refine np_bind' (np_parse_keyword P _) ?_
  intro b
  cases b
  case true => exact np_pure' _
  case false =>
    refine np_bind' (np_parse_number_value P) ?_
    intro v
    refine np_bind' (np_parse_keyword P _) ?_
    intro b2
    cases b2
    case true => exact np_bind' (np_parse_offset P) (fun o => np_pure' _)
    case false =>
      refine np_bind' (np_peek_token P) ?_
      intro t
      refine np_ite ?_ (np_pure' _)
      exact np_bind' (np_next_token P) (fun _ => np_bind' (np_parse_offset P) (fun o => np_pure' _))

theorem np_parse_fetch (P : Parser) : NoPanicPM (parse_fetch P) := by
  unfold parse_fetch
  refine np_bind' (np_expect_one_of_keywords P _) ?_
  intro k
  refine np_bind' (np_parse_one_of_keywords P _) ?_
  intro o
  have hjp : ∀ (q : Option Expr) (p : Bool),
      NoPanicPM (parse_keyword P Keyword.ONLY >>= fun b =>
        if b = true then (pure false : PM Bool) >>= fun y => (pure (Fetch.mk y p q) : PM Fetch)
        else parse_keywords P [Keyword.WITH, Keyword.TIES] >>= fun b2 =>
          if b2 = true then (pure true : PM Bool) >>= fun y => pure (Fetch.mk y p q)
          else P.peek_token >>= fun l =>
            (expected "one of ONLY or WITH TIES" l : PM Bool) >>= fun y =>
              pure (Fetch.mk y p q)) := by
    intro q p
    refine np_bind' (np_parse_keyword P _) ?_
    intro b
    refine np_ite (np_bind' (np_pure' _) (fun y => np_pure' _)) ?_
    refine np_bind' (np_parse_keywords P _) ?_
    intro b2
    refine np_ite (np_bind' (np_pure' _) (fun y => np_pure' _)) ?_
    exact np_bind' (np_peek_token P) (fun l => np_bind' (np_expected _ _) (fun y => np_pure' _))
  cases o
  case none =>
    exact np_bind' (np_parse_value P) (fun v => np_bind' (np_parse_keyword P _) (fun percent => np_bind' (np_expect_one_of_keywords P _) (fun d2 => np_bind' (np_pure' _) (fun y => hjp y.1 y.2))))
  case some kk =>
    exact np_bind' (np_pure' _) (fun y => hjp y.1 y.2)

theorem np_parse_lock_type (P : Parser) : NoPanicPM (parse_lock_type P) := by
  unfold parse_lock_type
  refine np_bind' (np_peek_token P) ?_
  intro t
  have hjp : ∀ y : Option LOCKType,
      NoPanicPM (match y with
        | some t2 => (pure t2 : PM LOCKType)
        | none => P.peek_token >>= fun l2 =>
            expected "LOCK tables type only support read and write" l2) := by
    intro y
    cases y
    case some t2 => exact np_pure' _
    case none => exact np_bind' (np_peek_token P) (fun l2 => np_expected _ _)
  cases t <;> try exact np_bind' (np_pure' _) (fun y => hjp y)
  case Word w =>
    refine np_bind' (np_parse_keyword P _) ?_
    intro b
    cases b
    case true => exact np_bind' (np_pure' _) (fun y => hjp y)
    case false =>
      refine np_bind' (np_parse_keyword P _) ?_
      intro b2
      cases b2
      case true => exact np_bind' (np_pure' _) (fun y => hjp y)
      case false => exact np_bind' (np_pure' _) (fun y => hjp y)

theorem np_parse_force_for_select (P : Parser) : NoPanicPM (parse_force_for_select P) := by
  unfold parse_force_for_select
  refine np_bind' (np_parse_keyword P _) ?_
  intro b
  cases b
  case true => exact np_bind' (np_expect_token P _) (fun _ => np_bind' (np_parse_identifier P) (fun f => np_bind' (np_expect_token P _) (fun _ => np_pure' _)))
  case false => exact np_bind' (np_peek_token P) (fun t => np_expected _ _)

theorem np_parse_optional_alias (P : Parser) (ks : List Keyword) :
    NoPanicPM (parse_optional_alias P ks) := by
  unfold parse_optional_alias
  refine np_bind' (np_parse_keyword P _) ?_
  intro after_as
  refine np_bind' (np_next_token P) ?_
  intro t
  cases t <;> try exact np_ite (np_expected _ _) (np_bind' (np_prev_token P) (fun _ => np_pure' _))
  case Word w =>
    exact np_ite (np_pure' _) (np_bind' (np_prev_token P) (fun _ => np_pure' _))
  case SingleQuotedString s => exact np_pure' _

theorem np_parse_optional_table_alias (P : Parser) (fuel : Nat) (ks : List Keyword) :
    NoPanicPM (parse_optional_table_alias P fuel ks) := by
  unfold parse_optional_table_alias
  refine np_bind' (np_parse_optional_alias P ks) ?_
  intro o
  cases o
  case some name => exact np_bind' (np_parse_parenthesized_column_list P fuel _) (fun cols => np_pure' _)
  case none => exact np_pure' _

theorem np_parse_literal_interval (P : Parser) : NoPanicPM (parse_literal_interval P) := by
  unfold parse_literal_interval
  refine np_bind' (np_parse_literal_string P) ?_
  intro value
  refine np_bind' (np_peek_token P) ?_
  intro t
  have hjpA : ∀ lf : Option DateTimeField,
      NoPanicPM (
        if lf = some DateTimeField.Second then
          parse_optional_precision_scale P >>= fun d =>
            match d with
            | (lp, fp) =>
              (pure (lp, (none : Option DateTimeField), fp) :
                  PM (Option Nat × Option DateTimeField × Option Nat)) >>= fun y =>
                pure (Expr.Value (Value.Interval value lf y.1 y.2.1 y.2.2))
        else
          parse_optional_precision P >>= fun lp =>
          parse_keyword P Keyword.TO >>= fun b =>
          if b = true then
            parse_date_time_field P >>= fun lastf =>
            if lastf = DateTimeField.Second then
              parse_optional_precision P >>= fun y2 =>
                (pure (lp, some lastf, y2) :
                    PM (Option Nat × Option DateTimeField × Option Nat)) >>= fun y =>
                  pure (Expr.Value (Value.Interval value lf y.1 y.2.1 y.2.2))
            else
              (pure (none : Option Nat) : PM (Option Nat)) >>= fun y2 =>
                (pure (lp, some lastf, y2) :
                    PM (Option Nat × Option DateTimeField × Option Nat)) >>= fun y =>
                  pure (Expr.Value (Value.Interval value lf y.1 y.2.1 y.2.2))
          else
            (pure (lp, (none : Option DateTimeField), (none : Option Nat)) :
                PM (Option Nat × Option DateTimeField × Option Nat)) >>= fun y =>
              pure (Expr.Value (Value.Interval value lf y.1 y.2.1 y.2.2))) := by
    intro lf
    refine np_ite ?_ ?_
    · exact np_bind' (np_parse_optional_precision_scale P)
        (fun d => np_bind' (np_pure' _) (fun y => np_pure' _))
    · refine np_bind' (np_parse_optional_precision P) ?_
      intro lp
      refine np_bind' (np_parse_keyword P _) ?_
      intro b
      refine np_ite ?_ (np_bind' (np_pure' _) (fun y => np_pure' _))
      refine np_bind' (np_parse_date_time_field P) ?_
      intro lastf
      refine np_ite ?_ ?_
      · exact np_bind' (np_parse_optional_precision P)
          (fun y2 => np_bind' (np_pure' _) (fun y => np_pure' _))
      · exact np_bind' (np_pure' _) (fun y2 => np_bind' (np_pure' _) (fun y => np_pure' _))
  cases t <;> try exact np_bind' (np_pure' _) (fun y => hjpA y)
  case Word kw =>
    refine np_ite ?_ (np_bind' (np_pure' _) (fun y => hjpA y))
    exact np_bind' (np_parse_date_time_field P)
      (fun fld => np_bind' (np_pure' _) (fun y => hjpA y))

set_option maxHeartbeats 4000000 in
theorem np_parse_data_type (P : Parser) (fuel : Nat) : NoPanicPM (parse_data_type P fuel) := by
  unfold parse_data_type
  refine np_bind' (np_next_token P) ?_
  intro t
  cases t <;> try exact np_expected _ _
  case Word w =>
    rcases w with ⟨wv, wq, wk⟩
    cases wk <;> first
      | exact np_pure' _
      | exact np_bind' (np_prev_token P) (fun _ => np_bind' (np_parse_object_name P fuel) (fun tn => np_pure' _))
      | exact np_bind' (np_parse_optional_precision P) (fun p => np_pure' _)
      | exact np_bind' (np_parse_keyword P Keyword.PRECISION) (fun b => np_pure' _)
      | exact np_bind' (np_parse_optional_precision_scale P) (fun d => np_pure' _)
      | exact np_bind' (np_parse_keyword P Keyword.VARYING) (fun b => np_ite (np_bind' (np_parse_optional_precision P) (fun p => np_pure' _)) (np_bind' (np_parse_optional_precision P) (fun p => np_pure' _)))
      | exact np_bind' (np_parse_keyword P Keyword.WITH) (fun b => np_ite (np_bind' (np_expect_keywords P _) (fun y => np_pure' _)) (np_bind' (np_parse_keyword P Keyword.WITHOUT) (fun b2 => np_ite (np_bind' (np_expect_keywords P _) (fun y => np_pure' _)) (np_bind' (np_pure' _) (fun y => np_pure' _)))))
      | exact np_bind' (np_consume_token P Token.LBracket) (fun b => np_ite (np_bind' (np_expect_token P Token.RBracket) (fun _ => np_pure' _)) (np_pure' _))

theorem next_first_eq_peek : ∀ l : List Token,
    (next_token_suffix l).1 = peek_nth_suffix l 0 := by
  intro l
  induction l with
  | nil => rfl
  | cons t rest ih =>
    cases t with
    | Whitespace w => exact ih
    | _ => rfl

theorem np_bind_pt {m : PM α} {f : α → PM β} (i : Nat)
    (hm : ResNoPanic (m i)) (hf : ∀ a, NoPanicPM (f a)) :
    ResNoPanic (pmBind m f i) := by
  intro mm h
  unfold pmBind at h
  rcases hmi : m i with ⟨r, j⟩
  rw [hmi] at h
  cases r with
  | ok a => exact hf a j mm h
  | error e =>
    have h2 : e = PErr.Panic mm :=
      Except.error.inj (h : ((Except.error e, j) : Except PErr β × Nat).1 = _)
    have h3 := hm mm
    rw [hmi] at h3
    exact h3 (by rw [h2])

theorem np_bind_pt2 {m : PM α} {f : α → PM β} (i : Nat)
    (hm : ResNoPanic (m i))
    (hf : ∀ a j, m i = (Except.ok a, j) → ResNoPanic (f a j)) :
    ResNoPanic (pmBind m f i) := by
  intro mm h
  unfold pmBind at h
  rcases hmi : m i with ⟨r, j⟩
  rw [hmi] at h
  cases r with
  | ok a => exact hf a j hmi mm h
  | error e =>
    have h2 : e = PErr.Panic mm :=
      Except.error.inj (h : ((Except.error e, j) : Except PErr β × Nat).1 = _)
    have h3 := hm mm
    rw [hmi] at h3
    exact h3 (by rw [h2])

theorem np_parse_pg_cast (P : Parser) : ∀ fuel e, NoPanicPM (parse_pg_cast P fuel e) := by
  intro fuel e
  cases fuel with
  | zero => exact np_fuel_err
  | succ fuel => exact np_bind' (np_parse_data_type P fuel) (fun dt => np_pure' _)

theorem np_parser_block (P : Parser) : ∀ fuel,
    (NoPanicPM (parse_expr P fuel)) ∧
    (∀ prec, NoPanicPM (parse_subexpr P fuel prec)) ∧
    (∀ prec e, NoPanicPM (parse_subexpr_loop P fuel prec e)) ∧
    (NoPanicPM (parse_prefix_op P fuel)) ∧
    (∀ w, NoPanicPM (parse_prefix_word_compound P fuel w)) ∧
    (∀ ids, NoPanicPM (parse_prefix_compound P fuel ids)) ∧
    (∀ nm, NoPanicPM (parse_function P fuel nm)) ∧
    (NoPanicPM (parse_optional_args P fuel)) ∧
    (NoPanicPM (parse_case_expr P fuel)) ∧
    (∀ cs rs, NoPanicPM (parse_case_loop P fuel cs rs)) ∧
    (NoPanicPM (parse_cast_expr P fuel)) ∧
    (NoPanicPM (parse_exists_expr P fuel)) ∧
    (NoPanicPM (parse_extract_expr P fuel)) ∧
    (NoPanicPM (parse_listagg_expr P fuel)) ∧
    (∀ e prec i, 0 < get_next_precedence_val P i →
        ResNoPanic (parse_infix_op P fuel e prec i)) ∧
    (∀ e, NoPanicPM (parse_infix_negated P fuel e)) ∧
    (∀ e b, NoPanicPM (parse_in P fuel e b)) ∧
    (∀ e b, NoPanicPM (parse_between P fuel e b)) ∧
    (NoPanicPM (parse_order_by_expr P fuel)) ∧
    (NoPanicPM (parse_top P fuel)) ∧
    (NoPanicPM (parse_select_item P fuel)) ∧
    (NoPanicPM (parse_select P fuel)) ∧
    (NoPanicPM (parse_table_and_joins P fuel)) ∧
    (∀ js, NoPanicPM (parse_taj_loop P fuel js)) ∧
    (NoPanicPM (parse_table_factor P fuel)) ∧
    (∀ lat, NoPanicPM (parse_derived_table_factor P fuel lat)) ∧
    (∀ b, NoPanicPM (parse_join_constraint P fuel b)) ∧
    (NoPanicPM (parse_query P fuel)) ∧
    (NoPanicPM (parse_cte P fuel)) ∧
    (∀ prec, NoPanicPM (parse_query_body P fuel prec)) ∧
    (∀ prec e, NoPanicPM (parse_query_body_loop P fuel prec e)) ∧
    (NoPanicPM (parse_comma_separated_exprs P fuel)) ∧
    (NoPanicPM (parse_comma_separated_order_by P fuel)) ∧
    (NoPanicPM (parse_comma_separated_select_items P fuel)) ∧
    (NoPanicPM (parse_comma_separated_taj P fuel)) ∧
    (NoPanicPM (parse_comma_separated_ctes P fuel)) ∧
    (NoPanicPM (parse_comma_separated_rows P fuel)) ∧
    (∀ lat, NoPanicPM (maybe_parse_derived_table_factor P fuel lat)) ∧
    (NoPanicPM (parse_values P fuel)) := by
  intro fuel
  induction fuel with
  | zero =>
    exact ⟨np_fuel_err, fun _ => np_fuel_err, fun _ _ => np_fuel_err, np_fuel_err,
      fun _ => np_fuel_err, fun _ => np_fuel_err, fun _ => np_fuel_err, np_fuel_err,
      np_fuel_err, fun _ _ => np_fuel_err, np_fuel_err, np_fuel_err, np_fuel_err,
      np_fuel_err, fun _ _ i _ => np_fuel_err i, fun _ => np_fuel_err,
      fun _ _ => np_fuel_err, fun _ _ => np_fuel_err, np_fuel_err, np_fuel_err,
      np_fuel_err, np_fuel_err, np_fuel_err, fun _ => np_fuel_err, np_fuel_err,
      fun _ => np_fuel_err, fun _ => np_fuel_err, np_fuel_err, np_fuel_err,
      fun _ => np_fuel_err, fun _ _ => np_fuel_err, np_fuel_err, np_fuel_err,
      np_fuel_err, np_fuel_err, np_fuel_err, np_fuel_err,
      fun _ i => np_ok _ i, np_fuel_err⟩
  | succ fuel ih =>
    obtain ⟨ihexpr, ihsub, ihloop, ihpre, ihpwc, ihpc, ihfn, ihoa, ihcase, ihcl, ihcast,
      ihexi, ihext, ihla, ihinf, ihneg, ihin, ihbet, ihobe, ihtop, ihsi, ihsel, ihtaj,
      ihtajl, ihtf, ihdtf, ihjc, ihq, ihcte, ihqb, ihqbl, ihcse, ihcob, ihcsi, ihctj,
      ihcct, ihcrows, ihmdtf, ihv⟩ := ih
    refine ⟨?_, ?_, ?_, ?_, ?_, ?_, ?_, ?_, ?_, ?_, ?_, ?_, ?_, ?_, ?_, ?_, ?_, ?_, ?_,
      ?_, ?_, ?_, ?_, ?_, ?_, ?_, ?_, ?_, ?_, ?_, ?_, ?_, ?_, ?_, ?_, ?_, ?_, ?_, ?_⟩
    -- 1 parse_expr
    · exact ihsub 0
    -- 2 parse_subexpr
    · intro prec
      exact np_bind' ihpre (fun e => ihloop prec e)
    -- 3 parse_subexpr_loop
    · intro prec e i
      by_cases hc : prec ≥ get_next_precedence_val P i
      · show ResNoPanic ((if prec ≥ get_next_precedence_val P i then (pure e : PM Expr)
          else parse_infix_op P fuel e (get_next_precedence_val P i) >>= fun e2 =>
            parse_subexpr_loop P fuel prec e2) i)
        rw [if_pos hc]
        exact np_ok e i
      · show ResNoPanic ((if prec ≥ get_next_precedence_val P i then (pure e : PM Expr)
          else parse_infix_op P fuel e (get_next_precedence_val P i) >>= fun e2 =>
            parse_subexpr_loop P fuel prec e2) i)
        rw [if_neg hc]
        exact np_bind_pt i (ihinf e (get_next_precedence_val P i) i (by omega))
          (fun e2 => ihloop prec e2)
    -- 4 parse_prefix_op
    · refine np_bind' (np_maybe_parse ?_) ?_
      · refine np_bind' (np_parse_data_type P fuel) ?_
        intro dt
        intro i mm
        split
        · exact np_parse_literal_interval P i mm
        · exact np_parser_err_pm _ i mm
        · exact np_bind' (np_parse_literal_string P) (fun v => np_pure' _) i mm
      · intro mv
        cases mv
        case none =>
          refine np_bind' ?_ ?_
          · refine np_bind' (np_next_token P) ?_
            intro t
            intro i mm
            split
            · rename_i w
              generalize w.keyword = wk2
              split
              · exact np_bind' (np_prev_token P) (fun _ => np_bind' (np_parse_value P) (fun v => np_pure' _)) i mm
              · exact np_bind' (np_prev_token P) (fun _ => np_bind' (np_parse_value P) (fun v => np_pure' _)) i mm
              · exact np_bind' (np_prev_token P) (fun _ => np_bind' (np_parse_value P) (fun v => np_pure' _)) i mm
              · exact ihcase i mm
              · exact ihcast i mm
              · exact ihexi i mm
              · exact ihext i mm
              · exact np_parse_literal_interval P i mm
              · exact ihla i mm
              · exact np_bind' (ihsub 15) (fun e2 => np_pure' _) i mm
              · exact np_bind' (np_peek_token P) (fun t2 => by
                  intro i2 mm2
                  split
                  · exact ihpwc _ i2 mm2
                  · exact ihpwc _ i2 mm2
                  · exact np_pure' _ i2 mm2) i mm
            · exact np_pure' _ i mm
            · exact np_bind' (ihsub 30) (fun e2 => np_pure' _) i mm
            · exact np_bind' (ihsub 30) (fun e2 => np_pure' _) i mm
            · exact np_bind' (np_prev_token P) (fun _ => np_bind' (np_parse_value P) (fun v => np_pure' _)) i mm
            · exact np_bind' (np_prev_token P) (fun _ => np_bind' (np_parse_value P) (fun v => np_pure' _)) i mm
            · exact np_bind' (np_prev_token P) (fun _ => np_bind' (np_parse_value P) (fun v => np_pure' _)) i mm
            · exact np_bind' (np_prev_token P) (fun _ => np_bind' (np_parse_value P) (fun v => np_pure' _)) i mm
            · exact np_bind' (np_prev_token P) (fun _ => np_bind' (np_parse_value P) (fun v => np_pure' _)) i mm
            · exact np_bind' (np_prev_token P) (fun _ => np_bind' (np_parse_value P) (fun v => np_pure' _)) i mm
            · exact np_bind' (np_bind' (np_parse_keyword P _) (fun b =>
                np_ite (c := b = true)
                (np_bind' (np_prev_token P) (fun _ => np_bind' ihq (fun q => np_pure' _)))
                (np_bind' (np_parse_keyword P _) (fun b2 => np_ite (c := b2 = true)
                  (np_bind' (np_prev_token P) (fun _ => np_bind' ihq (fun q => np_pure' _)))
                  (np_bind' ihexpr (fun inner => np_pure' _))))))
                (fun e2 => np_bind' (np_expect_token P _) (fun _ => np_pure' _)) i mm
            · exact np_bind' ihexpr (fun e2 => np_pure' _) i mm
            · exact np_expected _ _ i mm
          · intro expr_part
            intro i mm
            generalize P.dialect_type = d
            split
            · exact np_pure' _ i mm
            · exact np_bind' (np_parse_keyword P _) (fun b => np_ite
                (np_bind' (np_parse_object_name P fuel) (fun cn => np_pure' _))
                (np_pure' _)) i mm
        case some v => exact np_pure' _
    -- 5 parse_prefix_word_compound
    · intro w
      refine np_bind' (ihpc _) ?_
      intro d
      obtain ⟨ids, ewc⟩ := d
      cases ewc
      case true => exact np_pure' _
      case false =>
        exact np_bind' (np_consume_token P _) (fun b => np_ite
          (np_bind' (np_prev_token P) (fun _ => ihfn _)) (np_pure' _))
    -- 6 parse_prefix_compound
    · intro ids
      refine np_bind' (np_consume_token P _) ?_
      intro b
      cases b
      case false => exact np_pure' _
      case true =>
        refine np_bind' (np_next_token P) ?_
        intro t
        intro i mm
        split
        · exact ihpc _ i mm
        · exact np_pure' _ i mm
        · exact np_expected _ _ i mm
    -- 7 parse_function
    · intro nm
      refine np_bind' (np_expect_token P _) ?_
      intro u1
      refine np_bind' (np_parse_all_or_distinct P) ?_
      intro dis
      refine np_bind' ihoa ?_
      intro args
      refine np_bind' (np_parse_keyword P _) ?_
      intro b
      refine np_bind' (np_ite ?_ (np_pure' _)) ?_
      · refine np_bind' (np_expect_token P _) ?_
        intro u2
        refine np_bind' (np_parse_keywords P _) ?_
        intro b2
        refine np_bind' (np_ite ihcse (np_pure' _)) ?_
        intro partition_by
        refine np_bind' (np_parse_keywords P _) ?_
        intro b3
        refine np_bind' (np_ite ihcob (np_pure' _)) ?_
        intro order_by
        refine np_bind' (np_consume_token P _) ?_
        intro b4
        refine np_bind' (np_ite (np_pure' _) (np_bind' (np_parse_window_frame P)
          (fun wf => np_bind' (np_expect_token P _) (fun _ => np_pure' _)))) ?_
        intro window_frame
        exact np_pure' _
      · intro over
        exact np_pure' _
    -- 8 parse_optional_args
    · refine np_bind' (np_consume_token P _) ?_
      intro b
      cases b
      case true => exact np_pure' _
      case false =>
        exact np_bind' ihcse (fun args => np_bind' (np_expect_token P _)
          (fun _ => np_pure' _))
    -- 9 parse_case_expr
    · refine np_bind' (np_parse_keyword P _) ?_
      intro b
      refine np_bind' (np_ite (np_pure' _) (np_bind' ihexpr (fun e =>
        np_bind' (np_expect_keyword P _) (fun _ => np_pure' _)))) ?_
      intro operand
      refine np_bind' (ihcl [] []) ?_
      intro d
      refine np_bind' (np_parse_keyword P _) ?_
      intro b2
      refine np_bind' (np_ite (np_bind' ihexpr (fun e => np_pure' _)) (np_pure' _)) ?_
      intro els
      exact np_bind' (np_expect_keyword P _) (fun _ => np_pure' _)
    -- 10 parse_case_loop
    · intro cs rs
      refine np_bind' ihexpr ?_
      intro c
      refine np_bind' (np_expect_keyword P _) ?_
      intro u1
      refine np_bind' ihexpr ?_
      intro r
      refine np_bind' (np_parse_keyword P _) ?_
      intro b
      exact np_ite (ihcl _ _) (np_pure' _)
    -- 11 parse_cast_expr
    · exact np_bind' (np_expect_token P _) (fun _ => np_bind' ihexpr (fun e =>
        np_bind' (np_expect_keyword P _) (fun _ => np_bind' (np_parse_data_type P fuel)
          (fun dt => np_bind' (np_expect_token P _) (fun _ => np_pure' _)))))
    -- 12 parse_exists_expr
    · exact np_bind' (np_expect_token P _) (fun _ => np_bind' ihq (fun q =>
        np_bind' (np_expect_token P _) (fun _ => np_pure' _)))
    -- 13 parse_extract_expr
    · exact np_bind' (np_expect_token P _) (fun _ => np_bind' (np_parse_date_time_field P)
        (fun fld => np_bind' (np_expect_keyword P _) (fun _ => np_bind' ihexpr (fun e =>
          np_bind' (np_expect_token P _) (fun _ => np_pure' _)))))
    -- 14 parse_listagg_expr
    · refine np_bind' (np_expect_token P _) ?_
      intro u1
      refine np_bind' (np_parse_all_or_distinct P) ?_
      intro dis
      refine np_bind' ihexpr ?_
      intro e
      refine np_bind' (np_consume_token P _) ?_
      intro bc
      refine np_bind' (np_ite (np_bind' ihexpr (fun s => np_pure' _)) (np_pure' _)) ?_
      intro sep
      refine np_bind' (np_parse_keywords P _) ?_
      intro b1
      refine np_bind' (np_ite ?_ (np_pure' _)) ?_
      · refine np_bind' (np_parse_keyword P _) ?_
        intro b2
        refine np_ite (np_pure' _) ?_
        refine np_bind' (np_expect_keyword P _) ?_
        intro u2
        refine np_bind' (np_peek_token P) ?_
        intro t
        refine np_bind' ?_ ?_
        · intro i mm
          split
          · exact np_ite (np_pure' _) (np_expected _ _) i mm
          · exact np_bind' ihexpr (fun fe => np_pure' _) i mm
          · exact np_bind' ihexpr (fun fe => np_pure' _) i mm
          · exact np_bind' ihexpr (fun fe => np_pure' _) i mm
          · exact np_expected _ _ i mm
        · intro filler
          refine np_bind' (np_parse_keyword P _) ?_
          intro wc
          cases wc
          case true =>
            exact np_bind' (np_pure' _) (fun y => np_bind' (np_expect_keyword P _)
              (fun _ => np_pure' _))
          case false =>
            refine np_bind' (np_parse_keyword P _) ?_
            intro b3
            refine np_ite ?_ ?_
            · exact np_bind' (np_pure' _) (fun y => np_bind' (np_expect_keyword P _)
                (fun _ => np_pure' _))
            · refine np_bind' (np_peek_token P) ?_
              intro t2
              exact np_bind' (np_expected _ _) (fun y => np_bind' (np_expect_keyword P _)
                (fun _ => np_pure' _))
      · intro ov
        refine np_bind' (np_expect_token P _) ?_
        intro u3
        refine np_bind' (np_parse_keywords P _) ?_
        intro b4
        refine np_bind' (np_ite (np_bind' (np_expect_token P _) (fun _ =>
          np_bind' (np_expect_keywords P _) (fun _ => np_bind' ihcob (fun obe =>
            np_bind' (np_expect_token P _) (fun _ => np_pure' _)))))
          (np_pure' _)) ?_
        intro wg
        exact np_pure' _
    -- 15 parse_infix_op (guarded)
    · intro e prec i hg
      refine np_bind_pt2 i (fun mm h => Except.noConfusion h) ?_
      intro tok j hok
      have h3 : (next_token_suffix (P.tokens.drop i)).1 = tok :=
        Except.ok.inj (show Except.ok ((next_token_suffix (P.tokens.drop i)).1) =
          Except.ok tok from congrArg Prod.fst hok)
      have h4 : peek_nth_from P.tokens i 0 = tok := by
        show peek_nth_suffix (P.tokens.drop i) 0 = tok
        rw [← next_first_eq_peek]
        exact h3
      have hg2 : 0 < get_next_precedence_val P i := hg
      unfold get_next_precedence_val at hg2
      rw [h4] at hg2
      cases tok
      all_goals try exact absurd hg2 (Nat.lt_irrefl 0)
      all_goals try exact (np_bind' (ihsub prec) (fun r => np_pure' _)) j
      all_goals try exact (np_parse_pg_cast P fuel e) j
      case Word w =>
        rcases w with ⟨wv, wq, wk⟩
        by_cases h5 : wk = Keyword.OR
        · subst h5; exact (np_bind' (ihsub prec) (fun r => np_pure' _)) j
        by_cases h6 : wk = Keyword.AND
        · subst h6; exact (np_bind' (ihsub prec) (fun r => np_pure' _)) j
        by_cases h7 : wk = Keyword.LIKE
        · subst h7; exact (np_bind' (ihsub prec) (fun r => np_pure' _)) j
        by_cases h8 : wk = Keyword.NOT
        · subst h8
          exact (np_bind' (np_bind' (np_parse_keyword P _) (fun b =>
            np_ite (c := b = true) (np_pure' _) (np_pure' _))) (fun rbo => by
              rcases rbo with _ | op
              · exact ihneg e
              · exact np_bind' (ihsub prec) (fun r => np_pure' _))) j
        by_cases h9 : wk = Keyword.IS
        · subst h9
          exact (np_bind' (np_parse_keyword P _) (fun b => np_ite (np_pure' _)
            (np_bind' (np_parse_keywords P _) (fun b2 => np_ite (np_pure' _)
              (np_bind' (np_peek_token P) (fun t2 => np_expected _ _)))))) j
        by_cases h10 : wk = Keyword.IN
        · subst h10; exact (ihneg e) j
        by_cases h11 : wk = Keyword.BETWEEN
        · subst h11; exact (ihneg e) j
        have hg3 : 0 < (if wk = Keyword.OR then 5
          else if wk = Keyword.AND then 10
          else if wk = Keyword.NOT then
            (match peek_nth_from P.tokens i 1 with
            | Token.Word w2 =>
              if w2.keyword = Keyword.IN then 20
              else if w2.keyword = Keyword.BETWEEN then 20
              else if w2.keyword = Keyword.LIKE then 20
              else 0
            | _ => 0)
          else if wk = Keyword.IS then 17
          else if wk = Keyword.IN then 20
          else if wk = Keyword.BETWEEN then 20
          else if wk = Keyword.LIKE then 20
          else 0) := hg2
        rw [if_neg h5, if_neg h6, if_neg h8, if_neg h9, if_neg h10, if_neg h11,
          if_neg h7] at hg3
        exact absurd hg3 (Nat.lt_irrefl 0)
    -- 16 parse_infix_negated
    · intro e
      refine np_bind' (np_prev_token P) ?_
      intro u1
      refine np_bind' (np_parse_keyword P _) ?_
      intro neg
      refine np_bind' (np_parse_keyword P _) ?_
      intro b
      refine np_ite (ihin _ _) ?_
      refine np_bind' (np_parse_keyword P _) ?_
      intro b2
      exact np_ite (ihbet _ _) (np_bind' (np_peek_token P) (fun t => np_expected _ _))
    -- 17 parse_in
    · intro e b
      refine np_bind' (np_expect_token P _) ?_
      intro u1
      refine np_bind' (np_bind' (np_parse_keyword P _) (fun b1 => np_ite (c := b1 = true)
        (np_bind' (np_prev_token P) (fun _ => np_bind' ihq (fun q => np_pure' _)))
        (np_bind' (np_parse_keyword P _) (fun b2 => np_ite (c := b2 = true)
          (np_bind' (np_prev_token P) (fun _ => np_bind' ihq (fun q => np_pure' _)))
          (np_bind' ihcse (fun lst => np_pure' _)))))) ?_
      intro in_op
      exact np_bind' (np_expect_token P _) (fun _ => np_pure' _)
    -- 18 parse_between
    · intro e b
      exact np_bind' (ihsub 20) (fun low => np_bind' (np_expect_keyword P _)
        (fun _ => np_bind' (ihsub 20) (fun high => np_pure' _)))
    -- 19 parse_order_by_expr
    · refine np_bind' ihexpr ?_
      intro e
      have hjp : ∀ asc : Option Bool,
          NoPanicPM (parse_keywords P [Keyword.NULLS, Keyword.FIRST] >>= fun l =>
            if l = true then
              (pure (some true) : PM (Option Bool)) >>= fun y =>
                (pure (OrderByExpr.mk e asc y) : PM OrderByExpr)
            else parse_keywords P [Keyword.NULLS, Keyword.LAST] >>= fun l2 =>
              if l2 = true then
                (pure (some false) : PM (Option Bool)) >>= fun y =>
                  pure (OrderByExpr.mk e asc y)
              else (pure none : PM (Option Bool)) >>= fun y =>
                pure (OrderByExpr.mk e asc y)) := by
        intro asc
        refine np_bind' (np_parse_keywords P _) ?_
        intro l
        refine np_ite (np_bind' (np_pure' _) (fun y => np_pure' _)) ?_
        refine np_bind' (np_parse_keywords P _) ?_
        intro l2
        exact np_ite (np_bind' (np_pure' _) (fun y => np_pure' _))
          (np_bind' (np_pure' _) (fun y => np_pure' _))
      refine np_bind' (np_parse_keyword P _) ?_
      intro b1
      cases b1
      case true => exact np_bind' (np_pure' _) (fun y => hjp y)
      case false =>
        refine np_bind' (np_parse_keyword P _) ?_
        intro b2
        cases b2
        case true => exact np_bind' (np_pure' _) (fun y => hjp y)
        case false => exact np_bind' (np_pure' _) (fun y => hjp y)
    -- 20 parse_top
    · refine np_bind' (np_consume_token P _) ?_
      intro b
      refine np_bind' (np_ite
        (np_bind' ihexpr (fun q => np_bind' (np_expect_token P _) (fun _ => np_pure' _)))
        (np_bind' (np_parse_number_value P) (fun v => np_pure' _))) ?_
      intro quantity
      refine np_bind' (np_parse_keyword P _) ?_
      intro pc
      refine np_bind' (np_parse_keywords P _) ?_
      intro wt
      exact np_pure' _
    -- 21 parse_select_item
    · refine np_bind' ihexpr ?_
      intro v
      intro i mm
      split
      · exact np_pure' _ i mm
      · exact np_pure' _ i mm
      · exact np_bind' (np_parse_optional_alias P _)
          (fun o => by cases o <;> exact np_pure' _) i mm
    -- 22 parse_select
    · refine np_bind' (np_parse_comment_for_select P) ?_
      intro cm
      refine np_bind' (np_parse_all_or_distinct P) ?_
      intro dis
      refine np_bind' (np_parse_keyword P _) ?_
      intro b1
      refine np_bind' (np_ite (np_bind' ihtop (fun t => np_pure' _)) (np_pure' _)) ?_
      intro top
      refine np_bind' ihcsi ?_
      intro proj
      refine np_bind' (np_parse_keyword P _) ?_
      intro b2
      refine np_bind' (np_ite ihctj (np_pure' _)) ?_
      intro ft
      refine np_bind' (np_parse_keyword P _) ?_
      intro b3
      refine np_bind' (np_ite (np_bind' ihexpr (fun e => np_pure' _)) (np_pure' _)) ?_
      intro selection
      refine np_bind' (np_parse_keywords P _) ?_
      intro b4
      refine np_bind' (np_ite ihcse (np_pure' _)) ?_
      intro gb
      refine np_bind' (np_parse_keyword P _) ?_
      intro b5
      refine np_bind' (np_ite (np_bind' ihexpr (fun e => np_pure' _)) (np_pure' _)) ?_
      intro having
      exact np_pure' _
    -- 23 parse_table_and_joins
    · exact np_bind' ihtf (fun rel => np_bind' (ihtajl []) (fun js => np_pure' _))
    -- 24 parse_taj_loop
    · intro js
      refine np_bind' (np_parse_keyword P _) ?_
      intro b
      refine np_ite ?_ ?_
      · have hjp : ∀ jop : JoinOperator,
            NoPanicPM (parse_table_factor P fuel >>= fun rel =>
              parse_taj_loop P fuel (js ++ [Join.mk rel jop])) :=
          fun jop => np_bind' ihtf (fun rel => ihtajl _)
        refine np_bind' (np_parse_keyword P _) ?_
        intro b1
        cases b1
        case true => exact np_bind' (np_pure' _) (fun y => hjp y)
        case false =>
          refine np_bind' (np_parse_keyword P _) ?_
          intro b2
          cases b2
          case true => exact np_bind' (np_pure' _) (fun y => hjp y)
          case false =>
            exact np_bind' (np_peek_token P) (fun l =>
              np_bind' (np_expected _ _) (fun y => hjp y))
      · refine np_bind' (np_parse_keyword P _) ?_
        intro b2
        refine np_ite ?_ ?_
        · exact np_bind' (np_expect_keyword P _) (fun _ => np_bind' ihtf
            (fun rel => ihtajl _))
        · refine np_bind' (np_parse_keyword P _) ?_
          intro natural
          refine np_bind' (np_peek_token P) ?_
          intro t
          refine np_bind' ?_ ?_
          · intro i mm
            split
            · exact np_pure' _ i mm
            · exact np_pure' _ i mm
          · intro pk
            refine np_ite ?_ ?_
            · exact np_bind' (np_parse_keyword P _) (fun i1 => np_bind'
                (np_expect_keyword P _) (fun _ => np_bind' ihtf (fun rel => np_bind'
                  (ihjc natural) (fun jc => ihtajl _))))
            · refine np_ite ?_ ?_
              · exact np_bind' (np_next_token P) (fun n1 => np_bind' (np_parse_keyword P _)
                  (fun o1 => np_bind' (np_expect_keyword P _) (fun _ => np_bind' ihtf
                    (fun rel => np_bind' (ihjc natural) (fun jc => ihtajl _)))))
              · refine np_ite ?_ ?_
                · exact np_bind' (np_next_token P) (fun n1 => np_bind'
                    (np_parse_keyword P _) (fun o1 => np_bind' (np_expect_keyword P _)
                      (fun _ => np_bind' ihtf (fun rel => np_bind' (ihjc natural)
                        (fun jc => ihtajl _)))))
                · refine np_ite ?_ ?_
                  · exact np_bind' (np_next_token P) (fun n1 => np_bind'
                      (np_parse_keyword P _) (fun o1 => np_bind' (np_expect_keyword P _)
                        (fun _ => np_bind' ihtf (fun rel => np_bind' (ihjc natural)
                          (fun jc => ihtajl _)))))
                  · exact np_ite (np_bind' (np_peek_token P) (fun t3 => np_expected _ _))
                      (np_ite (np_bind' (np_peek_token P) (fun t3 => np_expected _ _))
                        (np_pure' _))
    -- 25 parse_table_factor
    · refine np_bind' (np_parse_keyword P _) ?_
      intro b
      refine np_ite ?_ ?_
      · refine np_bind' (np_consume_token P _) ?_
        intro b1
        cases b1
        case true => exact np_bind' (np_pure' _) (fun y => ihdtf _)
        case false =>
          exact np_bind' (np_peek_token P) (fun l =>
            np_bind' (np_expected _ _) (fun y => ihdtf _))
      · refine np_bind' (np_consume_token P _) ?_
        intro b2
        refine np_ite ?_ ?_
        · refine np_bind' (ihmdtf _) ?_
          intro o
          cases o
          case some tf => exact np_pure' _
          case none =>
            exact np_bind' ihtaj (fun twj => np_bind' (np_expect_token P _)
              (fun _ => np_pure' _))
        · refine np_bind' (np_parse_object_name P fuel) ?_
          intro name
          refine np_bind' (np_consume_token P _) ?_
          intro b3
          refine np_bind' (np_ite ihoa (np_pure' _)) ?_
          intro args
          refine np_bind' (np_parse_keyword P _) ?_
          intro b4
          refine np_bind' (np_ite (np_bind' (np_parse_force_for_select P)
            (fun fi => np_pure' _)) (np_pure' _)) ?_
          intro force1
          refine np_bind' (np_parse_optional_table_alias P fuel _) ?_
          intro alias_name
          refine np_bind' (np_parse_keyword P _) ?_
          intro b5
          refine np_bind' (np_ite (np_bind' (np_parse_force_for_select P)
            (fun fi => np_pure' _)) (np_pure' _)) ?_
          intro force2
          refine np_bind' (np_parse_keyword P _) ?_
          intro b6
          refine np_bind' (np_ite (np_bind' (np_consume_token P _) (fun b7 => np_ite
            (np_bind' ihcse (fun hs => np_bind' (np_expect_token P _)
              (fun _ => np_pure' _)))
            (np_bind' (np_prev_token P) (fun _ => np_pure' _))))
            (np_pure' _)) ?_
          intro with_hints
          exact np_pure' _
    -- 26 parse_derived_table_factor
    · intro lat
      exact np_bind' ihq (fun sq => np_bind' (np_expect_token P _) (fun _ =>
        np_bind' (np_parse_optional_table_alias P fuel _) (fun an => np_pure' _)))
    -- 27 parse_join_constraint
    · intro b
      cases b
      case true => exact np_pure' _
      case false =>
        exact np_bind' (np_parse_keyword P _) (fun b1 => np_ite
          (np_bind' ihexpr (fun c => np_pure' _))
          (np_bind' (np_parse_keyword P _) (fun b2 => np_ite
            (np_bind' (np_parse_parenthesized_column_list P fuel _)
              (fun cols => np_pure' _))
            (np_bind' (np_peek_token P) (fun t => np_expected _ _)))))
    -- 28 parse_query
    · refine np_bind' (np_parse_keyword P _) ?_
      intro b1
      refine np_bind' (np_ite ihcct (np_pure' _)) ?_
      intro ctes
      refine np_bind' (ihqb 0) ?_
      intro body
      refine np_bind' (np_parse_keywords P _) ?_
      intro b2
      refine np_bind' (np_ite ihcob (np_pure' _)) ?_
      intro order_by
      refine np_bind' (np_parse_keyword P _) ?_
      intro b3
      refine np_bind' (np_ite (np_parse_mysql_limit P) (np_pure' _)) ?_
      intro lo
      refine np_bind' (np_parse_keyword P _) ?_
      intro b4
      refine np_bind' (np_ite (np_bind' (np_expect_keyword P _) (fun _ => np_pure' _))
        (np_pure' _)) ?_
      intro upd
      refine np_bind' (np_parse_keyword P _) ?_
      intro b5
      refine np_bind' (np_ite (np_bind' (np_parse_fetch P) (fun f => np_pure' _))
        (np_pure' _)) ?_
      intro f
      exact np_pure' _
    -- 29 parse_cte
    · exact np_bind' (np_parse_identifier P) (fun n => np_bind'
        (np_parse_parenthesized_column_list P fuel _) (fun cols => np_bind'
          (np_expect_keyword P _) (fun _ => np_bind' (np_expect_token P _) (fun _ =>
            np_bind' ihq (fun q => np_bind' (np_expect_token P _)
              (fun _ => np_pure' _))))))
    -- 30 parse_query_body
    · intro prec
      refine np_bind' (np_bind' (np_parse_keyword P _) (fun b1 => np_ite (c := b1 = true)
        (np_bind' ihsel (fun s => np_pure' _))
        (np_bind' (np_consume_token P _) (fun b2 => np_ite (c := b2 = true)
          (np_bind' ihq (fun sq => np_bind' (np_expect_token P _)
            (fun _ => np_pure' _)))
          (np_bind' (np_parse_keyword P _) (fun b3 => np_ite (c := b3 = true)
            (np_bind' ihv (fun v => np_pure' _))
            (np_bind' (np_parse_keyword P _) (fun b4 => np_ite (c := b4 = true)
              (np_bind' ihv (fun v => np_pure' _))
              (np_bind' (np_peek_token P) (fun t => np_expected _ _)))))))))) ?_
      intro e
      exact ihqbl prec e
    -- 31 parse_query_body_loop
    · intro prec e
      refine np_bind' (np_peek_token P) ?_
      intro t
      generalize parse_set_operator t = so
      intro i mm
      split
      · exact np_pure' _ i mm
      · rename_i op
        cases op <;> exact np_ite (np_pure' _) (np_bind' (np_next_token P) (fun n1 =>
          np_bind' (np_parse_keyword P _) (fun all => np_bind' (ihqb _)
            (fun right => ihqbl prec _)))) i mm
    -- 32 parse_comma_separated_exprs
    · refine np_bind' ihexpr ?_
      intro v
      refine np_bind' (np_consume_token P _) ?_
      intro b
      exact np_ite (np_bind' ihcse (fun rest => np_pure' _)) (np_pure' _)
    -- 33 parse_comma_separated_order_by
    · refine np_bind' ihobe ?_
      intro v
      refine np_bind' (np_consume_token P _) ?_
      intro b
      exact np_ite (np_bind' ihcob (fun rest => np_pure' _)) (np_pure' _)
    -- 34 parse_comma_separated_select_items
    · refine np_bind' ihsi ?_
      intro v
      refine np_bind' (np_consume_token P _) ?_
      intro b
      exact np_ite (np_bind' ihcsi (fun rest => np_pure' _)) (np_pure' _)
    -- 35 parse_comma_separated_taj
    · refine np_bind' ihtaj ?_
      intro v
      refine np_bind' (np_consume_token P _) ?_
      intro b
      exact np_ite (np_bind' ihctj (fun rest => np_pure' _)) (np_pure' _)
    -- 36 parse_comma_separated_ctes
    · refine np_bind' ihcte ?_
      intro v
      refine np_bind' (np_consume_token P _) ?_
      intro b
      exact np_ite (np_bind' ihcct (fun rest => np_pure' _)) (np_pure' _)
    -- 37 parse_comma_separated_rows
    · refine np_bind' (np_expect_token P _) ?_
      intro u1
      refine np_bind' ihcse ?_
      intro exprs
      refine np_bind' (np_expect_token P _) ?_
      intro u2
      refine np_bind' (np_consume_token P _) ?_
      intro b
      exact np_ite (np_bind' ihcrows (fun rest => np_pure' _)) (np_pure' _)
    -- 38 maybe_parse_derived_table_factor
    · intro lat
      intro i mm
      simp only [maybe_parse_derived_table_factor]
      rcases hdi : parse_derived_table_factor P fuel lat i with ⟨r, j⟩
      cases r with
      | ok a => exact fun h => Except.noConfusion h
      | error e =>
        cases e with
        | Panic m2 =>
          have h2 := ihdtf lat i m2
          rw [hdi] at h2
          intro h
          have h3 : PErr.Panic m2 = PErr.Panic mm := Except.error.inj h
          rw [h3] at h2
          exact h2 rfl
        | ParserError m2 => exact fun h => Except.noConfusion h
        | TokenizerError m2 => exact fun h => Except.noConfusion h
    -- 39 parse_values
    · exact np_bind' ihcrows (fun vs => np_pure' _)

/-- **C9**: every call of parse_infix made from the precedence-climbing loop of
parse_subexpr is made at a cursor whose get_next_precedence value strictly
exceeds the current minimum precedence, hence is nonzero; under that
precondition parse_infix never reaches either
`panic!("No infix parser for token ...")` branch - the peeked token is one of
the regular operators, IS, NOT/IN/BETWEEN or `::`, all handled without
panicking - and the recursive parses it starts never panic either. -/
theorem C9_parse_infix_from_subexpr_loop_no_panic (P : Parser) (fuel : Nat)
    (e : Expr) (precedence i : Nat)
    (h : precedence < get_next_precedence_val P i) :
    ResNoPanic (parse_infix_op P fuel e (get_next_precedence_val P i) i) :=
  (np_parser_block P fuel).2.2.2.2.2.2.2.2.2.2.2.2.2.2.1 e
    (get_next_precedence_val P i) i (Nat.lt_of_le_of_lt (Nat.zero_le _) h)

/-- Witness for C9: at the cursor before a `+` token the next precedence is 30,
and the guarded parse_infix call returns without a panic. -/
theorem C9_parse_infix_from_subexpr_loop_no_panic_witness :
    0 < get_next_precedence_val ⟨[Token.Plus], DBType.MySql⟩ 0 ∧
    ResNoPanic (parse_infix_op ⟨[Token.Plus], DBType.MySql⟩ 9
      (Expr.Identifier ⟨"x", none⟩)
      (get_next_precedence_val ⟨[Token.Plus], DBType.MySql⟩ 0) 0) :=
  ⟨by decide, C9_parse_infix_from_subexpr_loop_no_panic ⟨[Token.Plus], DBType.MySql⟩ 9
    (Expr.Identifier ⟨"x", none⟩) 0 0 (by decide)⟩

end SqlParse
